import Mathlib

/-!
Shallow embedding of the startup migration runner of the eduvium-api
repository (`server/seed.ts`, `runMigrations` and the individual migration
step functions), together with theorems settling the specification claims
about it.

Modelling conventions:
* The relevant part of the relational database is a record `St` of tables
  (lists of rows) and schema-presence flags; SQL `INSERT ... ON CONFLICT DO
  NOTHING` becomes insert-if-absent on the conflict key, `UPDATE` becomes a
  `List.map`.
* A step is a function `Env → St → Res` where `Res` carries the state reached
  so far plus an optional thrown error (a thrown JS error with its message);
  `Res.andThen` sequences steps the way `await` sequencing does: an error
  short-circuits, state mutations already committed persist.
* `Env` injects faults: `bodyFault name = some msg` makes the body of the
  named step throw `msg` at its start (before its database effects);
  `hasRunFault` makes the tracking-store existence query inside
  `hasMigrationRun` fail; `markFault` makes the tracking-table insert inside
  `markMigrationComplete` fail; `schemaFilePresent` models
  `fs.existsSync(schemaPath)` for `create_schema.sql`.
* `St.invoked` is a ghost trace (most recent first) of the step functions
  that have been invoked; every database effect in the embedding happens
  inside an invoked step, so a step name absent from the trace means the
  step did not execute and its effects are absent.
* Timestamps (`created_at`, `executed_at`, `NOW()`) and generated UUID row
  ids are not modelled; "identical modulo timestamps" is therefore plain
  equality of `St` up to the ghost trace.
-/

namespace Eduvium

/-- A `boards` table row. -/
structure Board where
  id : String
  name : String
deriving DecidableEq

/-- A `schools` table row. -/
structure School where
  id : String
  name : String
  boardId : Option String
deriving DecidableEq

/-- A `users` table row. -/
structure User where
  id : String
  email : String
  firstName : String
  lastName : String
  role : String
deriving DecidableEq

/-- A `user_schools` junction table row. -/
structure UserSchool where
  userId : String
  schoolId : String
  isDefault : Bool
deriving DecidableEq

/-- A `budget_categories` row (the fields the runner touches). -/
structure BudgetCategory where
  name : String
  schoolId : String
  spent : Int
deriving DecidableEq

/-- A `maintenance_history` row (the fields the runner reads). -/
structure MaintenanceHistory where
  category : String
  schoolId : String
  cost : Option Int
deriving DecidableEq

/-- An `investments` row (the fields the runner reads); `start_date` is
modelled as its calendar year, i.e. the value of `getFullYear()`. -/
structure Investment where
  id : String
  startYear : Option Int
  isCyclic : Bool
  cycleYears : Option Nat
deriving DecidableEq

/-- An `investment_years` row (generated `id` and `created_at` omitted). -/
structure InvestmentYear where
  investmentId : String
  year : Int
  amount : Int
deriving DecidableEq

/-- A `drawings` row (the fields the runner touches). -/
structure Drawing where
  id : String
  category : String
deriving DecidableEq

/-- The database state visible to the migration runner, plus the ghost
invocation trace `invoked`. -/
structure St where
  invoked : List String
  trackingTableExists : Bool
  migrationNames : List String
  schemaExists : Bool
  sessionTableExists : Bool
  drawingCategoryEnum : List String
  roleEnum : List String
  boards : List Board
  schools : List School
  users : List User
  userSchools : List UserSchool
  budgetCategories : List BudgetCategory
  maintenanceHistory : List MaintenanceHistory
  investments : List Investment
  investmentYears : List InvestmentYear
  drawings : List Drawing
  roomsTableExists : Bool
  terrainTableExists : Bool
  roomsMaxStudentsColumn : Bool
  foldersTableExists : Bool
  documentsFolderColumns : Bool
  investmentYearsTableExists : Bool
  investmentsOldColumnsDropped : Bool
  reportsAttachmentColumns : Bool
  maintenanceAttachmentColumns : Bool
deriving DecidableEq

/-- Result of running a step (or a chain of steps): the state reached and
the error thrown, if any.  On an error the state holds the effects already
committed before the throw, as in a database without surrounding
transaction. -/
structure Res where
  st : St
  err : Option String
deriving DecidableEq

/-- Sequencing of awaited step calls: an already-thrown error
short-circuits, otherwise the next step runs on the reached state. -/
def Res.andThen (r : Res) (f : St → Res) : Res :=
  match r.err with
  | some _ => r
  | none => f r.st

/-- Fault-injection environment (which calls throw in a given run). -/
structure Env where
  bodyFault : String → Option String
  hasRunFault : Bool
  markFault : Bool
  schemaFilePresent : Bool

/-- Record in the ghost trace that a step function was invoked. -/
def pushInvoked (n : String) (s : St) : St :=
  { s with invoked := n :: s.invoked }

/-- Insert a string into a list unless already present (`INSERT ... ON
CONFLICT (name) DO NOTHING` on the tracking table). -/
def insertIfAbsentStr (n : String) (l : List String) : List String :=
  if n ∈ l then l else l ++ [n]

/-- Character-wise lowercase, modelling SQL `LOWER`. -/
def lowerStr (s : String) : String :=
  String.mk (s.data.map Char.toLower)

/-- Does the first character list start the second? -/
def charsStartWith : List Char → List Char → Bool
  | [], _ => true
  | _ :: _, [] => false
  | a :: as, b :: bs => decide (a = b) && charsStartWith as bs

/-- Does the first character list occur inside the second? -/
def charsContain (pat : List Char) : List Char → Bool
  | [] => charsStartWith pat []
  | c :: rest => charsStartWith pat (c :: rest) || charsContain pat rest

/-- Does an error message contain the substring "already exists"?  Models
`error?.message?.includes('already exists')` in `ensureSessionTable`. -/
def mentionsAlreadyExists (e : String) : Bool :=
  charsContain "already exists".data e.data

/-- The error message used for an injected tracking-table insert failure. -/
def trackingInsertErr : String := "tracking insert failed"

/-- `hasMigrationRun(name)`: existence query on the tracking table; on query
failure the catch block returns `false` (seed.ts lines 211-222). -/
def hasMigrationRun (env : Env) (name : String) (s : St) : Bool :=
  if env.hasRunFault then false else decide (name ∈ s.migrationNames)

/-- `markMigrationComplete(name)`: insert-if-absent into the tracking table;
a failing insert is rethrown by the catch block (seed.ts lines 224-235). -/
def markMigrationComplete (env : Env) (name : String) (s : St) : Res :=
  if env.markFault then ⟨s, some trackingInsertErr⟩
  else ⟨{ s with migrationNames := insertIfAbsentStr name s.migrationNames }, none⟩

/-- `ensureMigrationTable()`: `CREATE TABLE IF NOT EXISTS migration_status`;
errors are rethrown (seed.ts lines 197-209). -/
def ensureMigrationTable (env : Env) (s : St) : Res :=
  let s := pushInvoked "ensure_migration_table" s
  match env.bodyFault "ensure_migration_table" with
  | some e => ⟨s, some e⟩
  | none => ⟨{ s with trackingTableExists := true }, none⟩

/-- Modelled from the spec: `server/create_schema.sql` is not under `src/`;
per spec sections 2 and 4.3 it is idempotent DDL that creates the base
tables and enums if missing, preserving existing rows.  Modelled as setting
the base-schema-present flag. -/
def applyBaseSchema (s : St) : St :=
  { s with schemaExists := true }

/-- `createBaseSchema()` (seed.ts lines 137-192): if the `schools` table
already exists, mark complete with failures of the marking swallowed by the
inner try/catch; otherwise execute `create_schema.sql` (throwing if the file
is absent) and mark complete, with marking failures propagated.  (The
`hasMigrationRun` consultation on the recreate path only drives a log line
and has no semantic effect.) -/
def createBaseSchema (env : Env) (s : St) : Res :=
  let s := pushInvoked "create_base_schema" s
  match env.bodyFault "create_base_schema" with
  | some e => ⟨s, some e⟩
  | none =>
    if s.schemaExists then
      let r := markMigrationComplete env "create_base_schema" s
      ⟨r.st, none⟩
    else if !env.schemaFilePresent then
      ⟨s, some "Schema SQL file not found"⟩
    else
      markMigrationComplete env "create_base_schema" (applyBaseSchema s)

/-- `ensureSessionTable()` (seed.ts lines 530-573): idempotent DDL for the
session table; errors whose message contains "already exists" are swallowed,
all others are rethrown (critical). -/
def ensureSessionTable (env : Env) (s : St) : Res :=
  let s := pushInvoked "ensure_session_table" s
  match env.bodyFault "ensure_session_table" with
  | some e => if mentionsAlreadyExists e then ⟨s, none⟩ else ⟨s, some e⟩
  | none => ⟨{ s with sessionTableExists := true }, none⟩

/-- The four values `addDrawingCategoryEnumValues` adds to the
`drawing_category` enum. -/
def drawingEnumAdditions : List String :=
  ["terrein", "overig", "veiligheid", "afwerking"]

/-- Add each of the four drawing-category values to the enum if missing. -/
def addDrawingValues (cur : List String) : List String :=
  drawingEnumAdditions.foldl (fun acc v => insertIfAbsentStr v acc) cur

/-- `addDrawingCategoryEnumValues()` (seed.ts lines 581-618): skipped when
tracked as run; otherwise adds each missing value to the enum (guarded by a
`pg_enum` catalog check) and marks complete. -/
def addDrawingCategoryEnumValues (env : Env) (s : St) : Res :=
  let s := pushInvoked "add_all_drawing_category_enum_values" s
  if hasMigrationRun env "add_all_drawing_category_enum_values" s then ⟨s, none⟩
  else
    match env.bodyFault "add_all_drawing_category_enum_values" with
    | some e => ⟨s, some e⟩
    | none =>
      let s := { s with drawingCategoryEnum := addDrawingValues s.drawingCategoryEnum }
      markMigrationComplete env "add_all_drawing_category_enum_values" s

/-- The two fixed board rows seeded by `seedSchoolsAndBoards`. -/
def seededBoards : List Board :=
  [⟨"16f34a48-cda4-4355-b27f-2f3a554d4f49", "Hervormde Scholen"⟩,
   ⟨"4fce4dc9-f9b4-4c18-b1b2-386b12e2b7b9", "VPCO"⟩]

/-- The nine fixed school rows seeded by `seedSchoolsAndBoards`. -/
def seededSchools : List School :=
  [⟨"1d09ec9f-8177-4e8d-8ffe-22912d6785b2", "De Appelgaard", some "16f34a48-cda4-4355-b27f-2f3a554d4f49"⟩,
   ⟨"655a2de6-a5a9-48f6-9ca3-19aa6675cac9", "De Hoeksteen", some "16f34a48-cda4-4355-b27f-2f3a554d4f49"⟩,
   ⟨"14d3ab65-e849-4af2-9280-b386ac80c69d", "De Horizon", some "16f34a48-cda4-4355-b27f-2f3a554d4f49"⟩,
   ⟨"7ffa2b7b-2d71-4f5d-89c4-88190ff85f7c", "Ichtus", some "16f34a48-cda4-4355-b27f-2f3a554d4f49"⟩,
   ⟨"099237d5-89eb-405f-90d1-2670976e7775", "Maranatha", some "16f34a48-cda4-4355-b27f-2f3a554d4f49"⟩,
   ⟨"3aaf933c-1b0f-4c7c-b670-d6eed43de3c9", "Rehoboth", some "16f34a48-cda4-4355-b27f-2f3a554d4f49"⟩,
   ⟨"1921acbb-cb38-46f0-9819-dd3a02b27ca0", "Olijfboom", some "4fce4dc9-f9b4-4c18-b1b2-386b12e2b7b9"⟩,
   ⟨"2e39cec0-0213-4839-9223-3a042fb0a0ad", "School a", none⟩,
   ⟨"9e277fdf-7db8-437d-96ff-ccc38c0ac924", "Test Omgeving", none⟩]

/-- Insert a board row unless a row with the same id exists
(`ON CONFLICT (id) DO NOTHING`). -/
def insertBoardIfAbsent (b : Board) (l : List Board) : List Board :=
  if l.any (fun x => decide (x.id = b.id)) then l else l ++ [b]

/-- Insert a school row unless a row with the same id exists
(`ON CONFLICT (id) DO NOTHING`). -/
def insertSchoolIfAbsent (x : School) (l : List School) : List School :=
  if l.any (fun y => decide (y.id = x.id)) then l else l ++ [x]

/-- Insert the two fixed board rows, each if absent by id. -/
def seedAllBoards (cur : List Board) : List Board :=
  seededBoards.foldl (fun acc b => insertBoardIfAbsent b acc) cur

/-- Insert the nine fixed school rows, each if absent by id. -/
def seedAllSchools (cur : List School) : List School :=
  seededSchools.foldl (fun acc x => insertSchoolIfAbsent x acc) cur

/-- `seedSchoolsAndBoards()` (seed.ts lines 242-299): if any school row
exists, only mark complete (marking failures propagate); otherwise insert
the two fixed boards and nine fixed schools and mark complete. -/
def seedSchoolsAndBoards (env : Env) (s : St) : Res :=
  let s := pushInvoked "seed_schools_and_boards" s
  match env.bodyFault "seed_schools_and_boards" with
  | some e => ⟨s, some e⟩
  | none =>
    if s.schools.isEmpty then
      let s := { s with boards := seedAllBoards s.boards }
      let s := { s with schools := seedAllSchools s.schools }
      markMigrationComplete env "seed_schools_and_boards" s
    else
      markMigrationComplete env "seed_schools_and_boards" s

/-- The fixed id of the hardcoded admin user. -/
def hardcodedUserId : String := "3f62dec4-fc48-4308-850d-cd0dca4d4349"

/-- The hardcoded admin user row inserted by `seedHardcodedAdminUser`. -/
def hardcodedAdminUser : User :=
  ⟨hardcodedUserId, "admin@eduvium.nl", "System", "Administrator", "admin"⟩

/-- `seedHardcodedAdminUser()` (seed.ts lines 307-345): self-idempotent (no
tracking); inserts the fixed admin user when absent; errors rethrown. -/
def seedHardcodedAdminUser (env : Env) (s : St) : Res :=
  let s := pushInvoked "seed_hardcoded_admin_user" s
  match env.bodyFault "seed_hardcoded_admin_user" with
  | some e => ⟨s, some e⟩
  | none =>
    if s.users.any (fun u => decide (u.id = hardcodedUserId)) then ⟨s, none⟩
    else ⟨{ s with users := s.users ++ [hardcodedAdminUser] }, none⟩

/-- Does some `user_schools` row reference the given user? -/
def hasSchoolAssignment (s : St) (uid : String) : Bool :=
  s.userSchools.any (fun r => decide (r.userId = uid))

/-- The schools not yet paired with the given user (the `WHERE NOT EXISTS`
filter of the `CROSS JOIN` insert in `assignUsersToSchools`). -/
def missingSchools (s : St) (uid : String) : List School :=
  s.schools.filter (fun sch =>
    !(s.userSchools.any (fun r => decide (r.userId = uid ∧ r.schoolId = sch.id))))

/-- The minimal school name in a list (used to model
`ROW_NUMBER() OVER (PARTITION BY u.id ORDER BY s.name) = 1`). -/
def minSchoolName : List School → String
  | [] => ""
  | x :: xs => xs.foldl (fun m sch => if sch.name < m then sch.name else m) x.name

/-- Build the `user_schools` rows inserted for one user: one row per school,
with `is_default` true exactly on the first school whose name equals `m`. -/
def markFirstDefault (uid : String) (m : String) : List School → List UserSchool
  | [] => []
  | sch :: rest =>
    if sch.name = m then
      ⟨uid, sch.id, true⟩ :: rest.map (fun t => ⟨uid, t.id, false⟩)
    else
      ⟨uid, sch.id, false⟩ :: markFirstDefault uid m rest

/-- The rows inserted for one user by the auto-assignment insert: all the
given schools, the alphabetically-first one marked default. -/
def assignRows (uid : String) (schs : List School) : List UserSchool :=
  markFirstDefault uid (minSchoolName schs) schs

/-- `assignUsersToSchools()` (seed.ts lines 353-413): self-idempotent; when
no user exists or no user lacks an assignment, does nothing; otherwise
inserts, for every user, a row for every school not yet paired with that
user, marking per user the alphabetically-first inserted school as default. -/
def assignUsersToSchools (env : Env) (s : St) : Res :=
  let s := pushInvoked "assign_users_to_schools" s
  match env.bodyFault "assign_users_to_schools" with
  | some e => ⟨s, some e⟩
  | none =>
    if s.users.isEmpty then ⟨s, none⟩
    else if !(s.users.any (fun u => !hasSchoolAssignment s u.id)) then ⟨s, none⟩
    else
      let rows := s.users.flatMap (fun u => assignRows u.id (missingSchools s u.id))
      ⟨{ s with userSchools := s.userSchools ++ rows }, none⟩

/-- `ensureSupabaseBucketsForSchools()` (seed.ts lines 421-468): talks only
to the external object-storage service; every error (per bucket and for the
whole body) is caught and logged, never rethrown, and no database state is
touched. -/
def ensureSupabaseBucketsForSchools (env : Env) (s : St) : Res :=
  let s := pushInvoked "ensure_supabase_buckets_for_schools" s
  match env.bodyFault "ensure_supabase_buckets_for_schools" with
  | some _ => ⟨s, none⟩
  | none => ⟨s, none⟩

/-- The recomputed `spent` value of one budget category: the sum of `cost`
over the maintenance-history rows matching on lowercased category name and
school id, counting only non-null costs (`COALESCE(SUM(..), 0)`). -/
def spentFor (mh : List MaintenanceHistory) (bc : BudgetCategory) : Int :=
  ((mh.filter (fun r =>
      decide (lowerStr r.category = lowerStr bc.name ∧ r.schoolId = bc.schoolId))).filterMap
    (fun r => r.cost)).sum

/-- `recalculateBudgetSpentAmounts()` (seed.ts lines 475-518): skipped when
tracked as run; otherwise resets every `spent` to 0, recomputes every
`spent` from `maintenance_history`, and marks complete. -/
def recalculateBudgetSpentAmounts (env : Env) (s : St) : Res :=
  let s := pushInvoked "recalculate_budget_spent_amounts" s
  if hasMigrationRun env "recalculate_budget_spent_amounts" s then ⟨s, none⟩
  else
    match env.bodyFault "recalculate_budget_spent_amounts" with
    | some e => ⟨s, some e⟩
    | none =>
      let zeroed := s.budgetCategories.map (fun bc => (⟨bc.name, bc.schoolId, 0⟩ : BudgetCategory))
      let s := { s with budgetCategories := zeroed }
      let recomputed := s.budgetCategories.map (fun bc =>
        (⟨bc.name, bc.schoolId, spentFor s.maintenanceHistory bc⟩ : BudgetCategory))
      let s := { s with budgetCategories := recomputed }
      markMigrationComplete env "recalculate_budget_spent_amounts" s

/-- `createRoomsAndTerrainTables()` (seed.ts lines 624-670). -/
def createRoomsAndTerrainTables (env : Env) (s : St) : Res :=
  let s := pushInvoked "create_rooms_and_terrain_tables" s
  if hasMigrationRun env "create_rooms_and_terrain_tables" s then ⟨s, none⟩
  else
    match env.bodyFault "create_rooms_and_terrain_tables" with
    | some e => ⟨s, some e⟩
    | none =>
      let s := { s with roomsTableExists := true, terrainTableExists := true }
      markMigrationComplete env "create_rooms_and_terrain_tables" s

/-- `addMaxStudentsToRooms()` (seed.ts lines 676-701). -/
def addMaxStudentsToRooms (env : Env) (s : St) : Res :=
  let s := pushInvoked "add_max_students_to_rooms" s
  if hasMigrationRun env "add_max_students_to_rooms" s then ⟨s, none⟩
  else
    match env.bodyFault "add_max_students_to_rooms" with
    | some e => ⟨s, some e⟩
    | none =>
      let s := { s with roomsMaxStudentsColumn := true }
      markMigrationComplete env "add_max_students_to_rooms" s

/-- `createFoldersAndExtendDocuments()` (seed.ts lines 707-746). -/
def createFoldersAndExtendDocuments (env : Env) (s : St) : Res :=
  let s := pushInvoked "create_folders_and_extend_documents" s
  if hasMigrationRun env "create_folders_and_extend_documents" s then ⟨s, none⟩
  else
    match env.bodyFault "create_folders_and_extend_documents" with
    | some e => ⟨s, some e⟩
    | none =>
      let s := { s with foldersTableExists := true, documentsFolderColumns := true }
      markMigrationComplete env "create_folders_and_extend_documents" s

/-- `createInvestmentYearsTable()` (seed.ts lines 753-793). -/
def createInvestmentYearsTable (env : Env) (s : St) : Res :=
  let s := pushInvoked "create_investment_years_table" s
  if hasMigrationRun env "create_investment_years_table" s then ⟨s, none⟩
  else
    match env.bodyFault "create_investment_years_table" with
    | some e => ⟨s, some e⟩
    | none =>
      let s := { s with investmentYearsTableExists := true, investmentsOldColumnsDropped := true }
      markMigrationComplete env "create_investment_years_table" s

/-- The drawing categories the code treats as valid in
`fixInvalidDrawingCategories`. -/
def validDrawingCategories : List String :=
  ["bouwkundig", "w-installatie", "e-installatie", "terrein", "overig", "veiligheid", "afwerking"]

/-- `fixInvalidDrawingCategories()` (seed.ts lines 800-832). -/
def fixInvalidDrawingCategories (env : Env) (s : St) : Res :=
  let s := pushInvoked "fix_invalid_drawing_categories" s
  if hasMigrationRun env "fix_invalid_drawing_categories" s then ⟨s, none⟩
  else
    match env.bodyFault "fix_invalid_drawing_categories" with
    | some e => ⟨s, some e⟩
    | none =>
      let fixed := s.drawings.map (fun d =>
        if d.category ∈ validDrawingCategories then d else { d with category := "overig" })
      let s := { s with drawings := fixed }
      markMigrationComplete env "fix_invalid_drawing_categories" s

/-- The target years generated for one investment by
`populateInvestmentYears`: for a cyclic investment with a non-zero cycle
(JS truthiness of `investment.is_cyclic && investment.cycle_years`), every
`startYear + k * cycle` up to and including at most `startYear + 30`;
otherwise the single start year. -/
def yearsForInvestment (inv : Investment) : List Int :=
  match inv.startYear with
  | none => []
  | some y =>
    if inv.isCyclic then
      match inv.cycleYears with
      | some c => if c = 0 then [y] else (List.range (30 / c + 1)).map (fun k => y + (k * c : Nat))
      | none => [y]
    else [y]

/-- Insert an `investment_years` row unless a row with the same
`(investment_id, year)` key exists (`ON CONFLICT DO NOTHING` against the
table's unique constraint). -/
def insertInvestmentYearIfAbsent (row : InvestmentYear) (l : List InvestmentYear) : List InvestmentYear :=
  if l.any (fun r => decide (r.investmentId = row.investmentId ∧ r.year = row.year)) then l
  else l ++ [row]

/-- The investments selected by the backfill query: no `investment_years`
row references them and their start date is non-null. -/
def investmentsNeedingYears (s : St) : List Investment :=
  s.investments.filter (fun i =>
    !(s.investmentYears.any (fun r => decide (r.investmentId = i.id))) && !(i.startYear.isNone))

/-- Insert the generated year rows for one investment, each if absent by
the `(investment_id, year)` key. -/
def insertYearsFor (inv : Investment) (acc : List InvestmentYear) : List InvestmentYear :=
  (yearsForInvestment inv).foldl
    (fun acc2 yr => insertInvestmentYearIfAbsent ⟨inv.id, yr, 0⟩ acc2) acc

/-- Run the year-row inserts for every listed investment, in order. -/
def populateAll (invs : List Investment) (acc : List InvestmentYear) : List InvestmentYear :=
  invs.foldl (fun acc inv => insertYearsFor inv acc) acc

/-- `populateInvestmentYears()` (seed.ts lines 839-902): skipped when
tracked as run; otherwise inserts, for every investment with no year rows
and a non-null start date, one zero-amount row per generated year, then
marks complete (also on the nothing-to-do path). -/
def populateInvestmentYears (env : Env) (s : St) : Res :=
  let s := pushInvoked "populate_investment_years" s
  if hasMigrationRun env "populate_investment_years" s then ⟨s, none⟩
  else
    match env.bodyFault "populate_investment_years" with
    | some e => ⟨s, some e⟩
    | none =>
      let s := { s with investmentYears := populateAll (investmentsNeedingYears s) s.investmentYears }
      markMigrationComplete env "populate_investment_years" s

/-- `addAttachmentColumnsToReportsAndMaintenance()` (seed.ts lines 964-997). -/
def addAttachmentColumnsToReportsAndMaintenance (env : Env) (s : St) : Res :=
  let s := pushInvoked "add_attachment_columns_to_reports_and_maintenance" s
  if hasMigrationRun env "add_attachment_columns_to_reports_and_maintenance" s then ⟨s, none⟩
  else
    match env.bodyFault "add_attachment_columns_to_reports_and_maintenance" with
    | some e => ⟨s, some e⟩
    | none =>
      let s := { s with reportsAttachmentColumns := true, maintenanceAttachmentColumns := true }
      markMigrationComplete env "add_attachment_columns_to_reports_and_maintenance" s

/-- `extendRoleEnumForRbac()` (seed.ts lines 909-958): skipped when tracked
as run; otherwise ensures the `directeur` and `medewerker` enum values exist
(when the catalog check finds fewer than both), converts every `user` role
to `directeur`, and marks complete. -/
def extendRoleEnumForRbac (env : Env) (s : St) : Res :=
  let s := pushInvoked "extend_role_enum_for_rbac" s
  if hasMigrationRun env "extend_role_enum_for_rbac" s then ⟨s, none⟩
  else
    match env.bodyFault "extend_role_enum_for_rbac" with
    | some e => ⟨s, some e⟩
    | none =>
      let present := (["directeur", "medewerker"].filter (fun v => v ∈ s.roleEnum)).length
      let s :=
        if present < 2 then
          { s with roleEnum := insertIfAbsentStr "medewerker" (insertIfAbsentStr "directeur" s.roleEnum) }
        else s
      let converted := s.users.map (fun u =>
        if u.role = "user" then { u with role := "directeur" } else u)
      let s := { s with users := converted }
      markMigrationComplete env "extend_role_enum_for_rbac" s

/-- `fixJeanAdminRole()` (seed.ts lines 1004-1041): tracked under the name
`fix_jean_admin_role_v2`; forces the role of the user with the fixed email
to `admin` (case-insensitive email match) and marks complete. -/
def fixJeanAdminRole (env : Env) (s : St) : Res :=
  let s := pushInvoked "fix_jean_admin_role_v2" s
  if hasMigrationRun env "fix_jean_admin_role_v2" s then ⟨s, none⟩
  else
    match env.bodyFault "fix_jean_admin_role_v2" with
    | some e => ⟨s, some e⟩
    | none =>
      let promoted := s.users.map (fun u =>
        if lowerStr u.email = lowerStr "jean@deruiterpartners.nl" then { u with role := "admin" } else u)
      let s := { s with users := promoted }
      markMigrationComplete env "fix_jean_admin_role_v2" s

/-- The critical prefix of `runMigrations` (seed.ts lines 1047-1054):
tracking table, base schema, session table, enum values, schools/boards. -/
def criticalRun (env : Env) (s : St) : Res :=
  ((((ensureMigrationTable env s).andThen
      (createBaseSchema env)).andThen
      (ensureSessionTable env)).andThen
      (addDrawingCategoryEnumValues env)).andThen
      (seedSchoolsAndBoards env)

/-- The single-batch chain of non-critical steps (the body of the inner
`try` of `runMigrations`, seed.ts lines 1057-1070). -/
def nonCriticalRun (env : Env) (s : St) : Res :=
  ((((((((((((seedHardcodedAdminUser env s).andThen
      (assignUsersToSchools env)).andThen
      (ensureSupabaseBucketsForSchools env)).andThen
      (recalculateBudgetSpentAmounts env)).andThen
      (createRoomsAndTerrainTables env)).andThen
      (addMaxStudentsToRooms env)).andThen
      (createFoldersAndExtendDocuments env)).andThen
      (createInvestmentYearsTable env)).andThen
      (fixInvalidDrawingCategories env)).andThen
      (populateInvestmentYears env)).andThen
      (addAttachmentColumnsToReportsAndMaintenance env)).andThen
      (extendRoleEnumForRbac env)).andThen
      (fixJeanAdminRole env)

/-- `runMigrations()` (seed.ts lines 1043-1081): run the critical steps,
rethrowing their errors; then run the non-critical batch inside a try/catch
whose catch only logs, so the overall invocation resolves whenever the
critical prefix does. -/
def runMigrations (env : Env) (s : St) : Res :=
  let r := criticalRun env s
  match r.err with
  | some e => ⟨r.st, some e⟩
  | none => ⟨(nonCriticalRun env r.st).st, none⟩

/-- The declared order of the migration steps proper (the tracking-store
setup `ensure_migration_table` is the tracking-store precondition of spec
section 4.1 and precedes them). -/
def migrationStepOrder : List String :=
  ["create_base_schema",
   "ensure_session_table",
   "add_all_drawing_category_enum_values",
   "seed_schools_and_boards",
   "seed_hardcoded_admin_user",
   "assign_users_to_schools",
   "ensure_supabase_buckets_for_schools",
   "recalculate_budget_spent_amounts",
   "create_rooms_and_terrain_tables",
   "add_max_students_to_rooms",
   "create_folders_and_extend_documents",
   "create_investment_years_table",
   "fix_invalid_drawing_categories",
   "populate_investment_years",
   "add_attachment_columns_to_reports_and_maintenance",
   "extend_role_enum_for_rbac",
   "fix_jean_admin_role_v2"]

/-- Everything `runMigrations` invokes, in declared order. -/
def runnerOrder : List String :=
  "ensure_migration_table" :: migrationStepOrder

/-- The non-critical step names, in declared order. -/
def nonCriticalNames : List String :=
  ["seed_hardcoded_admin_user",
   "assign_users_to_schools",
   "ensure_supabase_buckets_for_schools",
   "recalculate_budget_spent_amounts",
   "create_rooms_and_terrain_tables",
   "add_max_students_to_rooms",
   "create_folders_and_extend_documents",
   "create_investment_years_table",
   "fix_invalid_drawing_categories",
   "populate_investment_years",
   "add_attachment_columns_to_reports_and_maintenance",
   "extend_role_enum_for_rbac",
   "fix_jean_admin_role_v2"]

/-- The critical step names, in declared order (after the tracking-table
setup). -/
def criticalNames : List String :=
  ["create_base_schema",
   "ensure_session_table",
   "add_all_drawing_category_enum_values",
   "seed_schools_and_boards"]

/-- The names recorded in the tracking table by the tracked steps. -/
def trackedNames : List String :=
  ["create_base_schema",
   "add_all_drawing_category_enum_values",
   "seed_schools_and_boards",
   "recalculate_budget_spent_amounts",
   "create_rooms_and_terrain_tables",
   "add_max_students_to_rooms",
   "create_folders_and_extend_documents",
   "create_investment_years_table",
   "fix_invalid_drawing_categories",
   "populate_investment_years",
   "add_attachment_columns_to_reports_and_maintenance",
   "extend_role_enum_for_rbac",
   "fix_jean_admin_role_v2"]

/-- The migration steps that insert or update rows of downstream tables
(as opposed to pure DDL/schema-shape steps). -/
def rowWritingSteps : List String :=
  ["seed_schools_and_boards",
   "seed_hardcoded_admin_user",
   "assign_users_to_schools",
   "recalculate_budget_spent_amounts",
   "fix_invalid_drawing_categories",
   "populate_investment_years",
   "extend_role_enum_for_rbac",
   "fix_jean_admin_role_v2"]

/-- The fault-free environment (every query succeeds, the schema SQL file is
present). -/
def envOk : Env :=
  ⟨fun _ => none, false, false, true⟩

/-- Environment whose only fault is that the named step's body throws the
given error. -/
def envFaultOnly (n : String) (e : String) : Env :=
  ⟨fun m => if m = n then some e else none, false, false, true⟩

/-- Environment whose only fault is the tracking-store existence query. -/
def envHasRunFaultOnly : Env :=
  ⟨fun _ => none, true, false, true⟩

/-- Environment whose only fault is the tracking-table insert. -/
def envMarkFaultOnly : Env :=
  ⟨fun _ => none, false, true, true⟩

/-- A fresh, empty database state. -/
def freshSt : St :=
  ⟨[], false, [], false, false, [], [], [], [], [], [], [], [], [], [], [],
   false, false, false, false, false, false, false, false, false⟩

/-- A small populated state used by concrete witnesses: the budget
recalculation is already tracked as run, and there is one budget category
with matching maintenance-history rows. -/
def sampleSt : St :=
  { freshSt with
    migrationNames := ["recalculate_budget_spent_amounts"],
    budgetCategories := [⟨"HVAC", "school-1", 99⟩],
    maintenanceHistory :=
      [⟨"hvac", "school-1", some 40⟩, ⟨"HVAC", "school-1", some 2⟩,
       ⟨"hvac", "school-2", some 5⟩, ⟨"hvac", "school-1", none⟩] }

/-- Spec-side statement of the budget backfill sum (written from the spec's
words, for comparison with `spentFor`, which is written from the source
SQL): the sum of `cost` over the maintenance-history rows whose category
equals the given name case-insensitively, whose school id equals the given
school id, counting only rows with non-null cost. -/
def specBudgetSpent (mh : List MaintenanceHistory) (name : String) (schoolId : String) : Int :=
  ((mh.filter (fun r =>
      decide (lowerStr r.category = lowerStr name) && decide (r.schoolId = schoolId) &&
        r.cost.isSome)).filterMap (fun r => r.cost)).sum

/-- A concrete state with untracked budget recalculation: two budget
categories with stale `spent` values and three maintenance-history rows
(one matching case-insensitively, one with a null cost, one in another
school). -/
def budgetSampleSt : St :=
  { freshSt with
    budgetCategories := [⟨"Painting", "school-1", 5⟩, ⟨"Roofing", "school-1", 7⟩],
    maintenanceHistory :=
      [⟨"painting", "school-1", some 40⟩, ⟨"PAINTING", "school-1", none⟩,
       ⟨"painting", "school-2", some 9⟩, ⟨"PaInTiNg", "school-1", some 2⟩] }

/-- A concrete state with untracked investment-years backfill: a cyclic
investment, a non-cyclic one, one without start date, and one already
covered by a year row. -/
def investSampleSt : St :=
  { freshSt with
    investments :=
      [⟨"inv-a", some 2020, true, some 7⟩, ⟨"inv-b", some 2021, false, none⟩,
       ⟨"inv-c", none, true, some 5⟩, ⟨"inv-d", some 2019, true, some 7⟩],
    investmentYears := [⟨"inv-d", 2019, 0⟩] }

/-- A concrete user with no `user_schools` row in `assignSampleSt`. -/
def orphanUser : User := ⟨"u-1", "a@x.nl", "A", "B", "admin"⟩

/-- A concrete state with two users (one orphaned), two schools and one
existing assignment, used to instantiate theorems about the user-school
auto-assignment. -/
def assignSampleSt : St :=
  { freshSt with
    users := [orphanUser, ⟨"u-2", "b@x.nl", "C", "D", "user"⟩],
    schools := [⟨"s-2", "Beta", none⟩, ⟨"s-1", "Alpha", none⟩],
    userSchools := [⟨"u-2", "s-1", true⟩] }

/-- The database state with the ghost trace erased: two states are "the same
database" when their `obs` agree. -/
def obs (s : St) : St :=
  { s with invoked := [] }

/-- The post-state invariant of one successful fault-free run: schema
flags set, every tracked migration recorded, the hardcoded admin user
present, schools seeded, and every user assigned to at least one school.
On such a state every step of a second run skips its body or re-runs it
without any database effect. -/
def Settled (s : St) : Prop :=
  s.trackingTableExists = true ∧
  s.schemaExists = true ∧
  s.sessionTableExists = true ∧
  (∀ n ∈ trackedNames, n ∈ s.migrationNames) ∧
  s.users.any (fun u => decide (u.id = hardcodedUserId)) = true ∧
  s.schools.isEmpty = false ∧
  (∀ u ∈ s.users, s.userSchools.any (fun r => decide (r.userId = u.id)) = true)

/-- A step of the runner paired with its name. -/
abbrev NamedStep : Type :=
  String × (Env → St → Res)

/-- Run a list of named steps in sequence from an intermediate result. -/
def runSeq (env : Env) (fs : List NamedStep) (r : Res) : Res :=
  fs.foldl (fun acc p => acc.andThen (p.2 env)) r

/-- The critical steps with their names, in declared order. -/
def criticalPairs : List NamedStep :=
  [("ensure_migration_table", ensureMigrationTable),
   ("create_base_schema", createBaseSchema),
   ("ensure_session_table", ensureSessionTable),
   ("add_all_drawing_category_enum_values", addDrawingCategoryEnumValues),
   ("seed_schools_and_boards", seedSchoolsAndBoards)]

/-- The non-critical steps with their names, in declared order. -/
def nonCriticalPairs : List NamedStep :=
  [("seed_hardcoded_admin_user", seedHardcodedAdminUser),
   ("assign_users_to_schools", assignUsersToSchools),
   ("ensure_supabase_buckets_for_schools", ensureSupabaseBucketsForSchools),
   ("recalculate_budget_spent_amounts", recalculateBudgetSpentAmounts),
   ("create_rooms_and_terrain_tables", createRoomsAndTerrainTables),
   ("add_max_students_to_rooms", addMaxStudentsToRooms),
   ("create_folders_and_extend_documents", createFoldersAndExtendDocuments),
   ("create_investment_years_table", createInvestmentYearsTable),
   ("fix_invalid_drawing_categories", fixInvalidDrawingCategories),
   ("populate_investment_years", populateInvestmentYears),
   ("add_attachment_columns_to_reports_and_maintenance", addAttachmentColumnsToReportsAndMaintenance),
   ("extend_role_enum_for_rbac", extendRoleEnumForRbac),
   ("fix_jean_admin_role_v2", fixJeanAdminRole)]

/-- A named step behaves well under `env`: it returns without error, records
exactly its own invocation, and adds at most its own name to the tracking
table. -/
def GoodAt (env : Env) (p : NamedStep) : Prop :=
  ∀ s, ∃ t, p.2 env s = ⟨t, none⟩ ∧ t.invoked = p.1 :: s.invoked ∧
    ∀ m, m ∈ t.migrationNames → m ∈ s.migrationNames ∨ m = p.1

/-- The step names the runner invokes up to and including the named step,
in declared order. -/
def upToIncluding (n : String) : List String :=
  (runnerOrder.takeWhile (fun m => !(decide (m = n)))) ++ [n]

/-- The step names declared strictly after the named step. -/
def laterSteps (n : String) : List String :=
  (runnerOrder.dropWhile (fun m => !(decide (m = n)))).drop 1

lemma andThen_mk_none (t : St) (f : St → Res) : (Res.mk t none).andThen f = f t := rfl

lemma andThen_mk_some (t : St) (e : String) (f : St → Res) :
    (Res.mk t (some e)).andThen f = ⟨t, some e⟩ := rfl

lemma runSeq_nil (env : Env) (r : Res) : runSeq env [] r = r := rfl

lemma runSeq_cons (env : Env) (p : NamedStep) (fs : List NamedStep) (r : Res) :
    runSeq env (p :: fs) r = runSeq env fs (r.andThen (p.2 env)) := rfl

lemma runSeq_append (env : Env) (fs gs : List NamedStep) (r : Res) :
    runSeq env (fs ++ gs) r = runSeq env gs (runSeq env fs r) :=
  List.foldl_append ..

lemma runSeq_err (env : Env) (fs : List NamedStep) (t : St) (e : String) :
    runSeq env fs ⟨t, some e⟩ = ⟨t, some e⟩ := by
  induction fs with
  | nil => rfl
  | cons p rest ih => rw [runSeq_cons, andThen_mk_some, ih]

lemma mem_insertIfAbsentStr (m n : String) (l : List String) :
    m ∈ insertIfAbsentStr n l → m ∈ l ∨ m = n := by
  unfold insertIfAbsentStr
  split
  · exact Or.inl
  · intro h
    rcases List.mem_append.mp h with h | h
    · exact Or.inl h
    · exact Or.inr (List.mem_singleton.mp h)

lemma self_mem_insertIfAbsentStr (n : String) (l : List String) :
    n ∈ insertIfAbsentStr n l := by
  unfold insertIfAbsentStr
  split
  · assumption
  · exact List.mem_append.mpr (Or.inr (List.mem_singleton.mpr rfl))

lemma insertIfAbsentStr_of_mem (n : String) (l : List String) (h : n ∈ l) :
    insertIfAbsentStr n l = l := by
  unfold insertIfAbsentStr
  exact if_pos h

lemma mono_insertIfAbsentStr (m n : String) (l : List String) (h : m ∈ l) :
    m ∈ insertIfAbsentStr n l := by
  unfold insertIfAbsentStr
  split
  · exact h
  · exact List.mem_append.mpr (Or.inl h)

/-- Running a list of steps that are all well-behaved under `env` reaches a
state with no error, the whole name list pushed onto the trace, and at most
those names added to the tracking table. -/
lemma runSeq_ok (env : Env) (fs : List NamedStep) (h : ∀ p ∈ fs, GoodAt env p) (s : St) :
    ∃ t, runSeq env fs ⟨s, none⟩ = ⟨t, none⟩ ∧
      t.invoked = (fs.map Prod.fst).reverse ++ s.invoked ∧
      ∀ m, m ∈ t.migrationNames → m ∈ s.migrationNames ∨ m ∈ fs.map Prod.fst := by
  induction fs generalizing s with
  | nil => exact ⟨s, rfl, by simp, fun m hm => Or.inl hm⟩
  | cons p rest ih =>
    obtain ⟨t1, ht1, hinv1, hmig1⟩ := h p (List.mem_cons_self p rest) s
    obtain ⟨t2, ht2, hinv2, hmig2⟩ := ih (fun q hq => h q (List.mem_cons_of_mem p hq)) t1
    refine ⟨t2, ?_, ?_, ?_⟩
    · rw [runSeq_cons, andThen_mk_none, ht1, ht2]
    · rw [hinv2, hinv1]
      simp
    · intro m hm
      rcases hmig2 m hm with hm' | hm'
      · rcases hmig1 m hm' with hm'' | hm''
        · exact Or.inl hm''
        · exact Or.inr (by rw [List.map_cons, hm'']; exact List.mem_cons_self _ _)
      · exact Or.inr (by rw [List.map_cons]; exact List.mem_cons_of_mem _ hm')

/-- Running `pre ++ p :: post` where the `pre` steps are well-behaved and
`p` throws (whenever reached on a state whose tracking table extends the
start state only by the `pre` names) stops at `p`: the result carries `p`'s
error and exactly the `pre` names plus `p` on the trace. -/
lemma runSeq_fault (env : Env) (pre : List NamedStep) (p : NamedStep) (post : List NamedStep)
    (s : St) (e : String)
    (hpre : ∀ q ∈ pre, GoodAt env q)
    (hp : ∀ u : St, (∀ m, m ∈ u.migrationNames → m ∈ s.migrationNames ∨ m ∈ pre.map Prod.fst) →
      p.2 env u = ⟨pushInvoked p.1 u, some e⟩) :
    ∃ t, runSeq env (pre ++ p :: post) ⟨s, none⟩ = ⟨t, some e⟩ ∧
      t.invoked = ((pre.map Prod.fst) ++ [p.1]).reverse ++ s.invoked := by
  obtain ⟨t1, ht1, hinv1, hmig1⟩ := runSeq_ok env pre hpre s
  refine ⟨pushInvoked p.1 t1, ?_, ?_⟩
  · rw [runSeq_append, ht1, runSeq_cons, andThen_mk_none, hp t1 hmig1, runSeq_err]
  · simp [pushInvoked, hinv1]

lemma goodAt_ensureMigrationTable (env : Env)
    (hb : env.bodyFault "ensure_migration_table" = none) :
    GoodAt env ("ensure_migration_table", ensureMigrationTable) := by
  intro s
  simp only [ensureMigrationTable, hb]
  exact ⟨_, rfl, rfl, fun m hm => Or.inl hm⟩

lemma goodAt_createBaseSchema (env : Env)
    (hb : env.bodyFault "create_base_schema" = none)
    (hm : env.markFault = false)
    (hf : env.schemaFilePresent = true) :
    GoodAt env ("create_base_schema", createBaseSchema) := by
  intro s
  simp only [createBaseSchema, hb, markMigrationComplete, hm, hf,
    Bool.not_true, Bool.false_eq_true, if_false]
  split
  · exact ⟨_, rfl, rfl, fun m hm => mem_insertIfAbsentStr m _ _ hm⟩
  · exact ⟨_, rfl, rfl, fun m hm => mem_insertIfAbsentStr m _ _ hm⟩

lemma goodAt_ensureSessionTable (env : Env)
    (hb : env.bodyFault "ensure_session_table" = none) :
    GoodAt env ("ensure_session_table", ensureSessionTable) := by
  intro s
  simp only [ensureSessionTable, hb]
  exact ⟨_, rfl, rfl, fun m hm => Or.inl hm⟩

lemma goodAt_addDrawingCategoryEnumValues (env : Env)
    (hb : env.bodyFault "add_all_drawing_category_enum_values" = none)
    (hm : env.markFault = false) :
    GoodAt env ("add_all_drawing_category_enum_values", addDrawingCategoryEnumValues) := by
  intro s
  simp only [addDrawingCategoryEnumValues, hb, markMigrationComplete, hm, Bool.false_eq_true, if_false]
  split
  · exact ⟨_, rfl, rfl, fun m hm => Or.inl hm⟩
  · exact ⟨_, rfl, rfl, fun m hm => mem_insertIfAbsentStr m _ _ hm⟩

set_option maxHeartbeats 1000000 in
lemma goodAt_seedSchoolsAndBoards (env : Env)
    (hb : env.bodyFault "seed_schools_and_boards" = none)
    (hm : env.markFault = false) :
    GoodAt env ("seed_schools_and_boards", seedSchoolsAndBoards) := by
  intro s
  simp only [seedSchoolsAndBoards, hb, markMigrationComplete, hm, Bool.false_eq_true, if_false]
  split
  · exact ⟨_, rfl, rfl, fun m hm => mem_insertIfAbsentStr m _ _ hm⟩
  · exact ⟨_, rfl, rfl, fun m hm => mem_insertIfAbsentStr m _ _ hm⟩

lemma goodAt_seedHardcodedAdminUser (env : Env)
    (hb : env.bodyFault "seed_hardcoded_admin_user" = none) :
    GoodAt env ("seed_hardcoded_admin_user", seedHardcodedAdminUser) := by
  intro s
  simp only [seedHardcodedAdminUser, hb]
  split
  · exact ⟨_, rfl, rfl, fun m hm => Or.inl hm⟩
  · exact ⟨_, rfl, rfl, fun m hm => Or.inl hm⟩

lemma goodAt_assignUsersToSchools (env : Env)
    (hb : env.bodyFault "assign_users_to_schools" = none) :
    GoodAt env ("assign_users_to_schools", assignUsersToSchools) := by
  intro s
  simp only [assignUsersToSchools, hb]
  split
  · exact ⟨_, rfl, rfl, fun m hm => Or.inl hm⟩
  · split
    · exact ⟨_, rfl, rfl, fun m hm => Or.inl hm⟩
    · exact ⟨_, rfl, rfl, fun m hm => Or.inl hm⟩

lemma buckets_run (env : Env) (s : St) :
    ensureSupabaseBucketsForSchools env s =
      ⟨pushInvoked "ensure_supabase_buckets_for_schools" s, none⟩ := by
  unfold ensureSupabaseBucketsForSchools
  cases env.bodyFault "ensure_supabase_buckets_for_schools" <;> rfl

lemma goodAt_ensureSupabaseBucketsForSchools (env : Env) :
    GoodAt env ("ensure_supabase_buckets_for_schools", ensureSupabaseBucketsForSchools) := by
  intro s
  rw [show (("ensure_supabase_buckets_for_schools", ensureSupabaseBucketsForSchools) :
    NamedStep).2 env s = ensureSupabaseBucketsForSchools env s from rfl, buckets_run]
  exact ⟨_, rfl, rfl, fun m hm => Or.inl hm⟩

lemma goodAt_recalculateBudgetSpentAmounts (env : Env)
    (hb : env.bodyFault "recalculate_budget_spent_amounts" = none)
    (hm : env.markFault = false) :
    GoodAt env ("recalculate_budget_spent_amounts", recalculateBudgetSpentAmounts) := by
  intro s
  simp only [recalculateBudgetSpentAmounts, hb, markMigrationComplete, hm, Bool.false_eq_true, if_false]
  split
  · exact ⟨_, rfl, rfl, fun m hm => Or.inl hm⟩
  · exact ⟨_, rfl, rfl, fun m hm => mem_insertIfAbsentStr m _ _ hm⟩

lemma goodAt_createRoomsAndTerrainTables (env : Env)
    (hb : env.bodyFault "create_rooms_and_terrain_tables" = none)
    (hm : env.markFault = false) :
    GoodAt env ("create_rooms_and_terrain_tables", createRoomsAndTerrainTables) := by
  intro s
  simp only [createRoomsAndTerrainTables, hb, markMigrationComplete, hm, Bool.false_eq_true, if_false]
  split
  · exact ⟨_, rfl, rfl, fun m hm => Or.inl hm⟩
  · exact ⟨_, rfl, rfl, fun m hm => mem_insertIfAbsentStr m _ _ hm⟩

lemma goodAt_addMaxStudentsToRooms (env : Env)
    (hb : env.bodyFault "add_max_students_to_rooms" = none)
    (hm : env.markFault = false) :
    GoodAt env ("add_max_students_to_rooms", addMaxStudentsToRooms) := by
  intro s
  simp only [addMaxStudentsToRooms, hb, markMigrationComplete, hm, Bool.false_eq_true, if_false]
  split
  · exact ⟨_, rfl, rfl, fun m hm => Or.inl hm⟩
  · exact ⟨_, rfl, rfl, fun m hm => mem_insertIfAbsentStr m _ _ hm⟩

lemma goodAt_createFoldersAndExtendDocuments (env : Env)
    (hb : env.bodyFault "create_folders_and_extend_documents" = none)
    (hm : env.markFault = false) :
    GoodAt env ("create_folders_and_extend_documents", createFoldersAndExtendDocuments) := by
  intro s
  simp only [createFoldersAndExtendDocuments, hb, markMigrationComplete, hm, Bool.false_eq_true, if_false]
  split
  · exact ⟨_, rfl, rfl, fun m hm => Or.inl hm⟩
  · exact ⟨_, rfl, rfl, fun m hm => mem_insertIfAbsentStr m _ _ hm⟩

lemma goodAt_createInvestmentYearsTable (env : Env)
    (hb : env.bodyFault "create_investment_years_table" = none)
    (hm : env.markFault = false) :
    GoodAt env ("create_investment_years_table", createInvestmentYearsTable) := by
  intro s
  simp only [createInvestmentYearsTable, hb, markMigrationComplete, hm, Bool.false_eq_true, if_false]
  split
  · exact ⟨_, rfl, rfl, fun m hm => Or.inl hm⟩
  · exact ⟨_, rfl, rfl, fun m hm => mem_insertIfAbsentStr m _ _ hm⟩

lemma goodAt_fixInvalidDrawingCategories (env : Env)
    (hb : env.bodyFault "fix_invalid_drawing_categories" = none)
    (hm : env.markFault = false) :
    GoodAt env ("fix_invalid_drawing_categories", fixInvalidDrawingCategories) := by
  intro s
  simp only [fixInvalidDrawingCategories, hb, markMigrationComplete, hm, Bool.false_eq_true, if_false]
  split
  · exact ⟨_, rfl, rfl, fun m hm => Or.inl hm⟩
  · exact ⟨_, rfl, rfl, fun m hm => mem_insertIfAbsentStr m _ _ hm⟩

lemma goodAt_populateInvestmentYears (env : Env)
    (hb : env.bodyFault "populate_investment_years" = none)
    (hm : env.markFault = false) :
    GoodAt env ("populate_investment_years", populateInvestmentYears) := by
  intro s
  simp only [populateInvestmentYears, hb, markMigrationComplete, hm, Bool.false_eq_true, if_false]
  split
  · exact ⟨_, rfl, rfl, fun m hm => Or.inl hm⟩
  · exact ⟨_, rfl, rfl, fun m hm => mem_insertIfAbsentStr m _ _ hm⟩

lemma goodAt_addAttachmentColumnsToReportsAndMaintenance (env : Env)
    (hb : env.bodyFault "add_attachment_columns_to_reports_and_maintenance" = none)
    (hm : env.markFault = false) :
    GoodAt env ("add_attachment_columns_to_reports_and_maintenance",
      addAttachmentColumnsToReportsAndMaintenance) := by
  intro s
  simp only [addAttachmentColumnsToReportsAndMaintenance, hb, markMigrationComplete, hm,
    Bool.false_eq_true, if_false]
  split
  · exact ⟨_, rfl, rfl, fun m hm => Or.inl hm⟩
  · exact ⟨_, rfl, rfl, fun m hm => mem_insertIfAbsentStr m _ _ hm⟩

lemma goodAt_extendRoleEnumForRbac (env : Env)
    (hb : env.bodyFault "extend_role_enum_for_rbac" = none)
    (hm : env.markFault = false) :
    GoodAt env ("extend_role_enum_for_rbac", extendRoleEnumForRbac) := by
  intro s
  simp only [extendRoleEnumForRbac, hb, markMigrationComplete, hm, Bool.false_eq_true, if_false]
  split
  · exact ⟨_, rfl, rfl, fun m hm => Or.inl hm⟩
  · split
    · exact ⟨_, rfl, rfl, fun m hm => mem_insertIfAbsentStr m _ _ hm⟩
    · exact ⟨_, rfl, rfl, fun m hm => mem_insertIfAbsentStr m _ _ hm⟩

lemma goodAt_fixJeanAdminRole (env : Env)
    (hb : env.bodyFault "fix_jean_admin_role_v2" = none)
    (hm : env.markFault = false) :
    GoodAt env ("fix_jean_admin_role_v2", fixJeanAdminRole) := by
  intro s
  simp only [fixJeanAdminRole, hb, markMigrationComplete, hm, Bool.false_eq_true, if_false]
  split
  · exact ⟨_, rfl, rfl, fun m hm => Or.inl hm⟩
  · exact ⟨_, rfl, rfl, fun m hm => mem_insertIfAbsentStr m _ _ hm⟩

lemma fault_ensureMigrationTable (env : Env) (s : St) (e : String)
    (hb : env.bodyFault "ensure_migration_table" = some e) :
    ensureMigrationTable env s = ⟨pushInvoked "ensure_migration_table" s, some e⟩ := by
  simp only [ensureMigrationTable, hb]

lemma fault_createBaseSchema (env : Env) (s : St) (e : String)
    (hb : env.bodyFault "create_base_schema" = some e) :
    createBaseSchema env s = ⟨pushInvoked "create_base_schema" s, some e⟩ := by
  simp only [createBaseSchema, hb]

lemma fault_ensureSessionTable (env : Env) (s : St) (e : String)
    (hb : env.bodyFault "ensure_session_table" = some e)
    (hae : mentionsAlreadyExists e = false) :
    ensureSessionTable env s = ⟨pushInvoked "ensure_session_table" s, some e⟩ := by
  simp only [ensureSessionTable, hb, hae, Bool.false_eq_true, if_false]

lemma fault_addDrawingCategoryEnumValues (env : Env) (s : St) (e : String)
    (hb : env.bodyFault "add_all_drawing_category_enum_values" = some e)
    (hn : hasMigrationRun env "add_all_drawing_category_enum_values" s = false) :
    addDrawingCategoryEnumValues env s =
      ⟨pushInvoked "add_all_drawing_category_enum_values" s, some e⟩ := by
  have hn' : hasMigrationRun env "add_all_drawing_category_enum_values"
      (pushInvoked "add_all_drawing_category_enum_values" s) = false := hn
  simp only [addDrawingCategoryEnumValues, hn', hb, Bool.false_eq_true, if_false]

lemma fault_seedSchoolsAndBoards (env : Env) (s : St) (e : String)
    (hb : env.bodyFault "seed_schools_and_boards" = some e) :
    seedSchoolsAndBoards env s = ⟨pushInvoked "seed_schools_and_boards" s, some e⟩ := by
  simp only [seedSchoolsAndBoards, hb]

lemma fault_seedHardcodedAdminUser (env : Env) (s : St) (e : String)
    (hb : env.bodyFault "seed_hardcoded_admin_user" = some e) :
    seedHardcodedAdminUser env s = ⟨pushInvoked "seed_hardcoded_admin_user" s, some e⟩ := by
  simp only [seedHardcodedAdminUser, hb]

lemma fault_assignUsersToSchools (env : Env) (s : St) (e : String)
    (hb : env.bodyFault "assign_users_to_schools" = some e) :
    assignUsersToSchools env s = ⟨pushInvoked "assign_users_to_schools" s, some e⟩ := by
  simp only [assignUsersToSchools, hb]

lemma fault_tracked_generic (nm : String) (env : Env) (s : St)
    (hr : env.hasRunFault = false) (hn : nm ∉ s.migrationNames) :
    hasMigrationRun env nm s = false := by
  simp only [hasMigrationRun, hr, Bool.false_eq_true, if_false, decide_eq_false_iff_not]
  exact hn

lemma fault_recalculateBudgetSpentAmounts (env : Env) (s : St) (e : String)
    (hb : env.bodyFault "recalculate_budget_spent_amounts" = some e)
    (hn : hasMigrationRun env "recalculate_budget_spent_amounts" s = false) :
    recalculateBudgetSpentAmounts env s =
      ⟨pushInvoked "recalculate_budget_spent_amounts" s, some e⟩ := by
  have hn' : hasMigrationRun env "recalculate_budget_spent_amounts"
      (pushInvoked "recalculate_budget_spent_amounts" s) = false := hn
  simp only [recalculateBudgetSpentAmounts, hn', hb, Bool.false_eq_true, if_false]

lemma fault_createRoomsAndTerrainTables (env : Env) (s : St) (e : String)
    (hb : env.bodyFault "create_rooms_and_terrain_tables" = some e)
    (hn : hasMigrationRun env "create_rooms_and_terrain_tables" s = false) :
    createRoomsAndTerrainTables env s =
      ⟨pushInvoked "create_rooms_and_terrain_tables" s, some e⟩ := by
  have hn' : hasMigrationRun env "create_rooms_and_terrain_tables"
      (pushInvoked "create_rooms_and_terrain_tables" s) = false := hn
  simp only [createRoomsAndTerrainTables, hn', hb, Bool.false_eq_true, if_false]

lemma fault_addMaxStudentsToRooms (env : Env) (s : St) (e : String)
    (hb : env.bodyFault "add_max_students_to_rooms" = some e)
    (hn : hasMigrationRun env "add_max_students_to_rooms" s = false) :
    addMaxStudentsToRooms env s = ⟨pushInvoked "add_max_students_to_rooms" s, some e⟩ := by
  have hn' : hasMigrationRun env "add_max_students_to_rooms"
      (pushInvoked "add_max_students_to_rooms" s) = false := hn
  simp only [addMaxStudentsToRooms, hn', hb, Bool.false_eq_true, if_false]

lemma fault_createFoldersAndExtendDocuments (env : Env) (s : St) (e : String)
    (hb : env.bodyFault "create_folders_and_extend_documents" = some e)
    (hn : hasMigrationRun env "create_folders_and_extend_documents" s = false) :
    createFoldersAndExtendDocuments env s =
      ⟨pushInvoked "create_folders_and_extend_documents" s, some e⟩ := by
  have hn' : hasMigrationRun env "create_folders_and_extend_documents"
      (pushInvoked "create_folders_and_extend_documents" s) = false := hn
  simp only [createFoldersAndExtendDocuments, hn', hb, Bool.false_eq_true, if_false]

lemma fault_createInvestmentYearsTable (env : Env) (s : St) (e : String)
    (hb : env.bodyFault "create_investment_years_table" = some e)
    (hn : hasMigrationRun env "create_investment_years_table" s = false) :
    createInvestmentYearsTable env s =
      ⟨pushInvoked "create_investment_years_table" s, some e⟩ := by
  have hn' : hasMigrationRun env "create_investment_years_table"
      (pushInvoked "create_investment_years_table" s) = false := hn
  simp only [createInvestmentYearsTable, hn', hb, Bool.false_eq_true, if_false]

lemma fault_fixInvalidDrawingCategories (env : Env) (s : St) (e : String)
    (hb : env.bodyFault "fix_invalid_drawing_categories" = some e)
    (hn : hasMigrationRun env "fix_invalid_drawing_categories" s = false) :
    fixInvalidDrawingCategories env s =
      ⟨pushInvoked "fix_invalid_drawing_categories" s, some e⟩ := by
  have hn' : hasMigrationRun env "fix_invalid_drawing_categories"
      (pushInvoked "fix_invalid_drawing_categories" s) = false := hn
  simp only [fixInvalidDrawingCategories, hn', hb, Bool.false_eq_true, if_false]

lemma fault_populateInvestmentYears (env : Env) (s : St) (e : String)
    (hb : env.bodyFault "populate_investment_years" = some e)
    (hn : hasMigrationRun env "populate_investment_years" s = false) :
    populateInvestmentYears env s = ⟨pushInvoked "populate_investment_years" s, some e⟩ := by
  have hn' : hasMigrationRun env "populate_investment_years"
      (pushInvoked "populate_investment_years" s) = false := hn
  simp only [populateInvestmentYears, hn', hb, Bool.false_eq_true, if_false]

lemma fault_addAttachmentColumnsToReportsAndMaintenance (env : Env) (s : St) (e : String)
    (hb : env.bodyFault "add_attachment_columns_to_reports_and_maintenance" = some e)
    (hn : hasMigrationRun env "add_attachment_columns_to_reports_and_maintenance" s = false) :
    addAttachmentColumnsToReportsAndMaintenance env s =
      ⟨pushInvoked "add_attachment_columns_to_reports_and_maintenance" s, some e⟩ := by
  have hn' : hasMigrationRun env "add_attachment_columns_to_reports_and_maintenance"
      (pushInvoked "add_attachment_columns_to_reports_and_maintenance" s) = false := hn
  simp only [addAttachmentColumnsToReportsAndMaintenance, hn', hb, Bool.false_eq_true, if_false]

lemma fault_extendRoleEnumForRbac (env : Env) (s : St) (e : String)
    (hb : env.bodyFault "extend_role_enum_for_rbac" = some e)
    (hn : hasMigrationRun env "extend_role_enum_for_rbac" s = false) :
    extendRoleEnumForRbac env s = ⟨pushInvoked "extend_role_enum_for_rbac" s, some e⟩ := by
  have hn' : hasMigrationRun env "extend_role_enum_for_rbac"
      (pushInvoked "extend_role_enum_for_rbac" s) = false := hn
  simp only [extendRoleEnumForRbac, hn', hb, Bool.false_eq_true, if_false]

lemma fault_fixJeanAdminRole (env : Env) (s : St) (e : String)
    (hb : env.bodyFault "fix_jean_admin_role_v2" = some e)
    (hn : hasMigrationRun env "fix_jean_admin_role_v2" s = false) :
    fixJeanAdminRole env s = ⟨pushInvoked "fix_jean_admin_role_v2" s, some e⟩ := by
  have hn' : hasMigrationRun env "fix_jean_admin_role_v2"
      (pushInvoked "fix_jean_admin_role_v2" s) = false := hn
  simp only [fixJeanAdminRole, hn', hb, Bool.false_eq_true, if_false]

lemma criticalRun_eq_runSeq (env : Env) (s : St) :
    criticalRun env s = runSeq env criticalPairs ⟨s, none⟩ := rfl

lemma nonCriticalRun_eq_runSeq (env : Env) (s : St) :
    nonCriticalRun env s = runSeq env nonCriticalPairs ⟨s, none⟩ := rfl

lemma runMigrations_of_critical_err (env : Env) (s : St) (t : St) (e : String)
    (h : criticalRun env s = ⟨t, some e⟩) : runMigrations env s = ⟨t, some e⟩ := by
  unfold runMigrations
  rw [h]

lemma runMigrations_of_critical_ok (env : Env) (s : St) (t : St)
    (h : criticalRun env s = ⟨t, none⟩) :
    runMigrations env s = ⟨(nonCriticalRun env t).st, none⟩ := by
  unfold runMigrations
  rw [h]

lemma envFaultOnly_bodyFault_ne (n e m : String) (h : m ≠ n) :
    (envFaultOnly n e).bodyFault m = none := by
  simp only [envFaultOnly]
  exact if_neg h

lemma envFaultOnly_bodyFault_self (n e : String) :
    (envFaultOnly n e).bodyFault n = some e := by
  simp [envFaultOnly]

lemma criticalPairs_good (n e : String)
    (h1 : n ≠ "ensure_migration_table") (h2 : n ≠ "create_base_schema")
    (h3 : n ≠ "ensure_session_table") (h4 : n ≠ "add_all_drawing_category_enum_values")
    (h5 : n ≠ "seed_schools_and_boards") :
    ∀ q ∈ criticalPairs, GoodAt (envFaultOnly n e) q := by
  intro q hq
  simp only [criticalPairs, List.mem_cons, List.mem_singleton, List.not_mem_nil, or_false] at hq
  rcases hq with hq | hq | hq | hq | hq <;> subst hq
  · exact goodAt_ensureMigrationTable _ (envFaultOnly_bodyFault_ne _ _ _ (Ne.symm h1))
  · exact goodAt_createBaseSchema _ (envFaultOnly_bodyFault_ne _ _ _ (Ne.symm h2)) rfl rfl
  · exact goodAt_ensureSessionTable _ (envFaultOnly_bodyFault_ne _ _ _ (Ne.symm h3))
  · exact goodAt_addDrawingCategoryEnumValues _ (envFaultOnly_bodyFault_ne _ _ _ (Ne.symm h4)) rfl
  · exact goodAt_seedSchoolsAndBoards _ (envFaultOnly_bodyFault_ne _ _ _ (Ne.symm h5)) rfl

/-- C2 (confirmed): if the body of any critical step
(`createBaseSchema`, `ensureSessionTable`, `addDrawingCategoryEnumValues`,
`seedSchoolsAndBoards`) throws to the runner, `runMigrations` rejects with
that very error, and no step declared after the failing one is invoked — so
their database effects are absent (in this embedding every database effect
happens inside an invoked step).  The hypothesis `htrack` says the
enum-extension step is not already tracked (otherwise its body is skipped
and cannot throw), and `hae` says a session-table error is not an
"already exists" error (those are swallowed and never reach the runner). -/
theorem criticalFailurePropagation (s : St) (hinv : s.invoked = [])
    (n : String) (hn : n ∈ criticalNames) (e : String)
    (htrack : n = "add_all_drawing_category_enum_values" → n ∉ s.migrationNames)
    (hae : n = "ensure_session_table" → mentionsAlreadyExists e = false) :
    (runMigrations (envFaultOnly n e) s).err = some e ∧
    (runMigrations (envFaultOnly n e) s).st.invoked = (upToIncluding n).reverse ∧
    ∀ m ∈ laterSteps n, m ∉ (runMigrations (envFaultOnly n e) s).st.invoked := by
  have hmem : n = "create_base_schema" ∨ n = "ensure_session_table" ∨
      n = "add_all_drawing_category_enum_values" ∨ n = "seed_schools_and_boards" := by
    simpa [criticalNames] using hn
  rcases hmem with rfl | rfl | rfl | rfl
  · -- failing step: create_base_schema
    have hpre : ∀ q ∈ [(("ensure_migration_table", ensureMigrationTable) : NamedStep)],
        GoodAt (envFaultOnly "create_base_schema" e) q := by
      intro q hq
      simp only [List.mem_singleton] at hq
      subst hq
      exact goodAt_ensureMigrationTable _ (by simp [envFaultOnly])
    have hp : ∀ u : St, (∀ m, m ∈ u.migrationNames → m ∈ s.migrationNames ∨
        m ∈ ([(("ensure_migration_table", ensureMigrationTable) : NamedStep)].map Prod.fst)) →
        createBaseSchema (envFaultOnly "create_base_schema" e) u =
          ⟨pushInvoked "create_base_schema" u, some e⟩ :=
      fun u _ => fault_createBaseSchema _ u e (by simp [envFaultOnly])
    obtain ⟨t, ht, hti⟩ := runSeq_fault (envFaultOnly "create_base_schema" e)
      [("ensure_migration_table", ensureMigrationTable)]
      ("create_base_schema", createBaseSchema)
      [("ensure_session_table", ensureSessionTable),
       ("add_all_drawing_category_enum_values", addDrawingCategoryEnumValues),
       ("seed_schools_and_boards", seedSchoolsAndBoards)] s e hpre hp
    have hcrit : criticalRun (envFaultOnly "create_base_schema" e) s = ⟨t, some e⟩ := by
      rw [criticalRun_eq_runSeq]
      exact ht
    rw [runMigrations_of_critical_err _ _ _ _ hcrit]
    refine ⟨rfl, ?_, ?_⟩
    · show t.invoked = _
      rw [hti, hinv]
      decide
    · show ∀ m ∈ laterSteps "create_base_schema", m ∉ t.invoked
      rw [hti, hinv]
      decide
  · -- failing step: ensure_session_table
    have hpre : ∀ q ∈ [(("ensure_migration_table", ensureMigrationTable) : NamedStep),
        ("create_base_schema", createBaseSchema)],
        GoodAt (envFaultOnly "ensure_session_table" e) q := by
      intro q hq
      simp only [List.mem_cons, List.mem_singleton, List.not_mem_nil, or_false] at hq
      rcases hq with hq | hq <;> subst hq
      · exact goodAt_ensureMigrationTable _ (by simp [envFaultOnly])
      · exact goodAt_createBaseSchema _ (by simp [envFaultOnly]) rfl rfl
    have hp : ∀ u : St, (∀ m, m ∈ u.migrationNames → m ∈ s.migrationNames ∨
        m ∈ ([(("ensure_migration_table", ensureMigrationTable) : NamedStep),
          ("create_base_schema", createBaseSchema)].map Prod.fst)) →
        ensureSessionTable (envFaultOnly "ensure_session_table" e) u =
          ⟨pushInvoked "ensure_session_table" u, some e⟩ :=
      fun u _ => fault_ensureSessionTable _ u e (by simp [envFaultOnly]) (hae rfl)
    obtain ⟨t, ht, hti⟩ := runSeq_fault (envFaultOnly "ensure_session_table" e)
      [("ensure_migration_table", ensureMigrationTable),
       ("create_base_schema", createBaseSchema)]
      ("ensure_session_table", ensureSessionTable)
      [("add_all_drawing_category_enum_values", addDrawingCategoryEnumValues),
       ("seed_schools_and_boards", seedSchoolsAndBoards)] s e hpre hp
    have hcrit : criticalRun (envFaultOnly "ensure_session_table" e) s = ⟨t, some e⟩ := by
      rw [criticalRun_eq_runSeq]
      exact ht
    rw [runMigrations_of_critical_err _ _ _ _ hcrit]
    refine ⟨rfl, ?_, ?_⟩
    · show t.invoked = _
      rw [hti, hinv]
      decide
    · show ∀ m ∈ laterSteps "ensure_session_table", m ∉ t.invoked
      rw [hti, hinv]
      decide
  · -- failing step: add_all_drawing_category_enum_values
    have hpre : ∀ q ∈ [(("ensure_migration_table", ensureMigrationTable) : NamedStep),
        ("create_base_schema", createBaseSchema),
        ("ensure_session_table", ensureSessionTable)],
        GoodAt (envFaultOnly "add_all_drawing_category_enum_values" e) q := by
      intro q hq
      simp only [List.mem_cons, List.mem_singleton, List.not_mem_nil, or_false] at hq
      rcases hq with hq | hq | hq <;> subst hq
      · exact goodAt_ensureMigrationTable _ (by simp [envFaultOnly])
      · exact goodAt_createBaseSchema _ (by simp [envFaultOnly]) rfl rfl
      · exact goodAt_ensureSessionTable _ (by simp [envFaultOnly])
    have hp : ∀ u : St, (∀ m, m ∈ u.migrationNames → m ∈ s.migrationNames ∨
        m ∈ ([(("ensure_migration_table", ensureMigrationTable) : NamedStep),
          ("create_base_schema", createBaseSchema),
          ("ensure_session_table", ensureSessionTable)].map Prod.fst)) →
        addDrawingCategoryEnumValues (envFaultOnly "add_all_drawing_category_enum_values" e) u =
          ⟨pushInvoked "add_all_drawing_category_enum_values" u, some e⟩ := by
      intro u hu
      refine fault_addDrawingCategoryEnumValues _ u e (by simp [envFaultOnly]) ?_
      refine fault_tracked_generic _ _ u rfl ?_
      intro hmem2
      rcases hu _ hmem2 with h | h
      · exact htrack rfl h
      · exact absurd h (by decide)
    obtain ⟨t, ht, hti⟩ := runSeq_fault (envFaultOnly "add_all_drawing_category_enum_values" e)
      [("ensure_migration_table", ensureMigrationTable),
       ("create_base_schema", createBaseSchema),
       ("ensure_session_table", ensureSessionTable)]
      ("add_all_drawing_category_enum_values", addDrawingCategoryEnumValues)
      [("seed_schools_and_boards", seedSchoolsAndBoards)] s e hpre hp
    have hcrit : criticalRun (envFaultOnly "add_all_drawing_category_enum_values" e) s =
        ⟨t, some e⟩ := by
      rw [criticalRun_eq_runSeq]
      exact ht
    rw [runMigrations_of_critical_err _ _ _ _ hcrit]
    refine ⟨rfl, ?_, ?_⟩
    · show t.invoked = _
      rw [hti, hinv]
      decide
    · show ∀ m ∈ laterSteps "add_all_drawing_category_enum_values", m ∉ t.invoked
      rw [hti, hinv]
      decide
  · -- failing step: seed_schools_and_boards
    have hpre : ∀ q ∈ [(("ensure_migration_table", ensureMigrationTable) : NamedStep),
        ("create_base_schema", createBaseSchema),
        ("ensure_session_table", ensureSessionTable),
        ("add_all_drawing_category_enum_values", addDrawingCategoryEnumValues)],
        GoodAt (envFaultOnly "seed_schools_and_boards" e) q := by
      intro q hq
      simp only [List.mem_cons, List.mem_singleton, List.not_mem_nil, or_false] at hq
      rcases hq with hq | hq | hq | hq <;> subst hq
      · exact goodAt_ensureMigrationTable _ (by simp [envFaultOnly])
      · exact goodAt_createBaseSchema _ (by simp [envFaultOnly]) rfl rfl
      · exact goodAt_ensureSessionTable _ (by simp [envFaultOnly])
      · exact goodAt_addDrawingCategoryEnumValues _ (by simp [envFaultOnly]) rfl
    have hp : ∀ u : St, (∀ m, m ∈ u.migrationNames → m ∈ s.migrationNames ∨
        m ∈ ([(("ensure_migration_table", ensureMigrationTable) : NamedStep),
          ("create_base_schema", createBaseSchema),
          ("ensure_session_table", ensureSessionTable),
          ("add_all_drawing_category_enum_values", addDrawingCategoryEnumValues)].map Prod.fst)) →
        seedSchoolsAndBoards (envFaultOnly "seed_schools_and_boards" e) u =
          ⟨pushInvoked "seed_schools_and_boards" u, some e⟩ :=
      fun u _ => fault_seedSchoolsAndBoards _ u e (by simp [envFaultOnly])
    obtain ⟨t, ht, hti⟩ := runSeq_fault (envFaultOnly "seed_schools_and_boards" e)
      [("ensure_migration_table", ensureMigrationTable),
       ("create_base_schema", createBaseSchema),
       ("ensure_session_table", ensureSessionTable),
       ("add_all_drawing_category_enum_values", addDrawingCategoryEnumValues)]
      ("seed_schools_and_boards", seedSchoolsAndBoards)
      [] s e hpre hp
    have hcrit : criticalRun (envFaultOnly "seed_schools_and_boards" e) s = ⟨t, some e⟩ := by
      rw [criticalRun_eq_runSeq]
      exact ht
    rw [runMigrations_of_critical_err _ _ _ _ hcrit]
    refine ⟨rfl, ?_, ?_⟩
    · show t.invoked = _
      rw [hti, hinv]
      decide
    · show ∀ m ∈ laterSteps "seed_schools_and_boards", m ∉ t.invoked
      rw [hti, hinv]
      decide

/-- C1 amended: the non-critical steps are wrapped in one single batch
try/catch, not individually.  If a non-critical step's body throws, the
overall `runMigrations` invocation still resolves successfully and every
critical step is unaffected (all were invoked before the batch), and the
non-critical steps declared before the failing one have executed — but the
non-critical steps declared after the failing one are skipped, except that
a failure inside the bucket-provisioning step is swallowed within that step
and skips nothing.  The trace equation states exactly which steps ran.
`htrack` requires the failing step not to be already tracked (a tracked
step would skip the body, which then cannot throw). -/
theorem nonCriticalBatchIsolation (s : St) (hinv : s.invoked = [])
    (n : String) (hn : n ∈ nonCriticalNames) (e : String)
    (htrack : n ∉ s.migrationNames) :
    (runMigrations (envFaultOnly n e) s).err = none ∧
    (runMigrations (envFaultOnly n e) s).st.invoked =
      (if n = "ensure_supabase_buckets_for_schools" then runnerOrder
       else upToIncluding n).reverse := by
  have hmem : n = "seed_hardcoded_admin_user" ∨ n = "assign_users_to_schools" ∨
      n = "ensure_supabase_buckets_for_schools" ∨ n = "recalculate_budget_spent_amounts" ∨
      n = "create_rooms_and_terrain_tables" ∨ n = "add_max_students_to_rooms" ∨
      n = "create_folders_and_extend_documents" ∨ n = "create_investment_years_table" ∨
      n = "fix_invalid_drawing_categories" ∨ n = "populate_investment_years" ∨
      n = "add_attachment_columns_to_reports_and_maintenance" ∨
      n = "extend_role_enum_for_rbac" ∨ n = "fix_jean_admin_role_v2" := by
    simpa [nonCriticalNames] using hn
  rcases hmem with rfl | rfl | rfl | rfl | rfl | rfl | rfl | rfl | rfl | rfl | rfl | rfl | rfl
  · -- failing step: seed_hardcoded_admin_user
    obtain ⟨t1, ht1, hinv1, hmig1⟩ := runSeq_ok (envFaultOnly "seed_hardcoded_admin_user" e) criticalPairs
      (criticalPairs_good _ _ (by decide) (by decide) (by decide) (by decide) (by decide)) s
    have hcrit : criticalRun (envFaultOnly "seed_hardcoded_admin_user" e) s = ⟨t1, none⟩ := by
      rw [criticalRun_eq_runSeq]
      exact ht1
    have hpreB : ∀ q ∈ ([] : List NamedStep), GoodAt (envFaultOnly "seed_hardcoded_admin_user" e) q := by
      intro q hq
      exact absurd hq (List.not_mem_nil q)
    have hp : ∀ u : St, (∀ m, m ∈ u.migrationNames → m ∈ t1.migrationNames ∨
        m ∈ (([] : List NamedStep).map Prod.fst)) →
        seedHardcodedAdminUser (envFaultOnly "seed_hardcoded_admin_user" e) u = ⟨pushInvoked "seed_hardcoded_admin_user" u, some e⟩ := by
      intro u hu
      exact fault_seedHardcodedAdminUser _ u e (envFaultOnly_bodyFault_self _ _)
    obtain ⟨t2, ht2, hti2⟩ := runSeq_fault (envFaultOnly "seed_hardcoded_admin_user" e)
      []
      ("seed_hardcoded_admin_user", seedHardcodedAdminUser)
      [("assign_users_to_schools", assignUsersToSchools),
       ("ensure_supabase_buckets_for_schools", ensureSupabaseBucketsForSchools),
       ("recalculate_budget_spent_amounts", recalculateBudgetSpentAmounts),
       ("create_rooms_and_terrain_tables", createRoomsAndTerrainTables),
       ("add_max_students_to_rooms", addMaxStudentsToRooms),
       ("create_folders_and_extend_documents", createFoldersAndExtendDocuments),
       ("create_investment_years_table", createInvestmentYearsTable),
       ("fix_invalid_drawing_categories", fixInvalidDrawingCategories),
       ("populate_investment_years", populateInvestmentYears),
       ("add_attachment_columns_to_reports_and_maintenance", addAttachmentColumnsToReportsAndMaintenance),
       ("extend_role_enum_for_rbac", extendRoleEnumForRbac),
       ("fix_jean_admin_role_v2", fixJeanAdminRole)] t1 e hpreB hp
    have hb : nonCriticalRun (envFaultOnly "seed_hardcoded_admin_user" e) t1 = ⟨t2, some e⟩ := by
      rw [nonCriticalRun_eq_runSeq]
      exact ht2
    rw [runMigrations_of_critical_ok _ _ _ hcrit, hb]
    refine ⟨rfl, ?_⟩
    show t2.invoked = _
    rw [hti2, hinv1, hinv]
    decide
  · -- failing step: assign_users_to_schools
    obtain ⟨t1, ht1, hinv1, hmig1⟩ := runSeq_ok (envFaultOnly "assign_users_to_schools" e) criticalPairs
      (criticalPairs_good _ _ (by decide) (by decide) (by decide) (by decide) (by decide)) s
    have hcrit : criticalRun (envFaultOnly "assign_users_to_schools" e) s = ⟨t1, none⟩ := by
      rw [criticalRun_eq_runSeq]
      exact ht1
    have hpreB : ∀ q ∈ [((("seed_hardcoded_admin_user", seedHardcodedAdminUser)) : NamedStep)],
        GoodAt (envFaultOnly "assign_users_to_schools" e) q := by
      intro q hq
      simp only [List.mem_cons, List.mem_singleton, List.not_mem_nil, or_false] at hq
      subst hq
      exact goodAt_seedHardcodedAdminUser _ (envFaultOnly_bodyFault_ne _ _ _ (by decide))
    have hp : ∀ u : St, (∀ m, m ∈ u.migrationNames → m ∈ t1.migrationNames ∨
        m ∈ ([((("seed_hardcoded_admin_user", seedHardcodedAdminUser)) : NamedStep)].map Prod.fst)) →
        assignUsersToSchools (envFaultOnly "assign_users_to_schools" e) u = ⟨pushInvoked "assign_users_to_schools" u, some e⟩ := by
      intro u hu
      exact fault_assignUsersToSchools _ u e (envFaultOnly_bodyFault_self _ _)
    obtain ⟨t2, ht2, hti2⟩ := runSeq_fault (envFaultOnly "assign_users_to_schools" e)
      [("seed_hardcoded_admin_user", seedHardcodedAdminUser)]
      ("assign_users_to_schools", assignUsersToSchools)
      [("ensure_supabase_buckets_for_schools", ensureSupabaseBucketsForSchools),
       ("recalculate_budget_spent_amounts", recalculateBudgetSpentAmounts),
       ("create_rooms_and_terrain_tables", createRoomsAndTerrainTables),
       ("add_max_students_to_rooms", addMaxStudentsToRooms),
       ("create_folders_and_extend_documents", createFoldersAndExtendDocuments),
       ("create_investment_years_table", createInvestmentYearsTable),
       ("fix_invalid_drawing_categories", fixInvalidDrawingCategories),
       ("populate_investment_years", populateInvestmentYears),
       ("add_attachment_columns_to_reports_and_maintenance", addAttachmentColumnsToReportsAndMaintenance),
       ("extend_role_enum_for_rbac", extendRoleEnumForRbac),
       ("fix_jean_admin_role_v2", fixJeanAdminRole)] t1 e hpreB hp
    have hb : nonCriticalRun (envFaultOnly "assign_users_to_schools" e) t1 = ⟨t2, some e⟩ := by
      rw [nonCriticalRun_eq_runSeq]
      exact ht2
    rw [runMigrations_of_critical_ok _ _ _ hcrit, hb]
    refine ⟨rfl, ?_⟩
    show t2.invoked = _
    rw [hti2, hinv1, hinv]
    decide
  · -- failing step: ensure_supabase_buckets_for_schools
    obtain ⟨t1, ht1, hinv1, hmig1⟩ := runSeq_ok (envFaultOnly "ensure_supabase_buckets_for_schools" e) criticalPairs
      (criticalPairs_good _ _ (by decide) (by decide) (by decide) (by decide) (by decide)) s
    have hcrit : criticalRun (envFaultOnly "ensure_supabase_buckets_for_schools" e) s = ⟨t1, none⟩ := by
      rw [criticalRun_eq_runSeq]
      exact ht1
    have hall : ∀ q ∈ nonCriticalPairs, GoodAt (envFaultOnly "ensure_supabase_buckets_for_schools" e) q := by
      intro q hq
      simp only [nonCriticalPairs, List.mem_cons, List.mem_singleton, List.not_mem_nil, or_false] at hq
      rcases hq with hq | hq | hq | hq | hq | hq | hq | hq | hq | hq | hq | hq | hq <;> subst hq
      · exact goodAt_seedHardcodedAdminUser _ (envFaultOnly_bodyFault_ne _ _ _ (by decide))
      · exact goodAt_assignUsersToSchools _ (envFaultOnly_bodyFault_ne _ _ _ (by decide))
      · exact goodAt_ensureSupabaseBucketsForSchools _
      · exact goodAt_recalculateBudgetSpentAmounts _ (envFaultOnly_bodyFault_ne _ _ _ (by decide)) rfl
      · exact goodAt_createRoomsAndTerrainTables _ (envFaultOnly_bodyFault_ne _ _ _ (by decide)) rfl
      · exact goodAt_addMaxStudentsToRooms _ (envFaultOnly_bodyFault_ne _ _ _ (by decide)) rfl
      · exact goodAt_createFoldersAndExtendDocuments _ (envFaultOnly_bodyFault_ne _ _ _ (by decide)) rfl
      · exact goodAt_createInvestmentYearsTable _ (envFaultOnly_bodyFault_ne _ _ _ (by decide)) rfl
      · exact goodAt_fixInvalidDrawingCategories _ (envFaultOnly_bodyFault_ne _ _ _ (by decide)) rfl
      · exact goodAt_populateInvestmentYears _ (envFaultOnly_bodyFault_ne _ _ _ (by decide)) rfl
      · exact goodAt_addAttachmentColumnsToReportsAndMaintenance _ (envFaultOnly_bodyFault_ne _ _ _ (by decide)) rfl
      · exact goodAt_extendRoleEnumForRbac _ (envFaultOnly_bodyFault_ne _ _ _ (by decide)) rfl
      · exact goodAt_fixJeanAdminRole _ (envFaultOnly_bodyFault_ne _ _ _ (by decide)) rfl
    obtain ⟨t2, ht2, hinv2, hmig2⟩ := runSeq_ok (envFaultOnly "ensure_supabase_buckets_for_schools" e) nonCriticalPairs hall t1
    have hb : nonCriticalRun (envFaultOnly "ensure_supabase_buckets_for_schools" e) t1 = ⟨t2, none⟩ := by
      rw [nonCriticalRun_eq_runSeq]
      exact ht2
    rw [runMigrations_of_critical_ok _ _ _ hcrit, hb]
    refine ⟨rfl, ?_⟩
    show t2.invoked = _
    rw [hinv2, hinv1, hinv]
    decide
  · -- failing step: recalculate_budget_spent_amounts
    obtain ⟨t1, ht1, hinv1, hmig1⟩ := runSeq_ok (envFaultOnly "recalculate_budget_spent_amounts" e) criticalPairs
      (criticalPairs_good _ _ (by decide) (by decide) (by decide) (by decide) (by decide)) s
    have hcrit : criticalRun (envFaultOnly "recalculate_budget_spent_amounts" e) s = ⟨t1, none⟩ := by
      rw [criticalRun_eq_runSeq]
      exact ht1
    have hpreB : ∀ q ∈ [((("seed_hardcoded_admin_user", seedHardcodedAdminUser)) : NamedStep),
        ("assign_users_to_schools", assignUsersToSchools),
        ("ensure_supabase_buckets_for_schools", ensureSupabaseBucketsForSchools)],
        GoodAt (envFaultOnly "recalculate_budget_spent_amounts" e) q := by
      intro q hq
      simp only [List.mem_cons, List.mem_singleton, List.not_mem_nil, or_false] at hq
      rcases hq with hq | hq | hq <;> subst hq
      · exact goodAt_seedHardcodedAdminUser _ (envFaultOnly_bodyFault_ne _ _ _ (by decide))
      · exact goodAt_assignUsersToSchools _ (envFaultOnly_bodyFault_ne _ _ _ (by decide))
      · exact goodAt_ensureSupabaseBucketsForSchools _
    have hp : ∀ u : St, (∀ m, m ∈ u.migrationNames → m ∈ t1.migrationNames ∨
        m ∈ ([((("seed_hardcoded_admin_user", seedHardcodedAdminUser)) : NamedStep),
          ("assign_users_to_schools", assignUsersToSchools),
          ("ensure_supabase_buckets_for_schools", ensureSupabaseBucketsForSchools)].map Prod.fst)) →
        recalculateBudgetSpentAmounts (envFaultOnly "recalculate_budget_spent_amounts" e) u = ⟨pushInvoked "recalculate_budget_spent_amounts" u, some e⟩ := by
      intro u hu
      refine fault_recalculateBudgetSpentAmounts _ u e (envFaultOnly_bodyFault_self _ _) ?_
      refine fault_tracked_generic _ _ u rfl ?_
      intro hmem2
      rcases hu _ hmem2 with h | h
      · rcases hmig1 _ h with h2 | h2
        · exact htrack h2
        · exact absurd h2 (by decide)
      · exact absurd h (by decide)
    obtain ⟨t2, ht2, hti2⟩ := runSeq_fault (envFaultOnly "recalculate_budget_spent_amounts" e)
      [("seed_hardcoded_admin_user", seedHardcodedAdminUser),
       ("assign_users_to_schools", assignUsersToSchools),
       ("ensure_supabase_buckets_for_schools", ensureSupabaseBucketsForSchools)]
      ("recalculate_budget_spent_amounts", recalculateBudgetSpentAmounts)
      [("create_rooms_and_terrain_tables", createRoomsAndTerrainTables),
       ("add_max_students_to_rooms", addMaxStudentsToRooms),
       ("create_folders_and_extend_documents", createFoldersAndExtendDocuments),
       ("create_investment_years_table", createInvestmentYearsTable),
       ("fix_invalid_drawing_categories", fixInvalidDrawingCategories),
       ("populate_investment_years", populateInvestmentYears),
       ("add_attachment_columns_to_reports_and_maintenance", addAttachmentColumnsToReportsAndMaintenance),
       ("extend_role_enum_for_rbac", extendRoleEnumForRbac),
       ("fix_jean_admin_role_v2", fixJeanAdminRole)] t1 e hpreB hp
    have hb : nonCriticalRun (envFaultOnly "recalculate_budget_spent_amounts" e) t1 = ⟨t2, some e⟩ := by
      rw [nonCriticalRun_eq_runSeq]
      exact ht2
    rw [runMigrations_of_critical_ok _ _ _ hcrit, hb]
    refine ⟨rfl, ?_⟩
    show t2.invoked = _
    rw [hti2, hinv1, hinv]
    decide
  · -- failing step: create_rooms_and_terrain_tables
    obtain ⟨t1, ht1, hinv1, hmig1⟩ := runSeq_ok (envFaultOnly "create_rooms_and_terrain_tables" e) criticalPairs
      (criticalPairs_good _ _ (by decide) (by decide) (by decide) (by decide) (by decide)) s
    have hcrit : criticalRun (envFaultOnly "create_rooms_and_terrain_tables" e) s = ⟨t1, none⟩ := by
      rw [criticalRun_eq_runSeq]
      exact ht1
    have hpreB : ∀ q ∈ [((("seed_hardcoded_admin_user", seedHardcodedAdminUser)) : NamedStep),
        ("assign_users_to_schools", assignUsersToSchools),
        ("ensure_supabase_buckets_for_schools", ensureSupabaseBucketsForSchools),
        ("recalculate_budget_spent_amounts", recalculateBudgetSpentAmounts)],
        GoodAt (envFaultOnly "create_rooms_and_terrain_tables" e) q := by
      intro q hq
      simp only [List.mem_cons, List.mem_singleton, List.not_mem_nil, or_false] at hq
      rcases hq with hq | hq | hq | hq <;> subst hq
      · exact goodAt_seedHardcodedAdminUser _ (envFaultOnly_bodyFault_ne _ _ _ (by decide))
      · exact goodAt_assignUsersToSchools _ (envFaultOnly_bodyFault_ne _ _ _ (by decide))
      · exact goodAt_ensureSupabaseBucketsForSchools _
      · exact goodAt_recalculateBudgetSpentAmounts _ (envFaultOnly_bodyFault_ne _ _ _ (by decide)) rfl
    have hp : ∀ u : St, (∀ m, m ∈ u.migrationNames → m ∈ t1.migrationNames ∨
        m ∈ ([((("seed_hardcoded_admin_user", seedHardcodedAdminUser)) : NamedStep),
          ("assign_users_to_schools", assignUsersToSchools),
          ("ensure_supabase_buckets_for_schools", ensureSupabaseBucketsForSchools),
          ("recalculate_budget_spent_amounts", recalculateBudgetSpentAmounts)].map Prod.fst)) →
        createRoomsAndTerrainTables (envFaultOnly "create_rooms_and_terrain_tables" e) u = ⟨pushInvoked "create_rooms_and_terrain_tables" u, some e⟩ := by
      intro u hu
      refine fault_createRoomsAndTerrainTables _ u e (envFaultOnly_bodyFault_self _ _) ?_
      refine fault_tracked_generic _ _ u rfl ?_
      intro hmem2
      rcases hu _ hmem2 with h | h
      · rcases hmig1 _ h with h2 | h2
        · exact htrack h2
        · exact absurd h2 (by decide)
      · exact absurd h (by decide)
    obtain ⟨t2, ht2, hti2⟩ := runSeq_fault (envFaultOnly "create_rooms_and_terrain_tables" e)
      [("seed_hardcoded_admin_user", seedHardcodedAdminUser),
       ("assign_users_to_schools", assignUsersToSchools),
       ("ensure_supabase_buckets_for_schools", ensureSupabaseBucketsForSchools),
       ("recalculate_budget_spent_amounts", recalculateBudgetSpentAmounts)]
      ("create_rooms_and_terrain_tables", createRoomsAndTerrainTables)
      [("add_max_students_to_rooms", addMaxStudentsToRooms),
       ("create_folders_and_extend_documents", createFoldersAndExtendDocuments),
       ("create_investment_years_table", createInvestmentYearsTable),
       ("fix_invalid_drawing_categories", fixInvalidDrawingCategories),
       ("populate_investment_years", populateInvestmentYears),
       ("add_attachment_columns_to_reports_and_maintenance", addAttachmentColumnsToReportsAndMaintenance),
       ("extend_role_enum_for_rbac", extendRoleEnumForRbac),
       ("fix_jean_admin_role_v2", fixJeanAdminRole)] t1 e hpreB hp
    have hb : nonCriticalRun (envFaultOnly "create_rooms_and_terrain_tables" e) t1 = ⟨t2, some e⟩ := by
      rw [nonCriticalRun_eq_runSeq]
      exact ht2
    rw [runMigrations_of_critical_ok _ _ _ hcrit, hb]
    refine ⟨rfl, ?_⟩
    show t2.invoked = _
    rw [hti2, hinv1, hinv]
    decide
  · -- failing step: add_max_students_to_rooms
    obtain ⟨t1, ht1, hinv1, hmig1⟩ := runSeq_ok (envFaultOnly "add_max_students_to_rooms" e) criticalPairs
      (criticalPairs_good _ _ (by decide) (by decide) (by decide) (by decide) (by decide)) s
    have hcrit : criticalRun (envFaultOnly "add_max_students_to_rooms" e) s = ⟨t1, none⟩ := by
      rw [criticalRun_eq_runSeq]
      exact ht1
    have hpreB : ∀ q ∈ [((("seed_hardcoded_admin_user", seedHardcodedAdminUser)) : NamedStep),
        ("assign_users_to_schools", assignUsersToSchools),
        ("ensure_supabase_buckets_for_schools", ensureSupabaseBucketsForSchools),
        ("recalculate_budget_spent_amounts", recalculateBudgetSpentAmounts),
        ("create_rooms_and_terrain_tables", createRoomsAndTerrainTables)],
        GoodAt (envFaultOnly "add_max_students_to_rooms" e) q := by
      intro q hq
      simp only [List.mem_cons, List.mem_singleton, List.not_mem_nil, or_false] at hq
      rcases hq with hq | hq | hq | hq | hq <;> subst hq
      · exact goodAt_seedHardcodedAdminUser _ (envFaultOnly_bodyFault_ne _ _ _ (by decide))
      · exact goodAt_assignUsersToSchools _ (envFaultOnly_bodyFault_ne _ _ _ (by decide))
      · exact goodAt_ensureSupabaseBucketsForSchools _
      · exact goodAt_recalculateBudgetSpentAmounts _ (envFaultOnly_bodyFault_ne _ _ _ (by decide)) rfl
      · exact goodAt_createRoomsAndTerrainTables _ (envFaultOnly_bodyFault_ne _ _ _ (by decide)) rfl
    have hp : ∀ u : St, (∀ m, m ∈ u.migrationNames → m ∈ t1.migrationNames ∨
        m ∈ ([((("seed_hardcoded_admin_user", seedHardcodedAdminUser)) : NamedStep),
          ("assign_users_to_schools", assignUsersToSchools),
          ("ensure_supabase_buckets_for_schools", ensureSupabaseBucketsForSchools),
          ("recalculate_budget_spent_amounts", recalculateBudgetSpentAmounts),
          ("create_rooms_and_terrain_tables", createRoomsAndTerrainTables)].map Prod.fst)) →
        addMaxStudentsToRooms (envFaultOnly "add_max_students_to_rooms" e) u = ⟨pushInvoked "add_max_students_to_rooms" u, some e⟩ := by
      intro u hu
      refine fault_addMaxStudentsToRooms _ u e (envFaultOnly_bodyFault_self _ _) ?_
      refine fault_tracked_generic _ _ u rfl ?_
      intro hmem2
      rcases hu _ hmem2 with h | h
      · rcases hmig1 _ h with h2 | h2
        · exact htrack h2
        · exact absurd h2 (by decide)
      · exact absurd h (by decide)
    obtain ⟨t2, ht2, hti2⟩ := runSeq_fault (envFaultOnly "add_max_students_to_rooms" e)
      [("seed_hardcoded_admin_user", seedHardcodedAdminUser),
       ("assign_users_to_schools", assignUsersToSchools),
       ("ensure_supabase_buckets_for_schools", ensureSupabaseBucketsForSchools),
       ("recalculate_budget_spent_amounts", recalculateBudgetSpentAmounts),
       ("create_rooms_and_terrain_tables", createRoomsAndTerrainTables)]
      ("add_max_students_to_rooms", addMaxStudentsToRooms)
      [("create_folders_and_extend_documents", createFoldersAndExtendDocuments),
       ("create_investment_years_table", createInvestmentYearsTable),
       ("fix_invalid_drawing_categories", fixInvalidDrawingCategories),
       ("populate_investment_years", populateInvestmentYears),
       ("add_attachment_columns_to_reports_and_maintenance", addAttachmentColumnsToReportsAndMaintenance),
       ("extend_role_enum_for_rbac", extendRoleEnumForRbac),
       ("fix_jean_admin_role_v2", fixJeanAdminRole)] t1 e hpreB hp
    have hb : nonCriticalRun (envFaultOnly "add_max_students_to_rooms" e) t1 = ⟨t2, some e⟩ := by
      rw [nonCriticalRun_eq_runSeq]
      exact ht2
    rw [runMigrations_of_critical_ok _ _ _ hcrit, hb]
    refine ⟨rfl, ?_⟩
    show t2.invoked = _
    rw [hti2, hinv1, hinv]
    decide
  · -- failing step: create_folders_and_extend_documents
    obtain ⟨t1, ht1, hinv1, hmig1⟩ := runSeq_ok (envFaultOnly "create_folders_and_extend_documents" e) criticalPairs
      (criticalPairs_good _ _ (by decide) (by decide) (by decide) (by decide) (by decide)) s
    have hcrit : criticalRun (envFaultOnly "create_folders_and_extend_documents" e) s = ⟨t1, none⟩ := by
      rw [criticalRun_eq_runSeq]
      exact ht1
    have hpreB : ∀ q ∈ [((("seed_hardcoded_admin_user", seedHardcodedAdminUser)) : NamedStep),
        ("assign_users_to_schools", assignUsersToSchools),
        ("ensure_supabase_buckets_for_schools", ensureSupabaseBucketsForSchools),
        ("recalculate_budget_spent_amounts", recalculateBudgetSpentAmounts),
        ("create_rooms_and_terrain_tables", createRoomsAndTerrainTables),
        ("add_max_students_to_rooms", addMaxStudentsToRooms)],
        GoodAt (envFaultOnly "create_folders_and_extend_documents" e) q := by
      intro q hq
      simp only [List.mem_cons, List.mem_singleton, List.not_mem_nil, or_false] at hq
      rcases hq with hq | hq | hq | hq | hq | hq <;> subst hq
      · exact goodAt_seedHardcodedAdminUser _ (envFaultOnly_bodyFault_ne _ _ _ (by decide))
      · exact goodAt_assignUsersToSchools _ (envFaultOnly_bodyFault_ne _ _ _ (by decide))
      · exact goodAt_ensureSupabaseBucketsForSchools _
      · exact goodAt_recalculateBudgetSpentAmounts _ (envFaultOnly_bodyFault_ne _ _ _ (by decide)) rfl
      · exact goodAt_createRoomsAndTerrainTables _ (envFaultOnly_bodyFault_ne _ _ _ (by decide)) rfl
      · exact goodAt_addMaxStudentsToRooms _ (envFaultOnly_bodyFault_ne _ _ _ (by decide)) rfl
    have hp : ∀ u : St, (∀ m, m ∈ u.migrationNames → m ∈ t1.migrationNames ∨
        m ∈ ([((("seed_hardcoded_admin_user", seedHardcodedAdminUser)) : NamedStep),
          ("assign_users_to_schools", assignUsersToSchools),
          ("ensure_supabase_buckets_for_schools", ensureSupabaseBucketsForSchools),
          ("recalculate_budget_spent_amounts", recalculateBudgetSpentAmounts),
          ("create_rooms_and_terrain_tables", createRoomsAndTerrainTables),
          ("add_max_students_to_rooms", addMaxStudentsToRooms)].map Prod.fst)) →
        createFoldersAndExtendDocuments (envFaultOnly "create_folders_and_extend_documents" e) u = ⟨pushInvoked "create_folders_and_extend_documents" u, some e⟩ := by
      intro u hu
      refine fault_createFoldersAndExtendDocuments _ u e (envFaultOnly_bodyFault_self _ _) ?_
      refine fault_tracked_generic _ _ u rfl ?_
      intro hmem2
      rcases hu _ hmem2 with h | h
      · rcases hmig1 _ h with h2 | h2
        · exact htrack h2
        · exact absurd h2 (by decide)
      · exact absurd h (by decide)
    obtain ⟨t2, ht2, hti2⟩ := runSeq_fault (envFaultOnly "create_folders_and_extend_documents" e)
      [("seed_hardcoded_admin_user", seedHardcodedAdminUser),
       ("assign_users_to_schools", assignUsersToSchools),
       ("ensure_supabase_buckets_for_schools", ensureSupabaseBucketsForSchools),
       ("recalculate_budget_spent_amounts", recalculateBudgetSpentAmounts),
       ("create_rooms_and_terrain_tables", createRoomsAndTerrainTables),
       ("add_max_students_to_rooms", addMaxStudentsToRooms)]
      ("create_folders_and_extend_documents", createFoldersAndExtendDocuments)
      [("create_investment_years_table", createInvestmentYearsTable),
       ("fix_invalid_drawing_categories", fixInvalidDrawingCategories),
       ("populate_investment_years", populateInvestmentYears),
       ("add_attachment_columns_to_reports_and_maintenance", addAttachmentColumnsToReportsAndMaintenance),
       ("extend_role_enum_for_rbac", extendRoleEnumForRbac),
       ("fix_jean_admin_role_v2", fixJeanAdminRole)] t1 e hpreB hp
    have hb : nonCriticalRun (envFaultOnly "create_folders_and_extend_documents" e) t1 = ⟨t2, some e⟩ := by
      rw [nonCriticalRun_eq_runSeq]
      exact ht2
    rw [runMigrations_of_critical_ok _ _ _ hcrit, hb]
    refine ⟨rfl, ?_⟩
    show t2.invoked = _
    rw [hti2, hinv1, hinv]
    decide
  · -- failing step: create_investment_years_table
    obtain ⟨t1, ht1, hinv1, hmig1⟩ := runSeq_ok (envFaultOnly "create_investment_years_table" e) criticalPairs
      (criticalPairs_good _ _ (by decide) (by decide) (by decide) (by decide) (by decide)) s
    have hcrit : criticalRun (envFaultOnly "create_investment_years_table" e) s = ⟨t1, none⟩ := by
      rw [criticalRun_eq_runSeq]
      exact ht1
    have hpreB : ∀ q ∈ [((("seed_hardcoded_admin_user", seedHardcodedAdminUser)) : NamedStep),
        ("assign_users_to_schools", assignUsersToSchools),
        ("ensure_supabase_buckets_for_schools", ensureSupabaseBucketsForSchools),
        ("recalculate_budget_spent_amounts", recalculateBudgetSpentAmounts),
        ("create_rooms_and_terrain_tables", createRoomsAndTerrainTables),
        ("add_max_students_to_rooms", addMaxStudentsToRooms),
        ("create_folders_and_extend_documents", createFoldersAndExtendDocuments)],
        GoodAt (envFaultOnly "create_investment_years_table" e) q := by
      intro q hq
      simp only [List.mem_cons, List.mem_singleton, List.not_mem_nil, or_false] at hq
      rcases hq with hq | hq | hq | hq | hq | hq | hq <;> subst hq
      · exact goodAt_seedHardcodedAdminUser _ (envFaultOnly_bodyFault_ne _ _ _ (by decide))
      · exact goodAt_assignUsersToSchools _ (envFaultOnly_bodyFault_ne _ _ _ (by decide))
      · exact goodAt_ensureSupabaseBucketsForSchools _
      · exact goodAt_recalculateBudgetSpentAmounts _ (envFaultOnly_bodyFault_ne _ _ _ (by decide)) rfl
      · exact goodAt_createRoomsAndTerrainTables _ (envFaultOnly_bodyFault_ne _ _ _ (by decide)) rfl
      · exact goodAt_addMaxStudentsToRooms _ (envFaultOnly_bodyFault_ne _ _ _ (by decide)) rfl
      · exact goodAt_createFoldersAndExtendDocuments _ (envFaultOnly_bodyFault_ne _ _ _ (by decide)) rfl
    have hp : ∀ u : St, (∀ m, m ∈ u.migrationNames → m ∈ t1.migrationNames ∨
        m ∈ ([((("seed_hardcoded_admin_user", seedHardcodedAdminUser)) : NamedStep),
          ("assign_users_to_schools", assignUsersToSchools),
          ("ensure_supabase_buckets_for_schools", ensureSupabaseBucketsForSchools),
          ("recalculate_budget_spent_amounts", recalculateBudgetSpentAmounts),
          ("create_rooms_and_terrain_tables", createRoomsAndTerrainTables),
          ("add_max_students_to_rooms", addMaxStudentsToRooms),
          ("create_folders_and_extend_documents", createFoldersAndExtendDocuments)].map Prod.fst)) →
        createInvestmentYearsTable (envFaultOnly "create_investment_years_table" e) u = ⟨pushInvoked "create_investment_years_table" u, some e⟩ := by
      intro u hu
      refine fault_createInvestmentYearsTable _ u e (envFaultOnly_bodyFault_self _ _) ?_
      refine fault_tracked_generic _ _ u rfl ?_
      intro hmem2
      rcases hu _ hmem2 with h | h
      · rcases hmig1 _ h with h2 | h2
        · exact htrack h2
        · exact absurd h2 (by decide)
      · exact absurd h (by decide)
    obtain ⟨t2, ht2, hti2⟩ := runSeq_fault (envFaultOnly "create_investment_years_table" e)
      [("seed_hardcoded_admin_user", seedHardcodedAdminUser),
       ("assign_users_to_schools", assignUsersToSchools),
       ("ensure_supabase_buckets_for_schools", ensureSupabaseBucketsForSchools),
       ("recalculate_budget_spent_amounts", recalculateBudgetSpentAmounts),
       ("create_rooms_and_terrain_tables", createRoomsAndTerrainTables),
       ("add_max_students_to_rooms", addMaxStudentsToRooms),
       ("create_folders_and_extend_documents", createFoldersAndExtendDocuments)]
      ("create_investment_years_table", createInvestmentYearsTable)
      [("fix_invalid_drawing_categories", fixInvalidDrawingCategories),
       ("populate_investment_years", populateInvestmentYears),
       ("add_attachment_columns_to_reports_and_maintenance", addAttachmentColumnsToReportsAndMaintenance),
       ("extend_role_enum_for_rbac", extendRoleEnumForRbac),
       ("fix_jean_admin_role_v2", fixJeanAdminRole)] t1 e hpreB hp
    have hb : nonCriticalRun (envFaultOnly "create_investment_years_table" e) t1 = ⟨t2, some e⟩ := by
      rw [nonCriticalRun_eq_runSeq]
      exact ht2
    rw [runMigrations_of_critical_ok _ _ _ hcrit, hb]
    refine ⟨rfl, ?_⟩
    show t2.invoked = _
    rw [hti2, hinv1, hinv]
    decide
  · -- failing step: fix_invalid_drawing_categories
    obtain ⟨t1, ht1, hinv1, hmig1⟩ := runSeq_ok (envFaultOnly "fix_invalid_drawing_categories" e) criticalPairs
      (criticalPairs_good _ _ (by decide) (by decide) (by decide) (by decide) (by decide)) s
    have hcrit : criticalRun (envFaultOnly "fix_invalid_drawing_categories" e) s = ⟨t1, none⟩ := by
      rw [criticalRun_eq_runSeq]
      exact ht1
    have hpreB : ∀ q ∈ [((("seed_hardcoded_admin_user", seedHardcodedAdminUser)) : NamedStep),
        ("assign_users_to_schools", assignUsersToSchools),
        ("ensure_supabase_buckets_for_schools", ensureSupabaseBucketsForSchools),
        ("recalculate_budget_spent_amounts", recalculateBudgetSpentAmounts),
        ("create_rooms_and_terrain_tables", createRoomsAndTerrainTables),
        ("add_max_students_to_rooms", addMaxStudentsToRooms),
        ("create_folders_and_extend_documents", createFoldersAndExtendDocuments),
        ("create_investment_years_table", createInvestmentYearsTable)],
        GoodAt (envFaultOnly "fix_invalid_drawing_categories" e) q := by
      intro q hq
      simp only [List.mem_cons, List.mem_singleton, List.not_mem_nil, or_false] at hq
      rcases hq with hq | hq | hq | hq | hq | hq | hq | hq <;> subst hq
      · exact goodAt_seedHardcodedAdminUser _ (envFaultOnly_bodyFault_ne _ _ _ (by decide))
      · exact goodAt_assignUsersToSchools _ (envFaultOnly_bodyFault_ne _ _ _ (by decide))
      · exact goodAt_ensureSupabaseBucketsForSchools _
      · exact goodAt_recalculateBudgetSpentAmounts _ (envFaultOnly_bodyFault_ne _ _ _ (by decide)) rfl
      · exact goodAt_createRoomsAndTerrainTables _ (envFaultOnly_bodyFault_ne _ _ _ (by decide)) rfl
      · exact goodAt_addMaxStudentsToRooms _ (envFaultOnly_bodyFault_ne _ _ _ (by decide)) rfl
      · exact goodAt_createFoldersAndExtendDocuments _ (envFaultOnly_bodyFault_ne _ _ _ (by decide)) rfl
      · exact goodAt_createInvestmentYearsTable _ (envFaultOnly_bodyFault_ne _ _ _ (by decide)) rfl
    have hp : ∀ u : St, (∀ m, m ∈ u.migrationNames → m ∈ t1.migrationNames ∨
        m ∈ ([((("seed_hardcoded_admin_user", seedHardcodedAdminUser)) : NamedStep),
          ("assign_users_to_schools", assignUsersToSchools),
          ("ensure_supabase_buckets_for_schools", ensureSupabaseBucketsForSchools),
          ("recalculate_budget_spent_amounts", recalculateBudgetSpentAmounts),
          ("create_rooms_and_terrain_tables", createRoomsAndTerrainTables),
          ("add_max_students_to_rooms", addMaxStudentsToRooms),
          ("create_folders_and_extend_documents", createFoldersAndExtendDocuments),
          ("create_investment_years_table", createInvestmentYearsTable)].map Prod.fst)) →
        fixInvalidDrawingCategories (envFaultOnly "fix_invalid_drawing_categories" e) u = ⟨pushInvoked "fix_invalid_drawing_categories" u, some e⟩ := by
      intro u hu
      refine fault_fixInvalidDrawingCategories _ u e (envFaultOnly_bodyFault_self _ _) ?_
      refine fault_tracked_generic _ _ u rfl ?_
      intro hmem2
      rcases hu _ hmem2 with h | h
      · rcases hmig1 _ h with h2 | h2
        · exact htrack h2
        · exact absurd h2 (by decide)
      · exact absurd h (by decide)
    obtain ⟨t2, ht2, hti2⟩ := runSeq_fault (envFaultOnly "fix_invalid_drawing_categories" e)
      [("seed_hardcoded_admin_user", seedHardcodedAdminUser),
       ("assign_users_to_schools", assignUsersToSchools),
       ("ensure_supabase_buckets_for_schools", ensureSupabaseBucketsForSchools),
       ("recalculate_budget_spent_amounts", recalculateBudgetSpentAmounts),
       ("create_rooms_and_terrain_tables", createRoomsAndTerrainTables),
       ("add_max_students_to_rooms", addMaxStudentsToRooms),
       ("create_folders_and_extend_documents", createFoldersAndExtendDocuments),
       ("create_investment_years_table", createInvestmentYearsTable)]
      ("fix_invalid_drawing_categories", fixInvalidDrawingCategories)
      [("populate_investment_years", populateInvestmentYears),
       ("add_attachment_columns_to_reports_and_maintenance", addAttachmentColumnsToReportsAndMaintenance),
       ("extend_role_enum_for_rbac", extendRoleEnumForRbac),
       ("fix_jean_admin_role_v2", fixJeanAdminRole)] t1 e hpreB hp
    have hb : nonCriticalRun (envFaultOnly "fix_invalid_drawing_categories" e) t1 = ⟨t2, some e⟩ := by
      rw [nonCriticalRun_eq_runSeq]
      exact ht2
    rw [runMigrations_of_critical_ok _ _ _ hcrit, hb]
    refine ⟨rfl, ?_⟩
    show t2.invoked = _
    rw [hti2, hinv1, hinv]
    decide
  · -- failing step: populate_investment_years
    obtain ⟨t1, ht1, hinv1, hmig1⟩ := runSeq_ok (envFaultOnly "populate_investment_years" e) criticalPairs
      (criticalPairs_good _ _ (by decide) (by decide) (by decide) (by decide) (by decide)) s
    have hcrit : criticalRun (envFaultOnly "populate_investment_years" e) s = ⟨t1, none⟩ := by
      rw [criticalRun_eq_runSeq]
      exact ht1
    have hpreB : ∀ q ∈ [((("seed_hardcoded_admin_user", seedHardcodedAdminUser)) : NamedStep),
        ("assign_users_to_schools", assignUsersToSchools),
        ("ensure_supabase_buckets_for_schools", ensureSupabaseBucketsForSchools),
        ("recalculate_budget_spent_amounts", recalculateBudgetSpentAmounts),
        ("create_rooms_and_terrain_tables", createRoomsAndTerrainTables),
        ("add_max_students_to_rooms", addMaxStudentsToRooms),
        ("create_folders_and_extend_documents", createFoldersAndExtendDocuments),
        ("create_investment_years_table", createInvestmentYearsTable),
        ("fix_invalid_drawing_categories", fixInvalidDrawingCategories)],
        GoodAt (envFaultOnly "populate_investment_years" e) q := by
      intro q hq
      simp only [List.mem_cons, List.mem_singleton, List.not_mem_nil, or_false] at hq
      rcases hq with hq | hq | hq | hq | hq | hq | hq | hq | hq <;> subst hq
      · exact goodAt_seedHardcodedAdminUser _ (envFaultOnly_bodyFault_ne _ _ _ (by decide))
      · exact goodAt_assignUsersToSchools _ (envFaultOnly_bodyFault_ne _ _ _ (by decide))
      · exact goodAt_ensureSupabaseBucketsForSchools _
      · exact goodAt_recalculateBudgetSpentAmounts _ (envFaultOnly_bodyFault_ne _ _ _ (by decide)) rfl
      · exact goodAt_createRoomsAndTerrainTables _ (envFaultOnly_bodyFault_ne _ _ _ (by decide)) rfl
      · exact goodAt_addMaxStudentsToRooms _ (envFaultOnly_bodyFault_ne _ _ _ (by decide)) rfl
      · exact goodAt_createFoldersAndExtendDocuments _ (envFaultOnly_bodyFault_ne _ _ _ (by decide)) rfl
      · exact goodAt_createInvestmentYearsTable _ (envFaultOnly_bodyFault_ne _ _ _ (by decide)) rfl
      · exact goodAt_fixInvalidDrawingCategories _ (envFaultOnly_bodyFault_ne _ _ _ (by decide)) rfl
    have hp : ∀ u : St, (∀ m, m ∈ u.migrationNames → m ∈ t1.migrationNames ∨
        m ∈ ([((("seed_hardcoded_admin_user", seedHardcodedAdminUser)) : NamedStep),
          ("assign_users_to_schools", assignUsersToSchools),
          ("ensure_supabase_buckets_for_schools", ensureSupabaseBucketsForSchools),
          ("recalculate_budget_spent_amounts", recalculateBudgetSpentAmounts),
          ("create_rooms_and_terrain_tables", createRoomsAndTerrainTables),
          ("add_max_students_to_rooms", addMaxStudentsToRooms),
          ("create_folders_and_extend_documents", createFoldersAndExtendDocuments),
          ("create_investment_years_table", createInvestmentYearsTable),
          ("fix_invalid_drawing_categories", fixInvalidDrawingCategories)].map Prod.fst)) →
        populateInvestmentYears (envFaultOnly "populate_investment_years" e) u = ⟨pushInvoked "populate_investment_years" u, some e⟩ := by
      intro u hu
      refine fault_populateInvestmentYears _ u e (envFaultOnly_bodyFault_self _ _) ?_
      refine fault_tracked_generic _ _ u rfl ?_
      intro hmem2
      rcases hu _ hmem2 with h | h
      · rcases hmig1 _ h with h2 | h2
        · exact htrack h2
        · exact absurd h2 (by decide)
      · exact absurd h (by decide)
    obtain ⟨t2, ht2, hti2⟩ := runSeq_fault (envFaultOnly "populate_investment_years" e)
      [("seed_hardcoded_admin_user", seedHardcodedAdminUser),
       ("assign_users_to_schools", assignUsersToSchools),
       ("ensure_supabase_buckets_for_schools", ensureSupabaseBucketsForSchools),
       ("recalculate_budget_spent_amounts", recalculateBudgetSpentAmounts),
       ("create_rooms_and_terrain_tables", createRoomsAndTerrainTables),
       ("add_max_students_to_rooms", addMaxStudentsToRooms),
       ("create_folders_and_extend_documents", createFoldersAndExtendDocuments),
       ("create_investment_years_table", createInvestmentYearsTable),
       ("fix_invalid_drawing_categories", fixInvalidDrawingCategories)]
      ("populate_investment_years", populateInvestmentYears)
      [("add_attachment_columns_to_reports_and_maintenance", addAttachmentColumnsToReportsAndMaintenance),
       ("extend_role_enum_for_rbac", extendRoleEnumForRbac),
       ("fix_jean_admin_role_v2", fixJeanAdminRole)] t1 e hpreB hp
    have hb : nonCriticalRun (envFaultOnly "populate_investment_years" e) t1 = ⟨t2, some e⟩ := by
      rw [nonCriticalRun_eq_runSeq]
      exact ht2
    rw [runMigrations_of_critical_ok _ _ _ hcrit, hb]
    refine ⟨rfl, ?_⟩
    show t2.invoked = _
    rw [hti2, hinv1, hinv]
    decide
  · -- failing step: add_attachment_columns_to_reports_and_maintenance
    obtain ⟨t1, ht1, hinv1, hmig1⟩ := runSeq_ok (envFaultOnly "add_attachment_columns_to_reports_and_maintenance" e) criticalPairs
      (criticalPairs_good _ _ (by decide) (by decide) (by decide) (by decide) (by decide)) s
    have hcrit : criticalRun (envFaultOnly "add_attachment_columns_to_reports_and_maintenance" e) s = ⟨t1, none⟩ := by
      rw [criticalRun_eq_runSeq]
      exact ht1
    have hpreB : ∀ q ∈ [((("seed_hardcoded_admin_user", seedHardcodedAdminUser)) : NamedStep),
        ("assign_users_to_schools", assignUsersToSchools),
        ("ensure_supabase_buckets_for_schools", ensureSupabaseBucketsForSchools),
        ("recalculate_budget_spent_amounts", recalculateBudgetSpentAmounts),
        ("create_rooms_and_terrain_tables", createRoomsAndTerrainTables),
        ("add_max_students_to_rooms", addMaxStudentsToRooms),
        ("create_folders_and_extend_documents", createFoldersAndExtendDocuments),
        ("create_investment_years_table", createInvestmentYearsTable),
        ("fix_invalid_drawing_categories", fixInvalidDrawingCategories),
        ("populate_investment_years", populateInvestmentYears)],
        GoodAt (envFaultOnly "add_attachment_columns_to_reports_and_maintenance" e) q := by
      intro q hq
      simp only [List.mem_cons, List.mem_singleton, List.not_mem_nil, or_false] at hq
      rcases hq with hq | hq | hq | hq | hq | hq | hq | hq | hq | hq <;> subst hq
      · exact goodAt_seedHardcodedAdminUser _ (envFaultOnly_bodyFault_ne _ _ _ (by decide))
      · exact goodAt_assignUsersToSchools _ (envFaultOnly_bodyFault_ne _ _ _ (by decide))
      · exact goodAt_ensureSupabaseBucketsForSchools _
      · exact goodAt_recalculateBudgetSpentAmounts _ (envFaultOnly_bodyFault_ne _ _ _ (by decide)) rfl
      · exact goodAt_createRoomsAndTerrainTables _ (envFaultOnly_bodyFault_ne _ _ _ (by decide)) rfl
      · exact goodAt_addMaxStudentsToRooms _ (envFaultOnly_bodyFault_ne _ _ _ (by decide)) rfl
      · exact goodAt_createFoldersAndExtendDocuments _ (envFaultOnly_bodyFault_ne _ _ _ (by decide)) rfl
      · exact goodAt_createInvestmentYearsTable _ (envFaultOnly_bodyFault_ne _ _ _ (by decide)) rfl
      · exact goodAt_fixInvalidDrawingCategories _ (envFaultOnly_bodyFault_ne _ _ _ (by decide)) rfl
      · exact goodAt_populateInvestmentYears _ (envFaultOnly_bodyFault_ne _ _ _ (by decide)) rfl
    have hp : ∀ u : St, (∀ m, m ∈ u.migrationNames → m ∈ t1.migrationNames ∨
        m ∈ ([((("seed_hardcoded_admin_user", seedHardcodedAdminUser)) : NamedStep),
          ("assign_users_to_schools", assignUsersToSchools),
          ("ensure_supabase_buckets_for_schools", ensureSupabaseBucketsForSchools),
          ("recalculate_budget_spent_amounts", recalculateBudgetSpentAmounts),
          ("create_rooms_and_terrain_tables", createRoomsAndTerrainTables),
          ("add_max_students_to_rooms", addMaxStudentsToRooms),
          ("create_folders_and_extend_documents", createFoldersAndExtendDocuments),
          ("create_investment_years_table", createInvestmentYearsTable),
          ("fix_invalid_drawing_categories", fixInvalidDrawingCategories),
          ("populate_investment_years", populateInvestmentYears)].map Prod.fst)) →
        addAttachmentColumnsToReportsAndMaintenance (envFaultOnly "add_attachment_columns_to_reports_and_maintenance" e) u = ⟨pushInvoked "add_attachment_columns_to_reports_and_maintenance" u, some e⟩ := by
      intro u hu
      refine fault_addAttachmentColumnsToReportsAndMaintenance _ u e (envFaultOnly_bodyFault_self _ _) ?_
      refine fault_tracked_generic _ _ u rfl ?_
      intro hmem2
      rcases hu _ hmem2 with h | h
      · rcases hmig1 _ h with h2 | h2
        · exact htrack h2
        · exact absurd h2 (by decide)
      · exact absurd h (by decide)
    obtain ⟨t2, ht2, hti2⟩ := runSeq_fault (envFaultOnly "add_attachment_columns_to_reports_and_maintenance" e)
      [("seed_hardcoded_admin_user", seedHardcodedAdminUser),
       ("assign_users_to_schools", assignUsersToSchools),
       ("ensure_supabase_buckets_for_schools", ensureSupabaseBucketsForSchools),
       ("recalculate_budget_spent_amounts", recalculateBudgetSpentAmounts),
       ("create_rooms_and_terrain_tables", createRoomsAndTerrainTables),
       ("add_max_students_to_rooms", addMaxStudentsToRooms),
       ("create_folders_and_extend_documents", createFoldersAndExtendDocuments),
       ("create_investment_years_table", createInvestmentYearsTable),
       ("fix_invalid_drawing_categories", fixInvalidDrawingCategories),
       ("populate_investment_years", populateInvestmentYears)]
      ("add_attachment_columns_to_reports_and_maintenance", addAttachmentColumnsToReportsAndMaintenance)
      [("extend_role_enum_for_rbac", extendRoleEnumForRbac),
       ("fix_jean_admin_role_v2", fixJeanAdminRole)] t1 e hpreB hp
    have hb : nonCriticalRun (envFaultOnly "add_attachment_columns_to_reports_and_maintenance" e) t1 = ⟨t2, some e⟩ := by
      rw [nonCriticalRun_eq_runSeq]
      exact ht2
    rw [runMigrations_of_critical_ok _ _ _ hcrit, hb]
    refine ⟨rfl, ?_⟩
    show t2.invoked = _
    rw [hti2, hinv1, hinv]
    decide
  · -- failing step: extend_role_enum_for_rbac
    obtain ⟨t1, ht1, hinv1, hmig1⟩ := runSeq_ok (envFaultOnly "extend_role_enum_for_rbac" e) criticalPairs
      (criticalPairs_good _ _ (by decide) (by decide) (by decide) (by decide) (by decide)) s
    have hcrit : criticalRun (envFaultOnly "extend_role_enum_for_rbac" e) s = ⟨t1, none⟩ := by
      rw [criticalRun_eq_runSeq]
      exact ht1
    have hpreB : ∀ q ∈ [((("seed_hardcoded_admin_user", seedHardcodedAdminUser)) : NamedStep),
        ("assign_users_to_schools", assignUsersToSchools),
        ("ensure_supabase_buckets_for_schools", ensureSupabaseBucketsForSchools),
        ("recalculate_budget_spent_amounts", recalculateBudgetSpentAmounts),
        ("create_rooms_and_terrain_tables", createRoomsAndTerrainTables),
        ("add_max_students_to_rooms", addMaxStudentsToRooms),
        ("create_folders_and_extend_documents", createFoldersAndExtendDocuments),
        ("create_investment_years_table", createInvestmentYearsTable),
        ("fix_invalid_drawing_categories", fixInvalidDrawingCategories),
        ("populate_investment_years", populateInvestmentYears),
        ("add_attachment_columns_to_reports_and_maintenance", addAttachmentColumnsToReportsAndMaintenance)],
        GoodAt (envFaultOnly "extend_role_enum_for_rbac" e) q := by
      intro q hq
      simp only [List.mem_cons, List.mem_singleton, List.not_mem_nil, or_false] at hq
      rcases hq with hq | hq | hq | hq | hq | hq | hq | hq | hq | hq | hq <;> subst hq
      · exact goodAt_seedHardcodedAdminUser _ (envFaultOnly_bodyFault_ne _ _ _ (by decide))
      · exact goodAt_assignUsersToSchools _ (envFaultOnly_bodyFault_ne _ _ _ (by decide))
      · exact goodAt_ensureSupabaseBucketsForSchools _
      · exact goodAt_recalculateBudgetSpentAmounts _ (envFaultOnly_bodyFault_ne _ _ _ (by decide)) rfl
      · exact goodAt_createRoomsAndTerrainTables _ (envFaultOnly_bodyFault_ne _ _ _ (by decide)) rfl
      · exact goodAt_addMaxStudentsToRooms _ (envFaultOnly_bodyFault_ne _ _ _ (by decide)) rfl
      · exact goodAt_createFoldersAndExtendDocuments _ (envFaultOnly_bodyFault_ne _ _ _ (by decide)) rfl
      · exact goodAt_createInvestmentYearsTable _ (envFaultOnly_bodyFault_ne _ _ _ (by decide)) rfl
      · exact goodAt_fixInvalidDrawingCategories _ (envFaultOnly_bodyFault_ne _ _ _ (by decide)) rfl
      · exact goodAt_populateInvestmentYears _ (envFaultOnly_bodyFault_ne _ _ _ (by decide)) rfl
      · exact goodAt_addAttachmentColumnsToReportsAndMaintenance _ (envFaultOnly_bodyFault_ne _ _ _ (by decide)) rfl
    have hp : ∀ u : St, (∀ m, m ∈ u.migrationNames → m ∈ t1.migrationNames ∨
        m ∈ ([((("seed_hardcoded_admin_user", seedHardcodedAdminUser)) : NamedStep),
          ("assign_users_to_schools", assignUsersToSchools),
          ("ensure_supabase_buckets_for_schools", ensureSupabaseBucketsForSchools),
          ("recalculate_budget_spent_amounts", recalculateBudgetSpentAmounts),
          ("create_rooms_and_terrain_tables", createRoomsAndTerrainTables),
          ("add_max_students_to_rooms", addMaxStudentsToRooms),
          ("create_folders_and_extend_documents", createFoldersAndExtendDocuments),
          ("create_investment_years_table", createInvestmentYearsTable),
          ("fix_invalid_drawing_categories", fixInvalidDrawingCategories),
          ("populate_investment_years", populateInvestmentYears),
          ("add_attachment_columns_to_reports_and_maintenance", addAttachmentColumnsToReportsAndMaintenance)].map Prod.fst)) →
        extendRoleEnumForRbac (envFaultOnly "extend_role_enum_for_rbac" e) u = ⟨pushInvoked "extend_role_enum_for_rbac" u, some e⟩ := by
      intro u hu
      refine fault_extendRoleEnumForRbac _ u e (envFaultOnly_bodyFault_self _ _) ?_
      refine fault_tracked_generic _ _ u rfl ?_
      intro hmem2
      rcases hu _ hmem2 with h | h
      · rcases hmig1 _ h with h2 | h2
        · exact htrack h2
        · exact absurd h2 (by decide)
      · exact absurd h (by decide)
    obtain ⟨t2, ht2, hti2⟩ := runSeq_fault (envFaultOnly "extend_role_enum_for_rbac" e)
      [("seed_hardcoded_admin_user", seedHardcodedAdminUser),
       ("assign_users_to_schools", assignUsersToSchools),
       ("ensure_supabase_buckets_for_schools", ensureSupabaseBucketsForSchools),
       ("recalculate_budget_spent_amounts", recalculateBudgetSpentAmounts),
       ("create_rooms_and_terrain_tables", createRoomsAndTerrainTables),
       ("add_max_students_to_rooms", addMaxStudentsToRooms),
       ("create_folders_and_extend_documents", createFoldersAndExtendDocuments),
       ("create_investment_years_table", createInvestmentYearsTable),
       ("fix_invalid_drawing_categories", fixInvalidDrawingCategories),
       ("populate_investment_years", populateInvestmentYears),
       ("add_attachment_columns_to_reports_and_maintenance", addAttachmentColumnsToReportsAndMaintenance)]
      ("extend_role_enum_for_rbac", extendRoleEnumForRbac)
      [("fix_jean_admin_role_v2", fixJeanAdminRole)] t1 e hpreB hp
    have hb : nonCriticalRun (envFaultOnly "extend_role_enum_for_rbac" e) t1 = ⟨t2, some e⟩ := by
      rw [nonCriticalRun_eq_runSeq]
      exact ht2
    rw [runMigrations_of_critical_ok _ _ _ hcrit, hb]
    refine ⟨rfl, ?_⟩
    show t2.invoked = _
    rw [hti2, hinv1, hinv]
    decide
  · -- failing step: fix_jean_admin_role_v2
    obtain ⟨t1, ht1, hinv1, hmig1⟩ := runSeq_ok (envFaultOnly "fix_jean_admin_role_v2" e) criticalPairs
      (criticalPairs_good _ _ (by decide) (by decide) (by decide) (by decide) (by decide)) s
    have hcrit : criticalRun (envFaultOnly "fix_jean_admin_role_v2" e) s = ⟨t1, none⟩ := by
      rw [criticalRun_eq_runSeq]
      exact ht1
    have hpreB : ∀ q ∈ [((("seed_hardcoded_admin_user", seedHardcodedAdminUser)) : NamedStep),
        ("assign_users_to_schools", assignUsersToSchools),
        ("ensure_supabase_buckets_for_schools", ensureSupabaseBucketsForSchools),
        ("recalculate_budget_spent_amounts", recalculateBudgetSpentAmounts),
        ("create_rooms_and_terrain_tables", createRoomsAndTerrainTables),
        ("add_max_students_to_rooms", addMaxStudentsToRooms),
        ("create_folders_and_extend_documents", createFoldersAndExtendDocuments),
        ("create_investment_years_table", createInvestmentYearsTable),
        ("fix_invalid_drawing_categories", fixInvalidDrawingCategories),
        ("populate_investment_years", populateInvestmentYears),
        ("add_attachment_columns_to_reports_and_maintenance", addAttachmentColumnsToReportsAndMaintenance),
        ("extend_role_enum_for_rbac", extendRoleEnumForRbac)],
        GoodAt (envFaultOnly "fix_jean_admin_role_v2" e) q := by
      intro q hq
      simp only [List.mem_cons, List.mem_singleton, List.not_mem_nil, or_false] at hq
      rcases hq with hq | hq | hq | hq | hq | hq | hq | hq | hq | hq | hq | hq <;> subst hq
      · exact goodAt_seedHardcodedAdminUser _ (envFaultOnly_bodyFault_ne _ _ _ (by decide))
      · exact goodAt_assignUsersToSchools _ (envFaultOnly_bodyFault_ne _ _ _ (by decide))
      · exact goodAt_ensureSupabaseBucketsForSchools _
      · exact goodAt_recalculateBudgetSpentAmounts _ (envFaultOnly_bodyFault_ne _ _ _ (by decide)) rfl
      · exact goodAt_createRoomsAndTerrainTables _ (envFaultOnly_bodyFault_ne _ _ _ (by decide)) rfl
      · exact goodAt_addMaxStudentsToRooms _ (envFaultOnly_bodyFault_ne _ _ _ (by decide)) rfl
      · exact goodAt_createFoldersAndExtendDocuments _ (envFaultOnly_bodyFault_ne _ _ _ (by decide)) rfl
      · exact goodAt_createInvestmentYearsTable _ (envFaultOnly_bodyFault_ne _ _ _ (by decide)) rfl
      · exact goodAt_fixInvalidDrawingCategories _ (envFaultOnly_bodyFault_ne _ _ _ (by decide)) rfl
      · exact goodAt_populateInvestmentYears _ (envFaultOnly_bodyFault_ne _ _ _ (by decide)) rfl
      · exact goodAt_addAttachmentColumnsToReportsAndMaintenance _ (envFaultOnly_bodyFault_ne _ _ _ (by decide)) rfl
      · exact goodAt_extendRoleEnumForRbac _ (envFaultOnly_bodyFault_ne _ _ _ (by decide)) rfl
    have hp : ∀ u : St, (∀ m, m ∈ u.migrationNames → m ∈ t1.migrationNames ∨
        m ∈ ([((("seed_hardcoded_admin_user", seedHardcodedAdminUser)) : NamedStep),
          ("assign_users_to_schools", assignUsersToSchools),
          ("ensure_supabase_buckets_for_schools", ensureSupabaseBucketsForSchools),
          ("recalculate_budget_spent_amounts", recalculateBudgetSpentAmounts),
          ("create_rooms_and_terrain_tables", createRoomsAndTerrainTables),
          ("add_max_students_to_rooms", addMaxStudentsToRooms),
          ("create_folders_and_extend_documents", createFoldersAndExtendDocuments),
          ("create_investment_years_table", createInvestmentYearsTable),
          ("fix_invalid_drawing_categories", fixInvalidDrawingCategories),
          ("populate_investment_years", populateInvestmentYears),
          ("add_attachment_columns_to_reports_and_maintenance", addAttachmentColumnsToReportsAndMaintenance),
          ("extend_role_enum_for_rbac", extendRoleEnumForRbac)].map Prod.fst)) →
        fixJeanAdminRole (envFaultOnly "fix_jean_admin_role_v2" e) u = ⟨pushInvoked "fix_jean_admin_role_v2" u, some e⟩ := by
      intro u hu
      refine fault_fixJeanAdminRole _ u e (envFaultOnly_bodyFault_self _ _) ?_
      refine fault_tracked_generic _ _ u rfl ?_
      intro hmem2
      rcases hu _ hmem2 with h | h
      · rcases hmig1 _ h with h2 | h2
        · exact htrack h2
        · exact absurd h2 (by decide)
      · exact absurd h (by decide)
    obtain ⟨t2, ht2, hti2⟩ := runSeq_fault (envFaultOnly "fix_jean_admin_role_v2" e)
      [("seed_hardcoded_admin_user", seedHardcodedAdminUser),
       ("assign_users_to_schools", assignUsersToSchools),
       ("ensure_supabase_buckets_for_schools", ensureSupabaseBucketsForSchools),
       ("recalculate_budget_spent_amounts", recalculateBudgetSpentAmounts),
       ("create_rooms_and_terrain_tables", createRoomsAndTerrainTables),
       ("add_max_students_to_rooms", addMaxStudentsToRooms),
       ("create_folders_and_extend_documents", createFoldersAndExtendDocuments),
       ("create_investment_years_table", createInvestmentYearsTable),
       ("fix_invalid_drawing_categories", fixInvalidDrawingCategories),
       ("populate_investment_years", populateInvestmentYears),
       ("add_attachment_columns_to_reports_and_maintenance", addAttachmentColumnsToReportsAndMaintenance),
       ("extend_role_enum_for_rbac", extendRoleEnumForRbac)]
      ("fix_jean_admin_role_v2", fixJeanAdminRole)
      [] t1 e hpreB hp
    have hb : nonCriticalRun (envFaultOnly "fix_jean_admin_role_v2" e) t1 = ⟨t2, some e⟩ := by
      rw [nonCriticalRun_eq_runSeq]
      exact ht2
    rw [runMigrations_of_critical_ok _ _ _ hcrit, hb]
    refine ⟨rfl, ?_⟩
    show t2.invoked = _
    rw [hti2, hinv1, hinv]
    decide

/-- C1 counterexample: on a fresh database, with an injected throw in the
body of the non-critical admin-user seeding step, `runMigrations` still
resolves (`err = none`) — but the other non-critical steps declared after it
(user-school assignment, budget recalculation, …) are never invoked, because
the whole non-critical block shares a single try/catch.  This refutes the
claim that every other non-critical step still executes. -/
theorem nonCriticalIsolation_counterexample :
    (runMigrations (envFaultOnly "seed_hardcoded_admin_user" "boom") freshSt).err = none ∧
    "assign_users_to_schools" ∉
      (runMigrations (envFaultOnly "seed_hardcoded_admin_user" "boom") freshSt).st.invoked ∧
    "recalculate_budget_spent_amounts" ∉
      (runMigrations (envFaultOnly "seed_hardcoded_admin_user" "boom") freshSt).st.invoked := by
  decide

/-- Witness for the amended C1 theorem at a concrete input: fresh database,
throw injected into the budget-recalculation step; the run resolves. -/
theorem nonCriticalBatchIsolation_witness :
    freshSt.invoked = [] ∧
    "recalculate_budget_spent_amounts" ∈ nonCriticalNames ∧
    "recalculate_budget_spent_amounts" ∉ freshSt.migrationNames ∧
    (runMigrations (envFaultOnly "recalculate_budget_spent_amounts" "boom") freshSt).err = none :=
  ⟨rfl, by decide, by decide,
    (nonCriticalBatchIsolation freshSt rfl "recalculate_budget_spent_amounts"
      (by decide) "boom" (by decide)).1⟩

/-- Witness for C2 at a concrete input: fresh database, throw injected into
the session-table step; the run rejects with that error. -/
theorem criticalFailurePropagation_witness :
    freshSt.invoked = [] ∧
    "ensure_session_table" ∈ criticalNames ∧
    (runMigrations (envFaultOnly "ensure_session_table" "db down") freshSt).err =
      some "db down" :=
  ⟨rfl, by decide,
    (criticalFailurePropagation freshSt rfl "ensure_session_table" (by decide) "db down"
      (fun h => absurd h (by decide)) (fun _ => by decide)).1⟩

/-- C3 (confirmed): when the tracking-store existence query fails,
`hasMigrationRun` returns `false` for every name, so a tracked step that
consults it executes its body rather than skipping it — shown on the
budget-recalculation step: even with its name already in the tracking
table, under a failing existence query the step runs its body (it returns
without error and recomputes every `spent` value from maintenance
history). -/
theorem trackingCheckFailOpen (s : St) (n : String) :
    hasMigrationRun envHasRunFaultOnly n s = false ∧
    ("recalculate_budget_spent_amounts" ∈ s.migrationNames →
      (recalculateBudgetSpentAmounts envHasRunFaultOnly s).err = none ∧
      (recalculateBudgetSpentAmounts envHasRunFaultOnly s).st.budgetCategories =
        s.budgetCategories.map (fun bc =>
          (⟨bc.name, bc.schoolId, spentFor s.maintenanceHistory bc⟩ : BudgetCategory))) :=
  ⟨rfl, fun _ => ⟨rfl, by
    show (s.budgetCategories.map fun bc => (⟨bc.name, bc.schoolId, 0⟩ : BudgetCategory)).map _ = _
    rw [List.map_map]
    rfl⟩⟩

/-- Witness for C3 at a concrete input: the recalculation step is tracked
as already run in `sampleSt`, yet with the failing existence query it still
executes (returns without error). -/
theorem trackingCheckFailOpen_witness :
    "recalculate_budget_spent_amounts" ∈ sampleSt.migrationNames ∧
    hasMigrationRun envHasRunFaultOnly "recalculate_budget_spent_amounts" sampleSt = false ∧
    (recalculateBudgetSpentAmounts envHasRunFaultOnly sampleSt).err = none :=
  ⟨by decide, (trackingCheckFailOpen sampleSt "recalculate_budget_spent_amounts").1,
    ((trackingCheckFailOpen sampleSt "recalculate_budget_spent_amounts").2 (by decide)).1⟩

/-- C4 counterexample: with the base schema already present and a failing
tracking-table insert, `markMigrationComplete` itself throws, yet
`createBaseSchema` returns successfully: its schema-already-exists path
wraps the marking in a try/catch that ignores the failure, refuting the
claim that a tracking-store write failure is always propagated as a failure
of the step. -/
theorem trackingWriteEscalation_counterexample :
    (markMigrationComplete envMarkFaultOnly "create_base_schema"
      { freshSt with schemaExists := true }).err = some trackingInsertErr ∧
    (createBaseSchema envMarkFaultOnly { freshSt with schemaExists := true }).err = none := by
  decide

/-- C4 amended: a failing tracking-table insert is rethrown by
`markMigrationComplete` itself, and every tracked step propagates it as a
failure of the step on the paths that reach the marking — except the
schema-already-exists path of `createBaseSchema`, where the failure is
caught and deliberately ignored.  Stated over states with an empty tracking
table, so that no tracked step skips its body. -/
theorem trackingWriteEscalation (s : St) (hempty : s.migrationNames = []) :
    (∀ n, (markMigrationComplete envMarkFaultOnly n s).err = some trackingInsertErr) ∧
    (s.schemaExists = false →
      (createBaseSchema envMarkFaultOnly s).err = some trackingInsertErr) ∧
    (createBaseSchema envMarkFaultOnly { s with schemaExists := true }).err = none ∧
    (seedSchoolsAndBoards envMarkFaultOnly s).err = some trackingInsertErr ∧
    (addDrawingCategoryEnumValues envMarkFaultOnly s).err = some trackingInsertErr ∧
    (recalculateBudgetSpentAmounts envMarkFaultOnly s).err = some trackingInsertErr ∧
    (createRoomsAndTerrainTables envMarkFaultOnly s).err = some trackingInsertErr ∧
    (addMaxStudentsToRooms envMarkFaultOnly s).err = some trackingInsertErr ∧
    (createFoldersAndExtendDocuments envMarkFaultOnly s).err = some trackingInsertErr ∧
    (createInvestmentYearsTable envMarkFaultOnly s).err = some trackingInsertErr ∧
    (fixInvalidDrawingCategories envMarkFaultOnly s).err = some trackingInsertErr ∧
    (populateInvestmentYears envMarkFaultOnly s).err = some trackingInsertErr ∧
    (addAttachmentColumnsToReportsAndMaintenance envMarkFaultOnly s).err =
      some trackingInsertErr ∧
    (extendRoleEnumForRbac envMarkFaultOnly s).err = some trackingInsertErr ∧
    (fixJeanAdminRole envMarkFaultOnly s).err = some trackingInsertErr := by
  refine ⟨fun n => rfl, ?_, ?_, ?_, ?_, ?_, ?_, ?_, ?_, ?_, ?_, ?_, ?_, ?_, ?_⟩
  · intro hse
    simp only [createBaseSchema]
    rw [show (pushInvoked "create_base_schema" s).schemaExists = s.schemaExists from rfl, hse]
    rfl
  · simp only [createBaseSchema]
    rfl
  · have hb : envMarkFaultOnly.bodyFault "seed_schools_and_boards" = none := rfl
    unfold seedSchoolsAndBoards
    simp only [hb]
    split <;> rfl
  · have h1 : hasMigrationRun envMarkFaultOnly "add_all_drawing_category_enum_values"
        (pushInvoked "add_all_drawing_category_enum_values" s) =
        decide ("add_all_drawing_category_enum_values" ∈ s.migrationNames) := rfl
    simp only [addDrawingCategoryEnumValues]
    rw [h1, hempty]
    rfl
  · have h1 : hasMigrationRun envMarkFaultOnly "recalculate_budget_spent_amounts"
        (pushInvoked "recalculate_budget_spent_amounts" s) =
        decide ("recalculate_budget_spent_amounts" ∈ s.migrationNames) := rfl
    simp only [recalculateBudgetSpentAmounts]
    rw [h1, hempty]
    rfl
  · have h1 : hasMigrationRun envMarkFaultOnly "create_rooms_and_terrain_tables"
        (pushInvoked "create_rooms_and_terrain_tables" s) =
        decide ("create_rooms_and_terrain_tables" ∈ s.migrationNames) := rfl
    simp only [createRoomsAndTerrainTables]
    rw [h1, hempty]
    rfl
  · have h1 : hasMigrationRun envMarkFaultOnly "add_max_students_to_rooms"
        (pushInvoked "add_max_students_to_rooms" s) =
        decide ("add_max_students_to_rooms" ∈ s.migrationNames) := rfl
    simp only [addMaxStudentsToRooms]
    rw [h1, hempty]
    rfl
  · have h1 : hasMigrationRun envMarkFaultOnly "create_folders_and_extend_documents"
        (pushInvoked "create_folders_and_extend_documents" s) =
        decide ("create_folders_and_extend_documents" ∈ s.migrationNames) := rfl
    simp only [createFoldersAndExtendDocuments]
    rw [h1, hempty]
    rfl
  · have h1 : hasMigrationRun envMarkFaultOnly "create_investment_years_table"
        (pushInvoked "create_investment_years_table" s) =
        decide ("create_investment_years_table" ∈ s.migrationNames) := rfl
    simp only [createInvestmentYearsTable]
    rw [h1, hempty]
    rfl
  · have h1 : hasMigrationRun envMarkFaultOnly "fix_invalid_drawing_categories"
        (pushInvoked "fix_invalid_drawing_categories" s) =
        decide ("fix_invalid_drawing_categories" ∈ s.migrationNames) := rfl
    simp only [fixInvalidDrawingCategories]
    rw [h1, hempty]
    rfl
  · have h1 : hasMigrationRun envMarkFaultOnly "populate_investment_years"
        (pushInvoked "populate_investment_years" s) =
        decide ("populate_investment_years" ∈ s.migrationNames) := rfl
    simp only [populateInvestmentYears]
    rw [h1, hempty]
    rfl
  · have h1 : hasMigrationRun envMarkFaultOnly "add_attachment_columns_to_reports_and_maintenance"
        (pushInvoked "add_attachment_columns_to_reports_and_maintenance" s) =
        decide ("add_attachment_columns_to_reports_and_maintenance" ∈ s.migrationNames) := rfl
    simp only [addAttachmentColumnsToReportsAndMaintenance]
    rw [h1, hempty]
    rfl
  · have h1 : hasMigrationRun envMarkFaultOnly "extend_role_enum_for_rbac"
        (pushInvoked "extend_role_enum_for_rbac" s) =
        decide ("extend_role_enum_for_rbac" ∈ s.migrationNames) := rfl
    simp only [extendRoleEnumForRbac]
    rw [h1, hempty]
    rfl
  · have h1 : hasMigrationRun envMarkFaultOnly "fix_jean_admin_role_v2"
        (pushInvoked "fix_jean_admin_role_v2" s) =
        decide ("fix_jean_admin_role_v2" ∈ s.migrationNames) := rfl
    simp only [fixJeanAdminRole]
    rw [h1, hempty]
    rfl


/-- Witness for the amended C4 theorem at a concrete input: on a fresh
database with a failing tracking insert, base-schema creation and the
budget recalculation both fail with the tracking error. -/
theorem trackingWriteEscalation_witness :
    freshSt.migrationNames = [] ∧ freshSt.schemaExists = false ∧
    (createBaseSchema envMarkFaultOnly freshSt).err = some trackingInsertErr ∧
    (recalculateBudgetSpentAmounts envMarkFaultOnly freshSt).err = some trackingInsertErr :=
  ⟨rfl, rfl, (trackingWriteEscalation freshSt rfl).2.1 rfl,
    (trackingWriteEscalation freshSt rfl).2.2.2.2.2.1⟩

/-- C5 (confirmed): the ordering invariant of the fixed sequence.  The first
two conjuncts tie the order list to actual execution: a fault-free run on a
fresh database resolves and invokes exactly the tracking-table setup
followed by the migration steps in `migrationStepOrder`, in that order.
The remaining conjuncts state the invariant over indices in that list:
base-schema creation is the first migration step (and precedes every step);
session-table creation and enum extension precede every row-writing step;
boards/schools seeding precedes the user-school assignment step; and each
schema-shape step precedes the backfill/alteration step that reads the
shapes it creates (investment-years table before its population, rooms
table before the max-students column, drawing-category enum values before
the invalid-category fix). -/
theorem orderingInvariant :
    (runMigrations envOk freshSt).st.invoked.reverse = runnerOrder ∧
    (runMigrations envOk freshSt).err = none ∧
    migrationStepOrder.indexOf "create_base_schema" = 0 ∧
    (∀ m ∈ rowWritingSteps,
      migrationStepOrder.indexOf "ensure_session_table" < migrationStepOrder.indexOf m ∧
      migrationStepOrder.indexOf "add_all_drawing_category_enum_values" <
        migrationStepOrder.indexOf m) ∧
    migrationStepOrder.indexOf "seed_schools_and_boards" <
      migrationStepOrder.indexOf "assign_users_to_schools" ∧
    migrationStepOrder.indexOf "create_investment_years_table" <
      migrationStepOrder.indexOf "populate_investment_years" ∧
    migrationStepOrder.indexOf "create_rooms_and_terrain_tables" <
      migrationStepOrder.indexOf "add_max_students_to_rooms" ∧
    migrationStepOrder.indexOf "add_all_drawing_category_enum_values" <
      migrationStepOrder.indexOf "fix_invalid_drawing_categories" ∧
    ∀ m ∈ migrationStepOrder,
      migrationStepOrder.indexOf "create_base_schema" ≤ migrationStepOrder.indexOf m := by
  decide

lemma set_trackingTableExists_self (s : St) (h : s.trackingTableExists = true) :
    ({ s with trackingTableExists := true } : St) = s := by
  cases s
  simp_all

lemma set_sessionTableExists_self (s : St) (h : s.sessionTableExists = true) :
    ({ s with sessionTableExists := true } : St) = s := by
  cases s
  simp_all

lemma set_migrationNames_self (s : St) :
    ({ s with migrationNames := s.migrationNames } : St) = s := by
  cases s
  rfl

lemma hasMigrationRun_envOk_true (nm : String) (s : St) (h : nm ∈ s.migrationNames) :
    hasMigrationRun envOk nm s = true := by
  simp [hasMigrationRun, envOk, h]

lemma markMigrationComplete_envOk_mem (nm : String) (s : St) (h : nm ∈ s.migrationNames) :
    markMigrationComplete envOk nm s = ⟨s, none⟩ := by
  simp only [markMigrationComplete, envOk, Bool.false_eq_true, if_false]
  rw [insertIfAbsentStr_of_mem nm s.migrationNames h, set_migrationNames_self]

lemma settled_ensureMigrationTable (s : St) (hs : Settled s) :
    ensureMigrationTable envOk s = ⟨pushInvoked "ensure_migration_table" s, none⟩ := by
  obtain ⟨h1, -, -, -, -, -, -⟩ := hs
  simp only [ensureMigrationTable, envOk]
  rw [set_trackingTableExists_self (pushInvoked "ensure_migration_table" s) h1]

lemma settled_createBaseSchema (s : St) (hs : Settled s) :
    createBaseSchema envOk s = ⟨pushInvoked "create_base_schema" s, none⟩ := by
  obtain ⟨-, h2, -, h4, -, -, -⟩ := hs
  have hse : (pushInvoked "create_base_schema" s).schemaExists = true := h2
  have hmm : "create_base_schema" ∈ (pushInvoked "create_base_schema" s).migrationNames :=
    h4 _ (by decide)
  have hbf : envOk.bodyFault "create_base_schema" = none := rfl
  simp only [createBaseSchema, hbf, hse, if_true,
    markMigrationComplete_envOk_mem _ _ hmm]

lemma settled_ensureSessionTable (s : St) (hs : Settled s) :
    ensureSessionTable envOk s = ⟨pushInvoked "ensure_session_table" s, none⟩ := by
  obtain ⟨-, -, h3, -, -, -, -⟩ := hs
  simp only [ensureSessionTable, envOk]
  rw [set_sessionTableExists_self (pushInvoked "ensure_session_table" s) h3]

lemma settled_seedSchoolsAndBoards (s : St) (hs : Settled s) :
    seedSchoolsAndBoards envOk s = ⟨pushInvoked "seed_schools_and_boards" s, none⟩ := by
  obtain ⟨-, -, -, h4, -, h6, -⟩ := hs
  have hne : (pushInvoked "seed_schools_and_boards" s).schools.isEmpty = false := h6
  have hmm : "seed_schools_and_boards" ∈ (pushInvoked "seed_schools_and_boards" s).migrationNames :=
    h4 _ (by decide)
  have hbf : envOk.bodyFault "seed_schools_and_boards" = none := rfl
  simp only [seedSchoolsAndBoards, hbf, hne, Bool.false_eq_true, if_false,
    markMigrationComplete_envOk_mem _ _ hmm]

lemma settled_seedHardcodedAdminUser (s : St) (hs : Settled s) :
    seedHardcodedAdminUser envOk s = ⟨pushInvoked "seed_hardcoded_admin_user" s, none⟩ := by
  obtain ⟨-, -, -, -, h5, -, -⟩ := hs
  have hu : ((pushInvoked "seed_hardcoded_admin_user" s).users.any
      (fun u => decide (u.id = hardcodedUserId))) = true := h5
  simp only [seedHardcodedAdminUser, envOk, hu, if_true]

lemma settled_assignUsersToSchools (s : St) (hs : Settled s) :
    assignUsersToSchools envOk s = ⟨pushInvoked "assign_users_to_schools" s, none⟩ := by
  obtain ⟨-, -, -, -, -, -, h7⟩ := hs
  have hor : ((pushInvoked "assign_users_to_schools" s).users.any
      (fun u => !hasSchoolAssignment (pushInvoked "assign_users_to_schools" s) u.id)) = false := by
    rw [List.any_eq_false]
    intro u hu
    have h : hasSchoolAssignment (pushInvoked "assign_users_to_schools" s) u.id = true :=
      h7 u hu
    simp [h]
  simp only [assignUsersToSchools, envOk, hor, Bool.not_false, if_true]
  split <;> rfl

lemma settled_tracked_skip (nm : String) (s : St) (h : nm ∈ s.migrationNames) :
    hasMigrationRun envOk nm (pushInvoked nm s) = true :=
  hasMigrationRun_envOk_true nm (pushInvoked nm s) h

lemma settled_addDrawingCategoryEnumValues (s : St) (hs : Settled s) :
    addDrawingCategoryEnumValues envOk s = ⟨pushInvoked "add_all_drawing_category_enum_values" s, none⟩ := by
  obtain ⟨-, -, -, h4, -, -, -⟩ := hs
  simp only [addDrawingCategoryEnumValues, settled_tracked_skip "add_all_drawing_category_enum_values" s (h4 _ (by decide)), if_true]

lemma settled_recalculateBudgetSpentAmounts (s : St) (hs : Settled s) :
    recalculateBudgetSpentAmounts envOk s = ⟨pushInvoked "recalculate_budget_spent_amounts" s, none⟩ := by
  obtain ⟨-, -, -, h4, -, -, -⟩ := hs
  simp only [recalculateBudgetSpentAmounts, settled_tracked_skip "recalculate_budget_spent_amounts" s (h4 _ (by decide)), if_true]

lemma settled_createRoomsAndTerrainTables (s : St) (hs : Settled s) :
    createRoomsAndTerrainTables envOk s = ⟨pushInvoked "create_rooms_and_terrain_tables" s, none⟩ := by
  obtain ⟨-, -, -, h4, -, -, -⟩ := hs
  simp only [createRoomsAndTerrainTables, settled_tracked_skip "create_rooms_and_terrain_tables" s (h4 _ (by decide)), if_true]

lemma settled_addMaxStudentsToRooms (s : St) (hs : Settled s) :
    addMaxStudentsToRooms envOk s = ⟨pushInvoked "add_max_students_to_rooms" s, none⟩ := by
  obtain ⟨-, -, -, h4, -, -, -⟩ := hs
  simp only [addMaxStudentsToRooms, settled_tracked_skip "add_max_students_to_rooms" s (h4 _ (by decide)), if_true]

lemma settled_createFoldersAndExtendDocuments (s : St) (hs : Settled s) :
    createFoldersAndExtendDocuments envOk s = ⟨pushInvoked "create_folders_and_extend_documents" s, none⟩ := by
  obtain ⟨-, -, -, h4, -, -, -⟩ := hs
  simp only [createFoldersAndExtendDocuments, settled_tracked_skip "create_folders_and_extend_documents" s (h4 _ (by decide)), if_true]

lemma settled_createInvestmentYearsTable (s : St) (hs : Settled s) :
    createInvestmentYearsTable envOk s = ⟨pushInvoked "create_investment_years_table" s, none⟩ := by
  obtain ⟨-, -, -, h4, -, -, -⟩ := hs
  simp only [createInvestmentYearsTable, settled_tracked_skip "create_investment_years_table" s (h4 _ (by decide)), if_true]

lemma settled_fixInvalidDrawingCategories (s : St) (hs : Settled s) :
    fixInvalidDrawingCategories envOk s = ⟨pushInvoked "fix_invalid_drawing_categories" s, none⟩ := by
  obtain ⟨-, -, -, h4, -, -, -⟩ := hs
  simp only [fixInvalidDrawingCategories, settled_tracked_skip "fix_invalid_drawing_categories" s (h4 _ (by decide)), if_true]

lemma settled_populateInvestmentYears (s : St) (hs : Settled s) :
    populateInvestmentYears envOk s = ⟨pushInvoked "populate_investment_years" s, none⟩ := by
  obtain ⟨-, -, -, h4, -, -, -⟩ := hs
  simp only [populateInvestmentYears, settled_tracked_skip "populate_investment_years" s (h4 _ (by decide)), if_true]

lemma settled_addAttachmentColumnsToReportsAndMaintenance (s : St) (hs : Settled s) :
    addAttachmentColumnsToReportsAndMaintenance envOk s = ⟨pushInvoked "add_attachment_columns_to_reports_and_maintenance" s, none⟩ := by
  obtain ⟨-, -, -, h4, -, -, -⟩ := hs
  simp only [addAttachmentColumnsToReportsAndMaintenance, settled_tracked_skip "add_attachment_columns_to_reports_and_maintenance" s (h4 _ (by decide)), if_true]

lemma settled_extendRoleEnumForRbac (s : St) (hs : Settled s) :
    extendRoleEnumForRbac envOk s = ⟨pushInvoked "extend_role_enum_for_rbac" s, none⟩ := by
  obtain ⟨-, -, -, h4, -, -, -⟩ := hs
  simp only [extendRoleEnumForRbac, settled_tracked_skip "extend_role_enum_for_rbac" s (h4 _ (by decide)), if_true]

lemma settled_fixJeanAdminRole (s : St) (hs : Settled s) :
    fixJeanAdminRole envOk s = ⟨pushInvoked "fix_jean_admin_role_v2" s, none⟩ := by
  obtain ⟨-, -, -, h4, -, -, -⟩ := hs
  simp only [fixJeanAdminRole, settled_tracked_skip "fix_jean_admin_role_v2" s (h4 _ (by decide)), if_true]


lemma settled_criticalRun (s : St) (hs : Settled s) :
    criticalRun envOk s =
      ⟨{ s with invoked := ["seed_schools_and_boards", "add_all_drawing_category_enum_values",
          "ensure_session_table", "create_base_schema", "ensure_migration_table"] ++ s.invoked },
        none⟩ := by
  unfold criticalRun
  rw [settled_ensureMigrationTable (s) hs]
  rw [andThen_mk_none]
  rw [settled_createBaseSchema (pushInvoked "ensure_migration_table" (s)) hs]
  rw [andThen_mk_none]
  rw [settled_ensureSessionTable (pushInvoked "create_base_schema" (pushInvoked "ensure_migration_table" (s))) hs]
  rw [andThen_mk_none]
  rw [settled_addDrawingCategoryEnumValues (pushInvoked "ensure_session_table" (pushInvoked "create_base_schema" (pushInvoked "ensure_migration_table" (s)))) hs]
  rw [andThen_mk_none]
  rw [settled_seedSchoolsAndBoards (pushInvoked "add_all_drawing_category_enum_values" (pushInvoked "ensure_session_table" (pushInvoked "create_base_schema" (pushInvoked "ensure_migration_table" (s))))) hs]
  rfl

lemma settled_nonCriticalRun (s : St) (hs : Settled s) :
    nonCriticalRun envOk s =
      ⟨{ s with invoked := ["fix_jean_admin_role_v2", "extend_role_enum_for_rbac",
          "add_attachment_columns_to_reports_and_maintenance", "populate_investment_years",
          "fix_invalid_drawing_categories", "create_investment_years_table",
          "create_folders_and_extend_documents", "add_max_students_to_rooms",
          "create_rooms_and_terrain_tables", "recalculate_budget_spent_amounts",
          "ensure_supabase_buckets_for_schools", "assign_users_to_schools",
          "seed_hardcoded_admin_user"] ++ s.invoked }, none⟩ := by
  unfold nonCriticalRun
  rw [settled_seedHardcodedAdminUser (s) hs]
  rw [andThen_mk_none]
  rw [settled_assignUsersToSchools (pushInvoked "seed_hardcoded_admin_user" (s)) hs]
  rw [andThen_mk_none]
  rw [buckets_run]
  rw [andThen_mk_none]
  rw [settled_recalculateBudgetSpentAmounts (pushInvoked "ensure_supabase_buckets_for_schools" (pushInvoked "assign_users_to_schools" (pushInvoked "seed_hardcoded_admin_user" (s)))) hs]
  rw [andThen_mk_none]
  rw [settled_createRoomsAndTerrainTables (pushInvoked "recalculate_budget_spent_amounts" (pushInvoked "ensure_supabase_buckets_for_schools" (pushInvoked "assign_users_to_schools" (pushInvoked "seed_hardcoded_admin_user" (s))))) hs]
  rw [andThen_mk_none]
  rw [settled_addMaxStudentsToRooms (pushInvoked "create_rooms_and_terrain_tables" (pushInvoked "recalculate_budget_spent_amounts" (pushInvoked "ensure_supabase_buckets_for_schools" (pushInvoked "assign_users_to_schools" (pushInvoked "seed_hardcoded_admin_user" (s)))))) hs]
  rw [andThen_mk_none]
  rw [settled_createFoldersAndExtendDocuments (pushInvoked "add_max_students_to_rooms" (pushInvoked "create_rooms_and_terrain_tables" (pushInvoked "recalculate_budget_spent_amounts" (pushInvoked "ensure_supabase_buckets_for_schools" (pushInvoked "assign_users_to_schools" (pushInvoked "seed_hardcoded_admin_user" (s))))))) hs]
  rw [andThen_mk_none]
  rw [settled_createInvestmentYearsTable (pushInvoked "create_folders_and_extend_documents" (pushInvoked "add_max_students_to_rooms" (pushInvoked "create_rooms_and_terrain_tables" (pushInvoked "recalculate_budget_spent_amounts" (pushInvoked "ensure_supabase_buckets_for_schools" (pushInvoked "assign_users_to_schools" (pushInvoked "seed_hardcoded_admin_user" (s)))))))) hs]
  rw [andThen_mk_none]
  rw [settled_fixInvalidDrawingCategories (pushInvoked "create_investment_years_table" (pushInvoked "create_folders_and_extend_documents" (pushInvoked "add_max_students_to_rooms" (pushInvoked "create_rooms_and_terrain_tables" (pushInvoked "recalculate_budget_spent_amounts" (pushInvoked "ensure_supabase_buckets_for_schools" (pushInvoked "assign_users_to_schools" (pushInvoked "seed_hardcoded_admin_user" (s))))))))) hs]
  rw [andThen_mk_none]
  rw [settled_populateInvestmentYears (pushInvoked "fix_invalid_drawing_categories" (pushInvoked "create_investment_years_table" (pushInvoked "create_folders_and_extend_documents" (pushInvoked "add_max_students_to_rooms" (pushInvoked "create_rooms_and_terrain_tables" (pushInvoked "recalculate_budget_spent_amounts" (pushInvoked "ensure_supabase_buckets_for_schools" (pushInvoked "assign_users_to_schools" (pushInvoked "seed_hardcoded_admin_user" (s)))))))))) hs]
  rw [andThen_mk_none]
  rw [settled_addAttachmentColumnsToReportsAndMaintenance (pushInvoked "populate_investment_years" (pushInvoked "fix_invalid_drawing_categories" (pushInvoked "create_investment_years_table" (pushInvoked "create_folders_and_extend_documents" (pushInvoked "add_max_students_to_rooms" (pushInvoked "create_rooms_and_terrain_tables" (pushInvoked "recalculate_budget_spent_amounts" (pushInvoked "ensure_supabase_buckets_for_schools" (pushInvoked "assign_users_to_schools" (pushInvoked "seed_hardcoded_admin_user" (s))))))))))) hs]
  rw [andThen_mk_none]
  rw [settled_extendRoleEnumForRbac (pushInvoked "add_attachment_columns_to_reports_and_maintenance" (pushInvoked "populate_investment_years" (pushInvoked "fix_invalid_drawing_categories" (pushInvoked "create_investment_years_table" (pushInvoked "create_folders_and_extend_documents" (pushInvoked "add_max_students_to_rooms" (pushInvoked "create_rooms_and_terrain_tables" (pushInvoked "recalculate_budget_spent_amounts" (pushInvoked "ensure_supabase_buckets_for_schools" (pushInvoked "assign_users_to_schools" (pushInvoked "seed_hardcoded_admin_user" (s)))))))))))) hs]
  rw [andThen_mk_none]
  rw [settled_fixJeanAdminRole (pushInvoked "extend_role_enum_for_rbac" (pushInvoked "add_attachment_columns_to_reports_and_maintenance" (pushInvoked "populate_investment_years" (pushInvoked "fix_invalid_drawing_categories" (pushInvoked "create_investment_years_table" (pushInvoked "create_folders_and_extend_documents" (pushInvoked "add_max_students_to_rooms" (pushInvoked "create_rooms_and_terrain_tables" (pushInvoked "recalculate_budget_spent_amounts" (pushInvoked "ensure_supabase_buckets_for_schools" (pushInvoked "assign_users_to_schools" (pushInvoked "seed_hardcoded_admin_user" (s))))))))))))) hs]
  rfl

lemma settled_runMigrations (s : St) (hs : Settled s) :
    runMigrations envOk s = ⟨{ s with invoked := runnerOrder.reverse ++ s.invoked }, none⟩ := by
  rw [runMigrations_of_critical_ok _ _ _ (settled_criticalRun s hs)]
  have hstep := settled_nonCriticalRun ({ s with invoked := ["seed_schools_and_boards",
    "add_all_drawing_category_enum_values", "ensure_session_table", "create_base_schema",
    "ensure_migration_table"] ++ s.invoked }) hs
  rw [hstep]
  rfl


lemma markFirstDefault_userId (uid m : String) (l : List School) :
    ∀ r ∈ markFirstDefault uid m l, r.userId = uid := by
  induction l with
  | nil => intro r hr; cases hr
  | cons sch rest ih =>
    intro r hr
    simp only [markFirstDefault] at hr
    split at hr
    · rcases List.mem_cons.mp hr with h | h
      · rw [h]
      · obtain ⟨t, -, ht⟩ := List.mem_map.mp h
        rw [← ht]
    · rcases List.mem_cons.mp hr with h | h
      · rw [h]
      · exact ih r h

lemma markFirstDefault_schoolIds (uid m : String) (l : List School) :
    (markFirstDefault uid m l).map (fun r => r.schoolId) = l.map (fun sch => sch.id) := by
  induction l with
  | nil => rfl
  | cons sch rest ih =>
    simp only [markFirstDefault]
    split
    · simp [List.map_map]
    · simp only [List.map_cons, ih]

lemma markFirstDefault_countP (uid m : String) (l : List School) :
    (markFirstDefault uid m l).countP (fun r => r.isDefault) =
      if l.any (fun sch => decide (sch.name = m)) then 1 else 0 := by
  induction l with
  | nil => rfl
  | cons sch rest ih =>
    simp only [markFirstDefault]
    split
    · next h =>
      have hz : (rest.map (fun t => (⟨uid, t.id, false⟩ : UserSchool))).countP
          (fun r => r.isDefault) = 0 := by
        rw [List.countP_eq_zero]
        intro r hr
        obtain ⟨t, -, ht⟩ := List.mem_map.mp hr
        rw [← ht]
        simp
      rw [List.countP_cons]
      simp [hz, h]
    · next h =>
      rw [List.countP_cons]
      simp only [List.any_cons]
      have hf : decide (sch.name = m) = false := by simpa using h
      simp [hf, ih]

lemma markFirstDefault_default_school (uid m : String) (l : List School) :
    ∀ r ∈ markFirstDefault uid m l, r.isDefault = true →
      ∃ sch ∈ l, r.schoolId = sch.id ∧ sch.name = m := by
  induction l with
  | nil => intro r hr; cases hr
  | cons sch rest ih =>
    intro r hr hd
    simp only [markFirstDefault] at hr
    split at hr
    · next h =>
      rcases List.mem_cons.mp hr with h2 | h2
      · exact ⟨sch, List.mem_cons_self .., by rw [h2], h⟩
      · obtain ⟨t, -, ht⟩ := List.mem_map.mp h2
        rw [← ht] at hd
        cases hd
    · rcases List.mem_cons.mp hr with h2 | h2
      · rw [h2] at hd
        cases hd
      · obtain ⟨sch', hmem, hrest⟩ := ih r h2 hd
        exact ⟨sch', List.mem_cons_of_mem _ hmem, hrest⟩

lemma foldl_minName_le (xs : List School) (a : String) :
    (xs.foldl (fun m sch => if sch.name < m then sch.name else m) a) ≤ a ∧
    ∀ sch ∈ xs, (xs.foldl (fun m sch => if sch.name < m then sch.name else m) a) ≤ sch.name := by
  induction xs generalizing a with
  | nil => exact ⟨le_refl a, fun sch h => absurd h (List.not_mem_nil sch)⟩
  | cons x rest ih =>
    simp only [List.foldl_cons]
    constructor
    · refine le_trans (ih _).1 ?_
      split
      · next h => exact le_of_lt h
      · exact le_refl a
    · intro sch hsch
      rcases List.mem_cons.mp hsch with h | h
      · refine le_trans (ih _).1 ?_
        rw [h]
        split
        · exact le_refl _
        · next hlt => exact le_of_not_lt hlt
      · exact (ih _).2 sch h

lemma foldl_minName_mem (xs : List School) (a : String) :
    (xs.foldl (fun m sch => if sch.name < m then sch.name else m) a) = a ∨
    ∃ sch ∈ xs, (xs.foldl (fun m sch => if sch.name < m then sch.name else m) a) = sch.name := by
  induction xs generalizing a with
  | nil => exact Or.inl rfl
  | cons x rest ih =>
    simp only [List.foldl_cons]
    split
    · rcases ih x.name with h | h
      · exact Or.inr ⟨x, List.mem_cons_self .., h⟩
      · obtain ⟨sch, hm, he⟩ := h
        exact Or.inr ⟨sch, List.mem_cons_of_mem _ hm, he⟩
    · rcases ih a with h | h
      · exact Or.inl h
      · obtain ⟨sch, hm, he⟩ := h
        exact Or.inr ⟨sch, List.mem_cons_of_mem _ hm, he⟩

lemma minSchoolName_attained (l : List School) (h : l ≠ []) :
    ∃ sch ∈ l, sch.name = minSchoolName l := by
  match l, h with
  | x :: xs, _ =>
    simp only [minSchoolName]
    rcases foldl_minName_mem xs x.name with h2 | h2
    · exact ⟨x, List.mem_cons_self .., h2.symm⟩
    · obtain ⟨sch, hm, he⟩ := h2
      exact ⟨sch, List.mem_cons_of_mem _ hm, he.symm⟩

lemma minSchoolName_le (l : List School) :
    ∀ sch ∈ l, minSchoolName l ≤ sch.name := by
  match l with
  | [] => intro sch h; cases h
  | x :: xs =>
    intro sch hsch
    simp only [minSchoolName]
    rcases List.mem_cons.mp hsch with h | h
    · rw [h]
      exact (foldl_minName_le xs x.name).1
    · exact (foldl_minName_le xs x.name).2 sch h

lemma markMigrationComplete_envOk (nm : String) (s : St) :
    markMigrationComplete envOk nm s =
      ⟨{ s with migrationNames := insertIfAbsentStr nm s.migrationNames }, none⟩ := rfl

lemma envOk_ensureMigrationTable (s : St) :
    ∃ t, ensureMigrationTable envOk s = ⟨t, none⟩ ∧
      t.trackingTableExists = true ∧
      t.schemaExists = s.schemaExists ∧
      t.sessionTableExists = s.sessionTableExists ∧
      (∀ n, n ∈ s.migrationNames → n ∈ t.migrationNames) ∧
      t.schools = s.schools ∧
      t.users = s.users ∧
      t.userSchools = s.userSchools :=
  ⟨_, rfl, rfl, rfl, rfl, fun n hn => hn, rfl, rfl, rfl⟩

lemma envOk_createBaseSchema (s : St) :
    ∃ t, createBaseSchema envOk s = ⟨t, none⟩ ∧
      t.trackingTableExists = s.trackingTableExists ∧
      t.schemaExists = true ∧
      t.sessionTableExists = s.sessionTableExists ∧
      (∀ n, n ∈ s.migrationNames → n ∈ t.migrationNames) ∧
      "create_base_schema" ∈ t.migrationNames ∧
      t.schools = s.schools ∧
      t.users = s.users ∧
      t.userSchools = s.userSchools := by
  have hbf : envOk.bodyFault "create_base_schema" = none := rfl
  have hsf : (!envOk.schemaFilePresent) = false := rfl
  simp only [createBaseSchema, hbf, hsf, Bool.false_eq_true, if_false,
    markMigrationComplete_envOk, applyBaseSchema]
  split
  · next h =>
    exact ⟨_, rfl, rfl, h, rfl, fun n hn => mono_insertIfAbsentStr n _ _ hn,
      self_mem_insertIfAbsentStr _ _, rfl, rfl, rfl⟩
  · exact ⟨_, rfl, rfl, rfl, rfl, fun n hn => mono_insertIfAbsentStr n _ _ hn,
      self_mem_insertIfAbsentStr _ _, rfl, rfl, rfl⟩

lemma envOk_ensureSessionTable (s : St) :
    ∃ t, ensureSessionTable envOk s = ⟨t, none⟩ ∧
      t.trackingTableExists = s.trackingTableExists ∧
      t.schemaExists = s.schemaExists ∧
      t.sessionTableExists = true ∧
      (∀ n, n ∈ s.migrationNames → n ∈ t.migrationNames) ∧
      t.schools = s.schools ∧
      t.users = s.users ∧
      t.userSchools = s.userSchools :=
  ⟨_, rfl, rfl, rfl, rfl, fun n hn => hn, rfl, rfl, rfl⟩

lemma foldl_insertSchool_ne_nil (xs : List School) (l : List School) (h : xs ≠ [] ∨ l ≠ []) :
    xs.foldl (fun acc x => insertSchoolIfAbsent x acc) l ≠ [] := by
  induction xs generalizing l with
  | nil =>
    rcases h with h | h
    · exact absurd rfl h
    · simpa using h
  | cons x rest ih =>
    rw [List.foldl_cons]
    apply ih
    right
    unfold insertSchoolIfAbsent
    split
    · next hany =>
      intro hc
      rw [hc] at hany
      cases hany
    · intro hc
      rcases List.append_eq_nil.mp hc with ⟨-, h2⟩
      cases h2

lemma seedAllSchools_ne_nil (l : List School) : seedAllSchools l ≠ [] :=
  foldl_insertSchool_ne_nil seededSchools l (Or.inl (by decide))

set_option maxHeartbeats 1000000 in
lemma envOk_seedSchoolsAndBoards (s : St) :
    ∃ t, seedSchoolsAndBoards envOk s = ⟨t, none⟩ ∧
      t.trackingTableExists = s.trackingTableExists ∧
      t.schemaExists = s.schemaExists ∧
      t.sessionTableExists = s.sessionTableExists ∧
      (∀ n, n ∈ s.migrationNames → n ∈ t.migrationNames) ∧
      "seed_schools_and_boards" ∈ t.migrationNames ∧
      t.schools.isEmpty = false ∧
      t.users = s.users ∧
      t.userSchools = s.userSchools := by
  have hgoal : seedSchoolsAndBoards envOk s =
      if (pushInvoked "seed_schools_and_boards" s).schools.isEmpty then
        markMigrationComplete envOk "seed_schools_and_boards"
          { pushInvoked "seed_schools_and_boards" s with
            boards := seedAllBoards (pushInvoked "seed_schools_and_boards" s).boards,
            schools := seedAllSchools (pushInvoked "seed_schools_and_boards" s).schools }
      else
        markMigrationComplete envOk "seed_schools_and_boards"
          (pushInvoked "seed_schools_and_boards" s) := rfl
  by_cases hbe : (pushInvoked "seed_schools_and_boards" s).schools.isEmpty = true
  · rw [hgoal, if_pos hbe, markMigrationComplete_envOk]
    refine ⟨_, rfl, rfl, rfl, rfl, fun n hn => mono_insertIfAbsentStr n _ _ hn,
      self_mem_insertIfAbsentStr _ _, ?_, rfl, rfl⟩
    rw [Bool.eq_false_iff]
    intro hc
    exact seedAllSchools_ne_nil _ (List.isEmpty_iff.mp hc)
  · rw [hgoal, if_neg hbe, markMigrationComplete_envOk]
    refine ⟨_, rfl, rfl, rfl, rfl, fun n hn => mono_insertIfAbsentStr n _ _ hn,
      self_mem_insertIfAbsentStr _ _, ?_, rfl, rfl⟩
    show (pushInvoked "seed_schools_and_boards" s).schools.isEmpty = false
    simpa using hbe

lemma envOk_seedHardcodedAdminUser (s : St) :
    ∃ t, seedHardcodedAdminUser envOk s = ⟨t, none⟩ ∧
      t.trackingTableExists = s.trackingTableExists ∧
      t.schemaExists = s.schemaExists ∧
      t.sessionTableExists = s.sessionTableExists ∧
      (∀ n, n ∈ s.migrationNames → n ∈ t.migrationNames) ∧
      t.schools = s.schools ∧
      t.users.any (fun u => decide (u.id = hardcodedUserId)) = true ∧
      t.userSchools = s.userSchools := by
  have hbf : envOk.bodyFault "seed_hardcoded_admin_user" = none := rfl
  simp only [seedHardcodedAdminUser, hbf]
  split
  · next h =>
    exact ⟨_, rfl, rfl, rfl, rfl, fun n hn => hn, rfl, h, rfl⟩
  · refine ⟨_, rfl, rfl, rfl, rfl, fun n hn => hn, rfl, ?_, rfl⟩
    show ((pushInvoked "seed_hardcoded_admin_user" s).users ++ [hardcodedAdminUser]).any
      (fun u => decide (u.id = hardcodedUserId)) = true
    rw [List.any_append]
    simp [hardcodedAdminUser]

lemma envOk_assignUsersToSchools (s : St) (hne : s.schools.isEmpty = false) :
    ∃ t, assignUsersToSchools envOk s = ⟨t, none⟩ ∧
      t.trackingTableExists = s.trackingTableExists ∧
      t.schemaExists = s.schemaExists ∧
      t.sessionTableExists = s.sessionTableExists ∧
      (∀ n, n ∈ s.migrationNames → n ∈ t.migrationNames) ∧
      t.schools = s.schools ∧
      t.users = s.users ∧
      (∀ u ∈ t.users, t.userSchools.any (fun r => decide (r.userId = u.id)) = true) := by
  have hbf : envOk.bodyFault "assign_users_to_schools" = none := rfl
  simp only [assignUsersToSchools, hbf]
  split
  · next h =>
    have h0 : (pushInvoked "assign_users_to_schools" s).users = [] := by
      simpa [List.isEmpty_iff] using h
    refine ⟨_, rfl, rfl, rfl, rfl, fun n hn => hn, rfl, rfl, ?_⟩
    intro u hu
    rw [h0] at hu
    cases hu
  · next hne2 =>
    split
    · next h =>
      refine ⟨_, rfl, rfl, rfl, rfl, fun n hn => hn, rfl, rfl, ?_⟩
      have h2 : ∀ x ∈ (pushInvoked "assign_users_to_schools" s).users,
          hasSchoolAssignment (pushInvoked "assign_users_to_schools" s) x.id = true := by
        simpa using h
      intro u hu
      exact h2 u hu
    · next h =>
      refine ⟨_, rfl, rfl, rfl, rfl, fun n hn => hn, rfl, rfl, ?_⟩
      intro u hu
      rw [List.any_append]
      by_cases ha : (pushInvoked "assign_users_to_schools" s).userSchools.any
          (fun r => decide (r.userId = u.id)) = true
      · rw [ha]
        rfl
      · have horphan : ∀ sch : School, ((pushInvoked "assign_users_to_schools" s).userSchools.any
            (fun r => decide (r.userId = u.id ∧ r.schoolId = sch.id))) = false := by
          intro sch
          rw [List.any_eq_false]
          intro r hr
          intro hcon
          apply ha
          rw [List.any_eq_true]
          refine ⟨r, hr, ?_⟩
          have := of_decide_eq_true hcon
          simp [this.1]
        have hmiss : missingSchools (pushInvoked "assign_users_to_schools" s) u.id =
            (pushInvoked "assign_users_to_schools" s).schools := by
          unfold missingSchools
          rw [List.filter_eq_self]
          intro sch hsch
          rw [horphan sch]
          rfl
        have hrows : assignRows u.id (missingSchools (pushInvoked "assign_users_to_schools" s) u.id)
            ≠ [] := by
          rw [hmiss]
          unfold assignRows
          intro hcon
          have := markFirstDefault_schoolIds u.id
            (minSchoolName (pushInvoked "assign_users_to_schools" s).schools)
            (pushInvoked "assign_users_to_schools" s).schools
          rw [hcon] at this
          have hn2 : (pushInvoked "assign_users_to_schools" s).schools = [] := by
            have := this.symm
            exact List.map_eq_nil_iff.mp this
          rw [show (pushInvoked "assign_users_to_schools" s).schools = s.schools from rfl] at hn2
          rw [hn2] at hne
          cases hne
        obtain ⟨r0, hr0⟩ := List.exists_mem_of_ne_nil _ hrows
        have hr0uid : r0.userId = u.id := by
          have := markFirstDefault_userId u.id
            (minSchoolName (missingSchools (pushInvoked "assign_users_to_schools" s) u.id))
            (missingSchools (pushInvoked "assign_users_to_schools" s) u.id)
          exact this r0 hr0
        have hmemflat : r0 ∈ (pushInvoked "assign_users_to_schools" s).users.flatMap
            (fun v => assignRows v.id (missingSchools (pushInvoked "assign_users_to_schools" s) v.id)) := by
          rw [List.mem_flatMap]
          exact ⟨u, hu, hr0⟩
        have : ((pushInvoked "assign_users_to_schools" s).users.flatMap
            (fun v => assignRows v.id (missingSchools (pushInvoked "assign_users_to_schools" s) v.id))).any
            (fun r => decide (r.userId = u.id)) = true := by
          rw [List.any_eq_true]
          exact ⟨r0, hmemflat, by simp [hr0uid]⟩
        rw [this]
        simp

lemma envOk_addDrawingCategoryEnumValues (s : St) :
    ∃ t, addDrawingCategoryEnumValues envOk s = ⟨t, none⟩ ∧
      t.trackingTableExists = s.trackingTableExists ∧
      t.schemaExists = s.schemaExists ∧
      t.sessionTableExists = s.sessionTableExists ∧
      (∀ n, n ∈ s.migrationNames → n ∈ t.migrationNames) ∧
      "add_all_drawing_category_enum_values" ∈ t.migrationNames ∧
      t.schools = s.schools ∧
      t.users = s.users ∧
      t.userSchools = s.userSchools := by
  have hbf : envOk.bodyFault "add_all_drawing_category_enum_values" = none := rfl
  simp only [addDrawingCategoryEnumValues, hbf, markMigrationComplete_envOk]
  split
  · next h =>
    have hmem : "add_all_drawing_category_enum_values" ∈ s.migrationNames := by
      simpa [hasMigrationRun, envOk] using h
    exact ⟨_, rfl, rfl, rfl, rfl, fun n hn => hn, hmem, rfl, rfl, rfl⟩
  · exact ⟨_, rfl, rfl, rfl, rfl, fun n hn => mono_insertIfAbsentStr n _ _ hn,
      self_mem_insertIfAbsentStr _ _, rfl, rfl, rfl⟩

lemma envOk_recalculateBudgetSpentAmounts (s : St) :
    ∃ t, recalculateBudgetSpentAmounts envOk s = ⟨t, none⟩ ∧
      t.trackingTableExists = s.trackingTableExists ∧
      t.schemaExists = s.schemaExists ∧
      t.sessionTableExists = s.sessionTableExists ∧
      (∀ n, n ∈ s.migrationNames → n ∈ t.migrationNames) ∧
      "recalculate_budget_spent_amounts" ∈ t.migrationNames ∧
      t.schools = s.schools ∧
      t.users = s.users ∧
      t.userSchools = s.userSchools := by
  have hbf : envOk.bodyFault "recalculate_budget_spent_amounts" = none := rfl
  simp only [recalculateBudgetSpentAmounts, hbf, markMigrationComplete_envOk]
  split
  · next h =>
    have hmem : "recalculate_budget_spent_amounts" ∈ s.migrationNames := by
      simpa [hasMigrationRun, envOk] using h
    exact ⟨_, rfl, rfl, rfl, rfl, fun n hn => hn, hmem, rfl, rfl, rfl⟩
  · exact ⟨_, rfl, rfl, rfl, rfl, fun n hn => mono_insertIfAbsentStr n _ _ hn,
      self_mem_insertIfAbsentStr _ _, rfl, rfl, rfl⟩

lemma envOk_createRoomsAndTerrainTables (s : St) :
    ∃ t, createRoomsAndTerrainTables envOk s = ⟨t, none⟩ ∧
      t.trackingTableExists = s.trackingTableExists ∧
      t.schemaExists = s.schemaExists ∧
      t.sessionTableExists = s.sessionTableExists ∧
      (∀ n, n ∈ s.migrationNames → n ∈ t.migrationNames) ∧
      "create_rooms_and_terrain_tables" ∈ t.migrationNames ∧
      t.schools = s.schools ∧
      t.users = s.users ∧
      t.userSchools = s.userSchools := by
  have hbf : envOk.bodyFault "create_rooms_and_terrain_tables" = none := rfl
  simp only [createRoomsAndTerrainTables, hbf, markMigrationComplete_envOk]
  split
  · next h =>
    have hmem : "create_rooms_and_terrain_tables" ∈ s.migrationNames := by
      simpa [hasMigrationRun, envOk] using h
    exact ⟨_, rfl, rfl, rfl, rfl, fun n hn => hn, hmem, rfl, rfl, rfl⟩
  · exact ⟨_, rfl, rfl, rfl, rfl, fun n hn => mono_insertIfAbsentStr n _ _ hn,
      self_mem_insertIfAbsentStr _ _, rfl, rfl, rfl⟩

lemma envOk_addMaxStudentsToRooms (s : St) :
    ∃ t, addMaxStudentsToRooms envOk s = ⟨t, none⟩ ∧
      t.trackingTableExists = s.trackingTableExists ∧
      t.schemaExists = s.schemaExists ∧
      t.sessionTableExists = s.sessionTableExists ∧
      (∀ n, n ∈ s.migrationNames → n ∈ t.migrationNames) ∧
      "add_max_students_to_rooms" ∈ t.migrationNames ∧
      t.schools = s.schools ∧
      t.users = s.users ∧
      t.userSchools = s.userSchools := by
  have hbf : envOk.bodyFault "add_max_students_to_rooms" = none := rfl
  simp only [addMaxStudentsToRooms, hbf, markMigrationComplete_envOk]
  split
  · next h =>
    have hmem : "add_max_students_to_rooms" ∈ s.migrationNames := by
      simpa [hasMigrationRun, envOk] using h
    exact ⟨_, rfl, rfl, rfl, rfl, fun n hn => hn, hmem, rfl, rfl, rfl⟩
  · exact ⟨_, rfl, rfl, rfl, rfl, fun n hn => mono_insertIfAbsentStr n _ _ hn,
      self_mem_insertIfAbsentStr _ _, rfl, rfl, rfl⟩

lemma envOk_createFoldersAndExtendDocuments (s : St) :
    ∃ t, createFoldersAndExtendDocuments envOk s = ⟨t, none⟩ ∧
      t.trackingTableExists = s.trackingTableExists ∧
      t.schemaExists = s.schemaExists ∧
      t.sessionTableExists = s.sessionTableExists ∧
      (∀ n, n ∈ s.migrationNames → n ∈ t.migrationNames) ∧
      "create_folders_and_extend_documents" ∈ t.migrationNames ∧
      t.schools = s.schools ∧
      t.users = s.users ∧
      t.userSchools = s.userSchools := by
  have hbf : envOk.bodyFault "create_folders_and_extend_documents" = none := rfl
  simp only [createFoldersAndExtendDocuments, hbf, markMigrationComplete_envOk]
  split
  · next h =>
    have hmem : "create_folders_and_extend_documents" ∈ s.migrationNames := by
      simpa [hasMigrationRun, envOk] using h
    exact ⟨_, rfl, rfl, rfl, rfl, fun n hn => hn, hmem, rfl, rfl, rfl⟩
  · exact ⟨_, rfl, rfl, rfl, rfl, fun n hn => mono_insertIfAbsentStr n _ _ hn,
      self_mem_insertIfAbsentStr _ _, rfl, rfl, rfl⟩

lemma envOk_createInvestmentYearsTable (s : St) :
    ∃ t, createInvestmentYearsTable envOk s = ⟨t, none⟩ ∧
      t.trackingTableExists = s.trackingTableExists ∧
      t.schemaExists = s.schemaExists ∧
      t.sessionTableExists = s.sessionTableExists ∧
      (∀ n, n ∈ s.migrationNames → n ∈ t.migrationNames) ∧
      "create_investment_years_table" ∈ t.migrationNames ∧
      t.schools = s.schools ∧
      t.users = s.users ∧
      t.userSchools = s.userSchools := by
  have hbf : envOk.bodyFault "create_investment_years_table" = none := rfl
  simp only [createInvestmentYearsTable, hbf, markMigrationComplete_envOk]
  split
  · next h =>
    have hmem : "create_investment_years_table" ∈ s.migrationNames := by
      simpa [hasMigrationRun, envOk] using h
    exact ⟨_, rfl, rfl, rfl, rfl, fun n hn => hn, hmem, rfl, rfl, rfl⟩
  · exact ⟨_, rfl, rfl, rfl, rfl, fun n hn => mono_insertIfAbsentStr n _ _ hn,
      self_mem_insertIfAbsentStr _ _, rfl, rfl, rfl⟩

lemma envOk_fixInvalidDrawingCategories (s : St) :
    ∃ t, fixInvalidDrawingCategories envOk s = ⟨t, none⟩ ∧
      t.trackingTableExists = s.trackingTableExists ∧
      t.schemaExists = s.schemaExists ∧
      t.sessionTableExists = s.sessionTableExists ∧
      (∀ n, n ∈ s.migrationNames → n ∈ t.migrationNames) ∧
      "fix_invalid_drawing_categories" ∈ t.migrationNames ∧
      t.schools = s.schools ∧
      t.users = s.users ∧
      t.userSchools = s.userSchools := by
  have hbf : envOk.bodyFault "fix_invalid_drawing_categories" = none := rfl
  simp only [fixInvalidDrawingCategories, hbf, markMigrationComplete_envOk]
  split
  · next h =>
    have hmem : "fix_invalid_drawing_categories" ∈ s.migrationNames := by
      simpa [hasMigrationRun, envOk] using h
    exact ⟨_, rfl, rfl, rfl, rfl, fun n hn => hn, hmem, rfl, rfl, rfl⟩
  · exact ⟨_, rfl, rfl, rfl, rfl, fun n hn => mono_insertIfAbsentStr n _ _ hn,
      self_mem_insertIfAbsentStr _ _, rfl, rfl, rfl⟩

lemma envOk_populateInvestmentYears (s : St) :
    ∃ t, populateInvestmentYears envOk s = ⟨t, none⟩ ∧
      t.trackingTableExists = s.trackingTableExists ∧
      t.schemaExists = s.schemaExists ∧
      t.sessionTableExists = s.sessionTableExists ∧
      (∀ n, n ∈ s.migrationNames → n ∈ t.migrationNames) ∧
      "populate_investment_years" ∈ t.migrationNames ∧
      t.schools = s.schools ∧
      t.users = s.users ∧
      t.userSchools = s.userSchools := by
  have hbf : envOk.bodyFault "populate_investment_years" = none := rfl
  simp only [populateInvestmentYears, hbf, markMigrationComplete_envOk]
  split
  · next h =>
    have hmem : "populate_investment_years" ∈ s.migrationNames := by
      simpa [hasMigrationRun, envOk] using h
    exact ⟨_, rfl, rfl, rfl, rfl, fun n hn => hn, hmem, rfl, rfl, rfl⟩
  · exact ⟨_, rfl, rfl, rfl, rfl, fun n hn => mono_insertIfAbsentStr n _ _ hn,
      self_mem_insertIfAbsentStr _ _, rfl, rfl, rfl⟩

lemma envOk_addAttachmentColumnsToReportsAndMaintenance (s : St) :
    ∃ t, addAttachmentColumnsToReportsAndMaintenance envOk s = ⟨t, none⟩ ∧
      t.trackingTableExists = s.trackingTableExists ∧
      t.schemaExists = s.schemaExists ∧
      t.sessionTableExists = s.sessionTableExists ∧
      (∀ n, n ∈ s.migrationNames → n ∈ t.migrationNames) ∧
      "add_attachment_columns_to_reports_and_maintenance" ∈ t.migrationNames ∧
      t.schools = s.schools ∧
      t.users = s.users ∧
      t.userSchools = s.userSchools := by
  have hbf : envOk.bodyFault "add_attachment_columns_to_reports_and_maintenance" = none := rfl
  simp only [addAttachmentColumnsToReportsAndMaintenance, hbf, markMigrationComplete_envOk]
  split
  · next h =>
    have hmem : "add_attachment_columns_to_reports_and_maintenance" ∈ s.migrationNames := by
      simpa [hasMigrationRun, envOk] using h
    exact ⟨_, rfl, rfl, rfl, rfl, fun n hn => hn, hmem, rfl, rfl, rfl⟩
  · exact ⟨_, rfl, rfl, rfl, rfl, fun n hn => mono_insertIfAbsentStr n _ _ hn,
      self_mem_insertIfAbsentStr _ _, rfl, rfl, rfl⟩


lemma map_id_of_user_map (l : List User) (f : User → User) (hf : ∀ u, (f u).id = u.id) :
    (l.map f).map (fun u => u.id) = l.map (fun u => u.id) := by
  rw [List.map_map]
  exact List.map_congr_left (fun u _ => hf u)

lemma envOk_extendRoleEnumForRbac (s : St) :
    ∃ t, extendRoleEnumForRbac envOk s = ⟨t, none⟩ ∧
      t.trackingTableExists = s.trackingTableExists ∧
      t.schemaExists = s.schemaExists ∧
      t.sessionTableExists = s.sessionTableExists ∧
      (∀ n, n ∈ s.migrationNames → n ∈ t.migrationNames) ∧
      "extend_role_enum_for_rbac" ∈ t.migrationNames ∧
      t.schools = s.schools ∧
      t.users.map (fun u => u.id) = s.users.map (fun u => u.id) ∧
      t.userSchools = s.userSchools := by
  have hbf : envOk.bodyFault "extend_role_enum_for_rbac" = none := rfl
  simp only [extendRoleEnumForRbac, hbf, markMigrationComplete_envOk]
  split
  · next h =>
    have hmem : "extend_role_enum_for_rbac" ∈ s.migrationNames := by
      simpa [hasMigrationRun, envOk] using h
    exact ⟨_, rfl, rfl, rfl, rfl, fun n hn => hn, hmem, rfl, rfl, rfl⟩
  · split
    · refine ⟨_, rfl, rfl, rfl, rfl, fun n hn => mono_insertIfAbsentStr n _ _ hn,
        self_mem_insertIfAbsentStr _ _, rfl, ?_, rfl⟩
      refine map_id_of_user_map _ _ (fun u => ?_)
      by_cases hr : u.role = "user" <;> simp [hr]
    · refine ⟨_, rfl, rfl, rfl, rfl, fun n hn => mono_insertIfAbsentStr n _ _ hn,
        self_mem_insertIfAbsentStr _ _, rfl, ?_, rfl⟩
      refine map_id_of_user_map _ _ (fun u => ?_)
      by_cases hr : u.role = "user" <;> simp [hr]

lemma envOk_fixJeanAdminRole (s : St) :
    ∃ t, fixJeanAdminRole envOk s = ⟨t, none⟩ ∧
      t.trackingTableExists = s.trackingTableExists ∧
      t.schemaExists = s.schemaExists ∧
      t.sessionTableExists = s.sessionTableExists ∧
      (∀ n, n ∈ s.migrationNames → n ∈ t.migrationNames) ∧
      "fix_jean_admin_role_v2" ∈ t.migrationNames ∧
      t.schools = s.schools ∧
      t.users.map (fun u => u.id) = s.users.map (fun u => u.id) ∧
      t.userSchools = s.userSchools := by
  have hbf : envOk.bodyFault "fix_jean_admin_role_v2" = none := rfl
  simp only [fixJeanAdminRole, hbf, markMigrationComplete_envOk]
  split
  · next h =>
    have hmem : "fix_jean_admin_role_v2" ∈ s.migrationNames := by
      simpa [hasMigrationRun, envOk] using h
    exact ⟨_, rfl, rfl, rfl, rfl, fun n hn => hn, hmem, rfl, rfl, rfl⟩
  · refine ⟨_, rfl, rfl, rfl, rfl, fun n hn => mono_insertIfAbsentStr n _ _ hn,
      self_mem_insertIfAbsentStr _ _, rfl, ?_, rfl⟩
    refine map_id_of_user_map _ _ (fun u => ?_)
    by_cases hr : lowerStr u.email = lowerStr "jean@deruiterpartners.nl" <;> simp [hr]

lemma any_id_transfer (l l' : List User) (x : String)
    (h : l'.map (fun u => u.id) = l.map (fun u => u.id))
    (ha : l.any (fun u => decide (u.id = x)) = true) :
    l'.any (fun u => decide (u.id = x)) = true := by
  have key : ∀ m : List User, m.any (fun u => decide (u.id = x)) =
      (m.map (fun u => u.id)).any (fun i => decide (i = x)) := by
    intro m
    induction m with
    | nil => rfl
    | cons u rest ih => simp only [List.any_cons, List.map_cons, ih]
  rw [key, h, ← key]
  exact ha

lemma assigned_transfer (users users' : List User) (uss : List UserSchool)
    (hmap : users'.map (fun u => u.id) = users.map (fun u => u.id))
    (h : ∀ u ∈ users, uss.any (fun r => decide (r.userId = u.id)) = true) :
    ∀ u ∈ users', uss.any (fun r => decide (r.userId = u.id)) = true := by
  intro u hu
  have hx : u.id ∈ users'.map (fun u => u.id) := List.mem_map_of_mem _ hu
  rw [hmap] at hx
  obtain ⟨u2, hu2, hid⟩ := List.mem_map.mp hx
  rw [← hid]
  exact h u2 hu2

lemma run_settles (s : St) :
    (runMigrations envOk s).err = none ∧ Settled ((runMigrations envOk s).st) := by
  obtain ⟨t1, e1, tr1, sc1, se1, m1, s1, u1, us1⟩ := envOk_ensureMigrationTable s
  obtain ⟨t2, e2, tr2, sc2, se2, m2, d2, s2, u2, us2⟩ := envOk_createBaseSchema t1
  obtain ⟨t3, e3, tr3, sc3, se3, m3, s3, u3, us3⟩ := envOk_ensureSessionTable t2
  obtain ⟨t4, e4, tr4, sc4, se4, m4, d4, s4, u4, us4⟩ := envOk_addDrawingCategoryEnumValues t3
  obtain ⟨t5, e5, tr5, sc5, se5, m5, d5, sE5, u5, us5⟩ := envOk_seedSchoolsAndBoards t4
  obtain ⟨t6, e6, tr6, sc6, se6, m6, s6, uAny6, us6⟩ := envOk_seedHardcodedAdminUser t5
  have hne6 : t6.schools.isEmpty = false := by
    rw [s6]
    exact sE5
  obtain ⟨t7, e7, tr7, sc7, se7, m7, s7, u7, usAll7⟩ := envOk_assignUsersToSchools t6 hne6
  obtain ⟨t9, e9, tr9, sc9, se9, m9, d9, s9, u9, us9⟩ :=
    envOk_recalculateBudgetSpentAmounts (pushInvoked "ensure_supabase_buckets_for_schools" t7)
  obtain ⟨t10, e10, tr10, sc10, se10, m10, d10, s10, u10, us10⟩ := envOk_createRoomsAndTerrainTables t9
  obtain ⟨t11, e11, tr11, sc11, se11, m11, d11, s11, u11, us11⟩ := envOk_addMaxStudentsToRooms t10
  obtain ⟨t12, e12, tr12, sc12, se12, m12, d12, s12, u12, us12⟩ := envOk_createFoldersAndExtendDocuments t11
  obtain ⟨t13, e13, tr13, sc13, se13, m13, d13, s13, u13, us13⟩ := envOk_createInvestmentYearsTable t12
  obtain ⟨t14, e14, tr14, sc14, se14, m14, d14, s14, u14, us14⟩ := envOk_fixInvalidDrawingCategories t13
  obtain ⟨t15, e15, tr15, sc15, se15, m15, d15, s15, u15, us15⟩ := envOk_populateInvestmentYears t14
  obtain ⟨t16, e16, tr16, sc16, se16, m16, d16, s16, u16, us16⟩ := envOk_addAttachmentColumnsToReportsAndMaintenance t15
  obtain ⟨t17, e17, tr17, sc17, se17, m17, d17, s17, uMap17, us17⟩ := envOk_extendRoleEnumForRbac t16
  obtain ⟨t18, e18, tr18, sc18, se18, m18, d18, s18, uMap18, us18⟩ := envOk_fixJeanAdminRole t17
  have htr : t18.trackingTableExists = true := by
    rw [tr18, tr17, tr16, tr15, tr14, tr13, tr12, tr11, tr10, tr9]
    show t7.trackingTableExists = true
    rw [tr7, tr6, tr5, tr4, tr3, tr2]
    exact tr1
  have hsc : t18.schemaExists = true := by
    rw [sc18, sc17, sc16, sc15, sc14, sc13, sc12, sc11, sc10, sc9]
    show t7.schemaExists = true
    rw [sc7, sc6, sc5, sc4, sc3]
    exact sc2
  have hse : t18.sessionTableExists = true := by
    rw [se18, se17, se16, se15, se14, se13, se12, se11, se10, se9]
    show t7.sessionTableExists = true
    rw [se7, se6, se5, se4]
    exact se3
  have dcbs : "create_base_schema" ∈ t18.migrationNames := m18 _ (m17 _ (m16 _ (m15 _ (m14 _ (m13 _ (m12 _ (m11 _ (m10 _ (m9 _ (m7 _ (m6 _ (m5 _ (m4 _ (m3 _ (d2)))))))))))))))
  have ddrw : "add_all_drawing_category_enum_values" ∈ t18.migrationNames := m18 _ (m17 _ (m16 _ (m15 _ (m14 _ (m13 _ (m12 _ (m11 _ (m10 _ (m9 _ (m7 _ (m6 _ (m5 _ (d4)))))))))))))
  have dsb : "seed_schools_and_boards" ∈ t18.migrationNames := m18 _ (m17 _ (m16 _ (m15 _ (m14 _ (m13 _ (m12 _ (m11 _ (m10 _ (m9 _ (m7 _ (m6 _ (d5))))))))))))
  have drec : "recalculate_budget_spent_amounts" ∈ t18.migrationNames := m18 _ (m17 _ (m16 _ (m15 _ (m14 _ (m13 _ (m12 _ (m11 _ (m10 _ (d9)))))))))
  have drms : "create_rooms_and_terrain_tables" ∈ t18.migrationNames := m18 _ (m17 _ (m16 _ (m15 _ (m14 _ (m13 _ (m12 _ (m11 _ (d10))))))))
  have dmax : "add_max_students_to_rooms" ∈ t18.migrationNames := m18 _ (m17 _ (m16 _ (m15 _ (m14 _ (m13 _ (m12 _ (d11)))))))
  have dfld : "create_folders_and_extend_documents" ∈ t18.migrationNames := m18 _ (m17 _ (m16 _ (m15 _ (m14 _ (m13 _ (d12))))))
  have dinv : "create_investment_years_table" ∈ t18.migrationNames := m18 _ (m17 _ (m16 _ (m15 _ (m14 _ (d13)))))
  have dfix : "fix_invalid_drawing_categories" ∈ t18.migrationNames := m18 _ (m17 _ (m16 _ (m15 _ (d14))))
  have dpop : "populate_investment_years" ∈ t18.migrationNames := m18 _ (m17 _ (m16 _ (d15)))
  have datt : "add_attachment_columns_to_reports_and_maintenance" ∈ t18.migrationNames := m18 _ (m17 _ (d16))
  have dext : "extend_role_enum_for_rbac" ∈ t18.migrationNames := m18 _ (d17)
  have djean : "fix_jean_admin_role_v2" ∈ t18.migrationNames := d18
  have hD : ∀ n ∈ trackedNames, n ∈ t18.migrationNames := by
    intro n hn2
    simp only [trackedNames, List.mem_cons, List.mem_singleton, List.not_mem_nil, or_false] at hn2
    rcases hn2 with rfl|rfl|rfl|rfl|rfl|rfl|rfl|rfl|rfl|rfl|rfl|rfl|rfl
    exacts [dcbs, ddrw, dsb, drec, drms, dmax, dfld, dinv, dfix, dpop, datt, dext, djean]
  have hmap16 : t16.users.map (fun u => u.id) = t7.users.map (fun u => u.id) := by
    rw [u16, u15, u14, u13, u12, u11, u10, u9]
    rfl
  have hmap18 : t18.users.map (fun u => u.id) = t7.users.map (fun u => u.id) := by
    rw [uMap18, uMap17]
    exact hmap16
  have hany7 : t7.users.any (fun u => decide (u.id = hardcodedUserId)) = true := by
    rw [u7]
    exact uAny6
  have hany : t18.users.any (fun u => decide (u.id = hardcodedUserId)) = true :=
    any_id_transfer t7.users t18.users hardcodedUserId hmap18 hany7
  have hschools : t18.schools.isEmpty = false := by
    rw [s18, s17, s16, s15, s14, s13, s12, s11, s10, s9]
    show t7.schools.isEmpty = false
    rw [s7, s6]
    exact sE5
  have hus18 : t18.userSchools = t7.userSchools := by
    rw [us18, us17, us16, us15, us14, us13, us12, us11, us10, us9]
    rfl
  have hG : ∀ u ∈ t18.users, t18.userSchools.any (fun r => decide (r.userId = u.id)) = true := by
    rw [hus18]
    exact assigned_transfer t7.users t18.users t7.userSchools hmap18 usAll7
  have hc : criticalRun envOk s = ⟨t5, none⟩ := by
    unfold criticalRun
    rw [e1, andThen_mk_none, e2, andThen_mk_none, e3, andThen_mk_none, e4, andThen_mk_none, e5]
  have hn : nonCriticalRun envOk t5 = ⟨t18, none⟩ := by
    unfold nonCriticalRun
    rw [e6, andThen_mk_none, e7, andThen_mk_none, buckets_run, andThen_mk_none, e9,
      andThen_mk_none, e10, andThen_mk_none, e11, andThen_mk_none, e12, andThen_mk_none, e13,
      andThen_mk_none, e14, andThen_mk_none, e15, andThen_mk_none, e16, andThen_mk_none, e17,
      andThen_mk_none, e18]
  rw [runMigrations_of_critical_ok _ _ _ hc, hn]
  exact ⟨rfl, htr, hsc, hse, hD, hany, hschools, hG⟩


/-- C6 (confirmed): running the migrations a second time on the state
produced by a successful run changes nothing.  Timestamps and generated row
ids are not modelled, so "identical modulo timestamps" is equality of the
observable state `obs` (the state up to the ghost invocation trace); in
particular the second run returns without error, inserts zero rows into
`boards`, `schools`, `users` and `user_schools`, and adds no enum values to
`drawing_category` or `role`. -/
theorem runTwiceIdempotent (s s' : St) (h : runMigrations envOk s = ⟨s', none⟩) :
    (runMigrations envOk s').err = none ∧
    obs (runMigrations envOk s').st = obs s' ∧
    (runMigrations envOk s').st.boards = s'.boards ∧
    (runMigrations envOk s').st.schools = s'.schools ∧
    (runMigrations envOk s').st.users = s'.users ∧
    (runMigrations envOk s').st.userSchools = s'.userSchools ∧
    (runMigrations envOk s').st.drawingCategoryEnum = s'.drawingCategoryEnum ∧
    (runMigrations envOk s').st.roleEnum = s'.roleEnum := by
  have hset : Settled s' := by
    have h2 := (run_settles s).2
    rw [h] at h2
    exact h2
  rw [settled_runMigrations s' hset]
  exact ⟨rfl, rfl, rfl, rfl, rfl, rfl, rfl, rfl⟩

/-- Witness for C6 at a concrete input: one fault-free run on the fresh
database, then a second run; it returns no error and the observable state
is unchanged. -/
theorem runTwiceIdempotent_witness :
    (runMigrations envOk (runMigrations envOk freshSt).st).err = none ∧
    obs (runMigrations envOk (runMigrations envOk freshSt).st).st =
      obs (runMigrations envOk freshSt).st := by
  have herr : (runMigrations envOk freshSt).err = none := by decide
  have h : runMigrations envOk freshSt = ⟨(runMigrations envOk freshSt).st, none⟩ := by
    rw [← herr]
  exact ⟨(runTwiceIdempotent freshSt _ h).1, (runTwiceIdempotent freshSt _ h).2.1⟩

lemma filterMap_cost_filter_isSome (p : MaintenanceHistory → Bool) (mh : List MaintenanceHistory) :
    ((mh.filter (fun r => p r && r.cost.isSome)).filterMap (fun r => r.cost)) =
    ((mh.filter p).filterMap (fun r => r.cost)) := by
  induction mh with
  | nil => rfl
  | cons r rest ih =>
    cases hp : p r <;> cases hc : r.cost <;>
      simp [List.filter_cons, List.filterMap_cons, hp, hc, ih]

lemma spentFor_eq_specBudgetSpent (mh : List MaintenanceHistory) (bc : BudgetCategory) :
    spentFor mh bc = specBudgetSpent mh bc.name bc.schoolId := by
  unfold spentFor specBudgetSpent
  rw [filterMap_cost_filter_isSome
    (fun r => decide (lowerStr r.category = lowerStr bc.name) && decide (r.schoolId = bc.schoolId)) mh]
  have hfc : mh.filter
      (fun r => decide (lowerStr r.category = lowerStr bc.name) && decide (r.schoolId = bc.schoolId)) =
      mh.filter (fun r => decide (lowerStr r.category = lowerStr bc.name ∧ r.schoolId = bc.schoolId)) := by
    apply List.filter_congr
    intro r _
    simp [Bool.decide_and]
  rw [hfc]

/-- C7 (confirmed): when the budget recalculation step is not skipped by the
tracking table, it succeeds, keeps the number of budget-category rows, and
leaves every budget-category row's `spent` equal to the sum of `cost` over
the maintenance-history rows whose category equals the row's name
case-insensitively and whose school id equals the row's school id, counting
only rows with non-null cost; when no such row exists the value is 0. -/
theorem budgetBackfillCorrectness (s : St)
    (h : "recalculate_budget_spent_amounts" ∉ s.migrationNames) :
    (recalculateBudgetSpentAmounts envOk s).err = none ∧
    (recalculateBudgetSpentAmounts envOk s).st.budgetCategories.length =
      s.budgetCategories.length ∧
    ∀ bc ∈ (recalculateBudgetSpentAmounts envOk s).st.budgetCategories,
      bc.spent = specBudgetSpent s.maintenanceHistory bc.name bc.schoolId ∧
      ((∀ r ∈ s.maintenanceHistory,
          ¬(lowerStr r.category = lowerStr bc.name ∧ r.schoolId = bc.schoolId ∧
            r.cost ≠ none)) → bc.spent = 0) := by
  have hrun : hasMigrationRun envOk "recalculate_budget_spent_amounts"
      (pushInvoked "recalculate_budget_spent_amounts" s) = false :=
    fault_tracked_generic "recalculate_budget_spent_amounts" envOk
      (pushInvoked "recalculate_budget_spent_amounts" s) rfl h
  have hbf : envOk.bodyFault "recalculate_budget_spent_amounts" = none := rfl
  simp only [recalculateBudgetSpentAmounts, hrun, hbf, Bool.false_eq_true, if_false,
    markMigrationComplete_envOk]
  refine ⟨trivial, by simp [pushInvoked], ?_⟩
  intro bc hbc
  simp only [List.mem_map] at hbc
  obtain ⟨bc1, ⟨bc0, hbc0, rfl⟩, rfl⟩ := hbc
  constructor
  · exact spentFor_eq_specBudgetSpent s.maintenanceHistory ⟨bc0.name, bc0.schoolId, 0⟩
  · intro hnone
    have hfil : s.maintenanceHistory.filter
        (fun r => decide (lowerStr r.category = lowerStr bc0.name) &&
          decide (r.schoolId = bc0.schoolId) && r.cost.isSome) = [] := by
      rw [List.filter_eq_nil]
      intro r hr hpred
      have h3 : lowerStr r.category = lowerStr bc0.name ∧ r.schoolId = bc0.schoolId ∧
          r.cost ≠ none := by
        simp only [Bool.and_eq_true, decide_eq_true_eq, Option.isSome_iff_ne_none] at hpred
        exact ⟨hpred.1.1, hpred.1.2, hpred.2⟩
      exact hnone r hr h3
    have he : spentFor s.maintenanceHistory (⟨bc0.name, bc0.schoolId, 0⟩ : BudgetCategory) =
        specBudgetSpent s.maintenanceHistory bc0.name bc0.schoolId :=
      spentFor_eq_specBudgetSpent s.maintenanceHistory ⟨bc0.name, bc0.schoolId, 0⟩
    show spentFor s.maintenanceHistory ⟨bc0.name, bc0.schoolId, 0⟩ = 0
    rw [he]
    unfold specBudgetSpent
    rw [hfil]
    rfl

/-- Witness for C7 at a concrete input: the budget recalculation is not yet
tracked in `budgetSampleSt`, and applying the theorem there gives the full
conclusion. -/
theorem budgetBackfillCorrectness_witness :
    "recalculate_budget_spent_amounts" ∉ budgetSampleSt.migrationNames ∧
    ((recalculateBudgetSpentAmounts envOk budgetSampleSt).err = none ∧
    (recalculateBudgetSpentAmounts envOk budgetSampleSt).st.budgetCategories.length =
      budgetSampleSt.budgetCategories.length ∧
    ∀ bc ∈ (recalculateBudgetSpentAmounts envOk budgetSampleSt).st.budgetCategories,
      bc.spent = specBudgetSpent budgetSampleSt.maintenanceHistory bc.name bc.schoolId ∧
      ((∀ r ∈ budgetSampleSt.maintenanceHistory,
          ¬(lowerStr r.category = lowerStr bc.name ∧ r.schoolId = bc.schoolId ∧
            r.cost ≠ none)) → bc.spent = 0)) :=
  ⟨by decide, budgetBackfillCorrectness budgetSampleSt (by decide)⟩

lemma insertInvestmentYear_fresh (row : InvestmentYear) (l : List InvestmentYear)
    (h : ∀ r ∈ l, ¬(r.investmentId = row.investmentId ∧ r.year = row.year)) :
    insertInvestmentYearIfAbsent row l = l ++ [row] := by
  have hc : (l.any fun r => decide (r.investmentId = row.investmentId ∧ r.year = row.year)) =
      false := by
    simp only [List.any_eq_false, decide_eq_true_eq]
    exact h
  unfold insertInvestmentYearIfAbsent
  rw [hc]
  simp

lemma foldl_insertYears (id : String) (ys : List Int) :
    ∀ acc : List InvestmentYear,
      (∀ r ∈ acc, r.investmentId ≠ id ∨ r.year ∉ ys) → ys.Nodup →
      (ys.foldl (fun a yr => insertInvestmentYearIfAbsent ⟨id, yr, 0⟩ a) acc) =
        acc ++ ys.map (fun yr => (⟨id, yr, 0⟩ : InvestmentYear)) := by
  induction ys with
  | nil => intro acc _ _; simp
  | cons y ys ih =>
    intro acc hacc hnd
    obtain ⟨hy, hnd'⟩ := List.nodup_cons.mp hnd
    have h1 : insertInvestmentYearIfAbsent ⟨id, y, 0⟩ acc = acc ++ [⟨id, y, 0⟩] := by
      apply insertInvestmentYear_fresh
      intro r hr hk
      rcases hacc r hr with h' | h'
      · exact h' hk.1
      · exact h' (by rw [hk.2]; exact List.mem_cons_self y ys)
    have h2 : ∀ r ∈ acc ++ [(⟨id, y, 0⟩ : InvestmentYear)],
        r.investmentId ≠ id ∨ r.year ∉ ys := by
      intro r hr
      rcases List.mem_append.mp hr with h' | h'
      · rcases hacc r h' with h'' | h''
        · exact Or.inl h''
        · exact Or.inr fun hm => h'' (List.mem_cons_of_mem y hm)
      · have hre : r = ⟨id, y, 0⟩ := by simpa using h'
        subst hre
        exact Or.inr hy
    rw [List.foldl_cons, h1, ih (acc ++ [(⟨id, y, 0⟩ : InvestmentYear)]) h2 hnd']
    simp

lemma yearsFor_nodup (i : Investment) : (yearsForInvestment i).Nodup := by
  unfold yearsForInvestment
  cases hsy : i.startYear with
  | none => exact List.nodup_nil
  | some y =>
    cases hcy : i.isCyclic with
    | false => simp
    | true =>
      cases hc : i.cycleYears with
      | none => simp
      | some c =>
        by_cases hc0 : c = 0
        · simp [hc0]
        · simp only [if_pos, if_neg hc0, if_true]
          have hinj : Function.Injective (fun k : Nat => y + ((k * c : Nat) : Int)) := by
            intro a b hab
            simp only at hab
            have hab2 : ((a * c : Nat) : Int) = ((b * c : Nat) : Int) := by
              exact add_left_cancel hab
            have hab3 : a * c = b * c := by exact_mod_cast hab2
            exact Nat.eq_of_mul_eq_mul_right (Nat.pos_of_ne_zero hc0) hab3
          exact List.Nodup.map hinj (List.nodup_range _)

lemma yearsFor_cyclic_mem (i : Investment) (y : Int) (c : Nat)
    (hsy : i.startYear = some y) (hcy : i.isCyclic = true) (hc : i.cycleYears = some c)
    (hc0 : c ≠ 0) (z : Int) :
    z ∈ yearsForInvestment i ↔
      (∃ k : Nat, z = y + (k : Int) * (c : Int)) ∧ z ≤ y + 30 := by
  have hpos : 0 < c := Nat.pos_of_ne_zero hc0
  simp only [yearsForInvestment, hsy, hcy, hc, if_true]
  rw [if_neg hc0]
  constructor
  · intro hz
    simp only [List.mem_map, List.mem_range] at hz
    obtain ⟨k, hk, hzk⟩ := hz
    have hkc : k * c ≤ 30 := (Nat.le_div_iff_mul_le hpos).mp (Nat.lt_succ_iff.mp hk)
    constructor
    · exact ⟨k, by rw [← hzk]; push_cast; ring⟩
    · rw [← hzk]
      have hle : ((k * c : Nat) : Int) ≤ 30 := by exact_mod_cast hkc
      omega
  · rintro ⟨⟨k, rfl⟩, hle⟩
    have h30 : (k : Int) * (c : Int) ≤ 30 := le_of_add_le_add_left hle
    have hkc : k * c ≤ 30 := by exact_mod_cast h30
    have hk : k < 30 / c + 1 := Nat.lt_succ_of_le ((Nat.le_div_iff_mul_le hpos).mpr hkc)
    simp only [List.mem_map, List.mem_range]
    exact ⟨k, hk, by push_cast; ring⟩

lemma yearsFor_single (i : Investment) (y : Int) (hsy : i.startYear = some y)
    (h : i.isCyclic = false ∨ i.cycleYears = none ∨ i.cycleYears = some 0) :
    yearsForInvestment i = [y] := by
  rcases h with h | h | h
  · simp [yearsForInvestment, hsy, h]
  · cases hcy : i.isCyclic <;> simp [yearsForInvestment, hsy, h, hcy]
  · cases hcy : i.isCyclic <;> simp [yearsForInvestment, hsy, h, hcy]

lemma populateAll_fresh (invs : List Investment) :
    ∀ acc : List InvestmentYear,
      (∀ i ∈ invs, ∀ r ∈ acc, r.investmentId ≠ i.id) →
      (invs.map Investment.id).Nodup →
      populateAll invs acc =
        acc ++ invs.flatMap
          (fun i => (yearsForInvestment i).map (fun yr => (⟨i.id, yr, 0⟩ : InvestmentYear))) := by
  induction invs with
  | nil => intro acc _ _; simp [populateAll]
  | cons i invs ih =>
    intro acc hfresh hnd
    obtain ⟨hid, hnd'⟩ := List.nodup_cons.mp hnd
    have h1 : insertYearsFor i acc =
        acc ++ (yearsForInvestment i).map (fun yr => (⟨i.id, yr, 0⟩ : InvestmentYear)) :=
      foldl_insertYears i.id (yearsForInvestment i) acc
        (fun r hr => Or.inl (hfresh i (List.mem_cons_self i invs) r hr)) (yearsFor_nodup i)
    have h2 : ∀ j ∈ invs, ∀ r ∈ acc ++ (yearsForInvestment i).map
        (fun yr => (⟨i.id, yr, 0⟩ : InvestmentYear)), r.investmentId ≠ j.id := by
      intro j hj r hr
      rcases List.mem_append.mp hr with h' | h'
      · exact hfresh j (List.mem_cons_of_mem i hj) r h'
      · obtain ⟨yr, -, rfl⟩ := List.mem_map.mp h'
        intro he
        exact hid (List.mem_map.mpr ⟨j, hj, he.symm⟩)
    have hstep : populateAll (i :: invs) acc = populateAll invs (insertYearsFor i acc) := rfl
    rw [hstep, h1, ih _ h2 hnd']
    simp [List.append_assoc]

lemma mem_investmentsNeedingYears (s : St) (i : Investment) :
    i ∈ investmentsNeedingYears s ↔
      i ∈ s.investments ∧
      (s.investmentYears.any fun r => decide (r.investmentId = i.id)) = false ∧
      i.startYear ≠ none := by
  unfold investmentsNeedingYears
  rw [List.mem_filter]
  constructor
  · rintro ⟨hm, hp⟩
    simp only [Bool.and_eq_true, Bool.not_eq_true'] at hp
    refine ⟨hm, hp.1, ?_⟩
    intro he
    rw [he] at hp
    simp at hp
  · rintro ⟨hm, ha, hsy⟩
    refine ⟨hm, ?_⟩
    simp only [Bool.and_eq_true, Bool.not_eq_true']
    refine ⟨ha, ?_⟩
    cases hs : i.startYear with
    | none => exact absurd hs hsy
    | some y => rfl

/-- C8 (confirmed): when the investment-years backfill is not skipped by the
tracking table and investment ids are unique, the step succeeds and appends
to `investment_years` exactly one zero-amount row per generated year for
every investment that has no year rows and a non-null start date;
investments that already have year rows or lack a start date keep their year
rows unchanged; the generated years of a cyclic investment with non-zero
interval `c` are exactly the years `start + k·c` not exceeding `start + 30`,
a non-cyclic investment (or one with no/zero interval) gets exactly the
single year `start`, and no year is generated twice for the same
investment. -/
theorem investmentYearsBackfill (s : St)
    (h1 : "populate_investment_years" ∉ s.migrationNames)
    (h2 : (s.investments.map Investment.id).Nodup) :
    (populateInvestmentYears envOk s).err = none ∧
    (populateInvestmentYears envOk s).st.investmentYears =
      s.investmentYears ++
        (investmentsNeedingYears s).flatMap
          (fun i => (yearsForInvestment i).map (fun yr => (⟨i.id, yr, 0⟩ : InvestmentYear))) ∧
    (∀ i ∈ s.investments,
      ((s.investmentYears.any fun r => decide (r.investmentId = i.id)) = true ∨
        i.startYear = none) →
      ((populateInvestmentYears envOk s).st.investmentYears.filter
          (fun r => decide (r.investmentId = i.id))) =
        s.investmentYears.filter (fun r => decide (r.investmentId = i.id))) ∧
    (∀ i : Investment, i.isCyclic = true → ∀ c, i.cycleYears = some c → c ≠ 0 →
      ∀ y, i.startYear = some y → ∀ z : Int,
        z ∈ yearsForInvestment i ↔
          (∃ k : Nat, z = y + (k : Int) * (c : Int)) ∧ z ≤ y + 30) ∧
    (∀ i : Investment, ∀ y, i.startYear = some y →
      (i.isCyclic = false ∨ i.cycleYears = none ∨ i.cycleYears = some 0) →
      yearsForInvestment i = [y]) ∧
    (∀ i : Investment, (yearsForInvestment i).Nodup) := by
  have hrun : hasMigrationRun envOk "populate_investment_years"
      (pushInvoked "populate_investment_years" s) = false :=
    fault_tracked_generic "populate_investment_years" envOk
      (pushInvoked "populate_investment_years" s) rfl h1
  have hbf : envOk.bodyFault "populate_investment_years" = none := rfl
  have hneed : ∀ i ∈ investmentsNeedingYears s, ∀ r ∈ s.investmentYears,
      r.investmentId ≠ i.id := by
    intro i hi r hr he
    have h3 := ((mem_investmentsNeedingYears s i).mp hi).2.1
    have hcontra : (s.investmentYears.any fun r2 => decide (r2.investmentId = i.id)) = true :=
      List.any_eq_true.mpr ⟨r, hr, by simp [he]⟩
    rw [h3] at hcontra
    exact Bool.false_ne_true hcontra
  have hndneed : ((investmentsNeedingYears s).map Investment.id).Nodup := by
    have hsub : List.Sublist (investmentsNeedingYears s) s.investments := List.filter_sublist _
    exact h2.sublist (hsub.map Investment.id)
  have hpop : populateAll (investmentsNeedingYears s) s.investmentYears =
      s.investmentYears ++ (investmentsNeedingYears s).flatMap
        (fun i => (yearsForInvestment i).map (fun yr => (⟨i.id, yr, 0⟩ : InvestmentYear))) :=
    populateAll_fresh (investmentsNeedingYears s) s.investmentYears hneed hndneed
  simp only [populateInvestmentYears, hrun, hbf, Bool.false_eq_true, if_false,
    markMigrationComplete_envOk]
  refine ⟨trivial, ?_, ?_, ?_, ?_, ?_⟩
  · show populateAll (investmentsNeedingYears s) s.investmentYears =
      s.investmentYears ++ (investmentsNeedingYears s).flatMap
        (fun i => (yearsForInvestment i).map (fun yr => (⟨i.id, yr, 0⟩ : InvestmentYear)))
    exact hpop
  · intro i hi hcov
    have hnotneed : i ∉ investmentsNeedingYears s := by
      intro hmem
      obtain ⟨-, hany, hsy⟩ := (mem_investmentsNeedingYears s i).mp hmem
      rcases hcov with hcv | hcv
      · rw [hany] at hcv
        exact Bool.false_ne_true hcv
      · exact hsy hcv
    show ((populateAll (investmentsNeedingYears s) s.investmentYears).filter
        (fun r => decide (r.investmentId = i.id))) =
      s.investmentYears.filter (fun r => decide (r.investmentId = i.id))
    rw [hpop, List.filter_append]
    have hflat : (((investmentsNeedingYears s).flatMap
        (fun j => (yearsForInvestment j).map (fun yr => (⟨j.id, yr, 0⟩ : InvestmentYear)))).filter
        (fun r => decide (r.investmentId = i.id))) = [] := by
      rw [List.filter_eq_nil]
      intro r hr hpred
      obtain ⟨j, hj, hrj⟩ := List.mem_flatMap.mp hr
      obtain ⟨yr, -, rfl⟩ := List.mem_map.mp hrj
      have he : j.id = i.id := by simpa using hpred
      have hji : j = i :=
        List.inj_on_of_nodup_map h2 ((mem_investmentsNeedingYears s j).mp hj).1 hi he
      exact hnotneed (hji ▸ hj)
    rw [hflat, List.append_nil]
  · intro i hcy c hc hc0 y hsy z
    exact yearsFor_cyclic_mem i y c hsy hcy hc hc0 z
  · intro i y hsy hnc
    exact yearsFor_single i y hsy hnc
  · intro i
    exact yearsFor_nodup i

/-- Witness for C8 at a concrete input: in `investSampleSt` the backfill is
untracked and investment ids are unique, and applying the theorem there
gives the full conclusion. -/
theorem investmentYearsBackfill_witness :
    ("populate_investment_years" ∉ investSampleSt.migrationNames ∧
      (investSampleSt.investments.map Investment.id).Nodup) ∧
    ((populateInvestmentYears envOk investSampleSt).err = none ∧
    (populateInvestmentYears envOk investSampleSt).st.investmentYears =
      investSampleSt.investmentYears ++
        (investmentsNeedingYears investSampleSt).flatMap
          (fun i => (yearsForInvestment i).map (fun yr => (⟨i.id, yr, 0⟩ : InvestmentYear))) ∧
    (∀ i ∈ investSampleSt.investments,
      ((investSampleSt.investmentYears.any fun r => decide (r.investmentId = i.id)) = true ∨
        i.startYear = none) →
      ((populateInvestmentYears envOk investSampleSt).st.investmentYears.filter
          (fun r => decide (r.investmentId = i.id))) =
        investSampleSt.investmentYears.filter (fun r => decide (r.investmentId = i.id))) ∧
    (∀ i : Investment, i.isCyclic = true → ∀ c, i.cycleYears = some c → c ≠ 0 →
      ∀ y, i.startYear = some y → ∀ z : Int,
        z ∈ yearsForInvestment i ↔
          (∃ k : Nat, z = y + (k : Int) * (c : Int)) ∧ z ≤ y + 30) ∧
    (∀ i : Investment, ∀ y, i.startYear = some y →
      (i.isCyclic = false ∨ i.cycleYears = none ∨ i.cycleYears = some 0) →
      yearsForInvestment i = [y]) ∧
    (∀ i : Investment, (yearsForInvestment i).Nodup)) :=
  ⟨⟨by decide, by decide⟩,
    investmentYearsBackfill investSampleSt (by decide) (by decide)⟩

lemma insertBoard_id_mem (b : Board) (l : List Board) :
    ∃ r ∈ insertBoardIfAbsent b l, r.id = b.id := by
  unfold insertBoardIfAbsent
  split
  · next h =>
    obtain ⟨r, hr, hid⟩ := List.any_eq_true.mp h
    exact ⟨r, hr, by simpa using hid⟩
  · exact ⟨b, List.mem_append.mpr (Or.inr (List.mem_singleton.mpr rfl)), rfl⟩

lemma insertBoard_id_preserved (b : Board) (l : List Board) (id0 : String)
    (h : ∃ r ∈ l, r.id = id0) :
    ∃ r ∈ insertBoardIfAbsent b l, r.id = id0 := by
  obtain ⟨r, hr, hid⟩ := h
  unfold insertBoardIfAbsent
  split
  · exact ⟨r, hr, hid⟩
  · exact ⟨r, List.mem_append.mpr (Or.inl hr), hid⟩

lemma foldl_insertBoard_preserve (bs : List Board) :
    ∀ cur (id0 : String), (∃ r ∈ cur, r.id = id0) →
      ∃ r ∈ bs.foldl (fun acc b2 => insertBoardIfAbsent b2 acc) cur, r.id = id0 := by
  induction bs with
  | nil => intro cur id0 h; simpa using h
  | cons b0 bs ih =>
    intro cur id0 h
    rw [List.foldl_cons]
    exact ih _ id0 (insertBoard_id_preserved b0 cur id0 h)

lemma foldl_insertBoard_ids (bs : List Board) :
    ∀ cur, ∀ b ∈ bs,
      ∃ r ∈ bs.foldl (fun acc b2 => insertBoardIfAbsent b2 acc) cur, r.id = b.id := by
  induction bs with
  | nil => intro cur b hb; exact absurd hb (List.not_mem_nil b)
  | cons b0 bs ih =>
    intro cur b hb
    rw [List.foldl_cons]
    rcases List.mem_cons.mp hb with rfl | hb'
    · exact foldl_insertBoard_preserve bs _ b.id (insertBoard_id_mem b cur)
    · exact ih _ b hb'

lemma seedAllSchools_nil : seedAllSchools [] = seededSchools := by decide

lemma seedAllBoards_nil : seedAllBoards [] = seededBoards := by decide

set_option maxHeartbeats 1000000 in
/-- C9 (confirmed): `seedSchoolsAndBoards` inserts its fixed reference rows
only when the `schools` relation is empty: when at least one school row
exists, `boards` and `schools` are left exactly as they were and only the
tracking-table mark is written; when `schools` is empty, the nine fixed
school rows are inserted (exactly `seededSchools`), the two fixed board ids
are present afterwards, and on an empty `boards` table the boards are
exactly the two fixed rows.  It is not a general upsert. -/
theorem seedOnlyWhenEmpty (s : St) :
    (seedSchoolsAndBoards envOk s).err = none ∧
    (s.schools.isEmpty = false →
      (seedSchoolsAndBoards envOk s).st.boards = s.boards ∧
      (seedSchoolsAndBoards envOk s).st.schools = s.schools) ∧
    (s.schools.isEmpty = true →
      (seedSchoolsAndBoards envOk s).st.schools = seededSchools ∧
      (seedSchoolsAndBoards envOk s).st.boards = seedAllBoards s.boards ∧
      (∀ b ∈ seededBoards, ∃ r ∈ (seedSchoolsAndBoards envOk s).st.boards, r.id = b.id) ∧
      (s.boards = [] → (seedSchoolsAndBoards envOk s).st.boards = seededBoards)) ∧
    (seedSchoolsAndBoards envOk s).st.migrationNames =
      insertIfAbsentStr "seed_schools_and_boards" s.migrationNames := by
  have hgoal : seedSchoolsAndBoards envOk s =
      if (pushInvoked "seed_schools_and_boards" s).schools.isEmpty then
        markMigrationComplete envOk "seed_schools_and_boards"
          { pushInvoked "seed_schools_and_boards" s with
            boards := seedAllBoards (pushInvoked "seed_schools_and_boards" s).boards,
            schools := seedAllSchools (pushInvoked "seed_schools_and_boards" s).schools }
      else
        markMigrationComplete envOk "seed_schools_and_boards"
          (pushInvoked "seed_schools_and_boards" s) := rfl
  by_cases hbe : (pushInvoked "seed_schools_and_boards" s).schools.isEmpty = true
  · have hnil : s.schools = [] := List.isEmpty_iff.mp hbe
    have hpush : (pushInvoked "seed_schools_and_boards" s).schools = [] := hnil
    rw [hgoal, if_pos hbe, markMigrationComplete_envOk, hpush]
    refine ⟨rfl, ?_, ?_, rfl⟩
    · intro hne
      have hbe2 : s.schools.isEmpty = true := hbe
      rw [hne] at hbe2
      exact absurd hbe2 Bool.false_ne_true
    · intro _
      refine ⟨?_, rfl, ?_, ?_⟩
      · show seedAllSchools ([] : List School) = seededSchools
        exact seedAllSchools_nil
      · show ∀ b ∈ seededBoards, ∃ r ∈ seedAllBoards s.boards, r.id = b.id
        intro b hb
        exact foldl_insertBoard_ids seededBoards s.boards b hb
      · intro hbnil
        have hbp : (pushInvoked "seed_schools_and_boards" s).boards = [] := hbnil
        rw [hbp]
        show seedAllBoards ([] : List Board) = seededBoards
        exact seedAllBoards_nil
  · rw [hgoal, if_neg hbe, markMigrationComplete_envOk]
    refine ⟨rfl, fun _ => ⟨rfl, rfl⟩, ?_, rfl⟩
    intro hem
    have hbe2 : (pushInvoked "seed_schools_and_boards" s).schools.isEmpty = true := hem
    exact absurd hbe2 hbe

/-- Witness for C9 at a concrete input: on the fresh (empty) database the
step seeds exactly the fixed school and board rows. -/
theorem seedOnlyWhenEmpty_witness :
    freshSt.schools.isEmpty = true ∧
    (seedSchoolsAndBoards envOk freshSt).err = none ∧
    (seedSchoolsAndBoards envOk freshSt).st.schools = seededSchools ∧
    (seedSchoolsAndBoards envOk freshSt).st.boards = seededBoards :=
  ⟨rfl, (seedOnlyWhenEmpty freshSt).1,
    ((seedOnlyWhenEmpty freshSt).2.2.1 rfl).1,
    ((seedOnlyWhenEmpty freshSt).2.2.1 rfl).2.2.2 rfl⟩

lemma missingSchools_orphan (s : St) (uid : String)
    (h : hasSchoolAssignment s uid = false) :
    missingSchools s uid = s.schools := by
  have horphan : ∀ sch : School,
      (s.userSchools.any (fun r => decide (r.userId = uid ∧ r.schoolId = sch.id))) = false := by
    intro sch
    rw [List.any_eq_false]
    intro r hr hcon
    have h2 := of_decide_eq_true hcon
    have h3 : hasSchoolAssignment s uid = true :=
      List.any_eq_true.mpr ⟨r, hr, by simp [h2.1]⟩
    rw [h] at h3
    exact Bool.false_ne_true h3
  unfold missingSchools
  rw [List.filter_eq_self]
  intro sch hsch
  rw [horphan sch]
  rfl

lemma filter_userSchools_orphan (s : St) (uid : String)
    (h : hasSchoolAssignment s uid = false) :
    (s.userSchools.filter (fun r => decide (r.userId = uid))) = [] := by
  rw [List.filter_eq_nil]
  intro r hr hcon
  have h3 : hasSchoolAssignment s uid = true :=
    List.any_eq_true.mpr ⟨r, hr, hcon⟩
  rw [h] at h3
  exact Bool.false_ne_true h3

lemma filter_assignRows_ne (uid vid : String) (schs : List School) (h : vid ≠ uid) :
    ((assignRows vid schs).filter (fun r => decide (r.userId = uid))) = [] := by
  rw [List.filter_eq_nil]
  intro r hr hcon
  have h1 : r.userId = vid := markFirstDefault_userId vid (minSchoolName schs) schs r hr
  have h2 : r.userId = uid := of_decide_eq_true hcon
  exact h (h1.symm.trans h2)

lemma filter_assignRows_self (uid : String) (schs : List School) :
    ((assignRows uid schs).filter (fun r => decide (r.userId = uid))) = assignRows uid schs := by
  rw [List.filter_eq_self]
  intro r hr
  simp [markFirstDefault_userId uid (minSchoolName schs) schs r hr]

lemma filter_flatMap_assign_nil (users : List User) (s : St) (uid : String)
    (h : ∀ v ∈ users, v.id ≠ uid) :
    ((users.flatMap (fun v => assignRows v.id (missingSchools s v.id))).filter
        (fun r => decide (r.userId = uid))) = [] := by
  induction users with
  | nil => rfl
  | cons v vs ih =>
    rw [List.flatMap_cons, List.filter_append,
      filter_assignRows_ne uid v.id (missingSchools s v.id) (h v (List.mem_cons_self v vs)),
      ih (fun w hw => h w (List.mem_cons_of_mem v hw))]
    rfl

lemma filter_flatMap_assign (users : List User) (s : St) :
    ∀ u ∈ users, (users.map User.id).Nodup →
      ((users.flatMap (fun v => assignRows v.id (missingSchools s v.id))).filter
          (fun r => decide (r.userId = u.id))) =
        assignRows u.id (missingSchools s u.id) := by
  induction users with
  | nil => intro u hu; cases hu
  | cons v vs ih =>
    intro u hu hnd
    obtain ⟨hvid, hnd'⟩ := List.nodup_cons.mp hnd
    rw [List.flatMap_cons, List.filter_append]
    rcases List.mem_cons.mp hu with heq | hu'
    · subst heq
      rw [filter_assignRows_self u.id (missingSchools s u.id),
        filter_flatMap_assign_nil vs s u.id
          (fun w hw hcon => hvid (List.mem_map.mpr ⟨w, hw, hcon⟩)),
        List.append_nil]
    · rw [filter_assignRows_ne u.id v.id (missingSchools s v.id)
          (fun hcon => hvid (hcon.symm ▸ List.mem_map.mpr ⟨u, hu', rfl⟩)),
        ih u hu' hnd']
      rfl

lemma assignRows_one_default (uid : String) (l : List School) (h : l ≠ []) :
    ((assignRows uid l).countP (fun r => r.isDefault)) = 1 := by
  unfold assignRows
  rw [markFirstDefault_countP]
  obtain ⟨sch, hm, he⟩ := minSchoolName_attained l h
  have hany : (l.any fun sch2 => decide (sch2.name = minSchoolName l)) = true :=
    List.any_eq_true.mpr ⟨sch, hm, by simp [he]⟩
  rw [hany]
  rfl

/-- C10 (confirmed): whenever `assignUsersToSchools` runs on a state with a
user who has no `user_schools` row, unique user ids and a non-empty
`schools` table, the step succeeds and afterwards the rows of that user are
exactly one row per row of the `schools` table (not just one school), all
carrying the user's id, with exactly one of them marked default, and the
default row points at a school whose name is alphabetically minimal among
all schools. -/
theorem assignOrphansAllSchools (s : St) (u : User)
    (hu : u ∈ s.users)
    (horph : hasSchoolAssignment s u.id = false)
    (hnd : (s.users.map User.id).Nodup)
    (hsch : s.schools ≠ []) :
    (assignUsersToSchools envOk s).err = none ∧
    ((assignUsersToSchools envOk s).st.userSchools.filter
        (fun r => decide (r.userId = u.id))) = assignRows u.id s.schools ∧
    ((assignRows u.id s.schools).map (fun r => r.schoolId)) =
      s.schools.map (fun sch => sch.id) ∧
    (∀ r ∈ assignRows u.id s.schools, r.userId = u.id) ∧
    ((assignRows u.id s.schools).countP (fun r => r.isDefault)) = 1 ∧
    (∀ r ∈ assignRows u.id s.schools, r.isDefault = true →
      ∃ sch ∈ s.schools, r.schoolId = sch.id ∧
        ∀ sch2 ∈ s.schools, sch.name ≤ sch2.name) := by
  have hbf : envOk.bodyFault "assign_users_to_schools" = none := rfl
  have hne : (pushInvoked "assign_users_to_schools" s).users.isEmpty = false := by
    show s.users.isEmpty = false
    rw [Bool.eq_false_iff]
    intro hc
    exact List.ne_nil_of_mem hu (List.isEmpty_iff.mp hc)
  have hanyOrph : ((pushInvoked "assign_users_to_schools" s).users.any
      (fun v => !hasSchoolAssignment (pushInvoked "assign_users_to_schools" s) v.id)) = true := by
    show (s.users.any (fun v => !hasSchoolAssignment s v.id)) = true
    refine List.any_eq_true.mpr ⟨u, hu, ?_⟩
    rw [horph]
    rfl
  have hgoal : assignUsersToSchools envOk s =
      ⟨{ pushInvoked "assign_users_to_schools" s with
          userSchools := (pushInvoked "assign_users_to_schools" s).userSchools ++
            (pushInvoked "assign_users_to_schools" s).users.flatMap
              (fun v => assignRows v.id
                (missingSchools (pushInvoked "assign_users_to_schools" s) v.id)) }, none⟩ := by
    simp only [assignUsersToSchools, hbf, hne, hanyOrph, Bool.not_true, Bool.false_eq_true,
      if_false]
  rw [hgoal]
  refine ⟨rfl, ?_, ?_, ?_, ?_, ?_⟩
  · show ((s.userSchools ++ s.users.flatMap
        (fun v => assignRows v.id (missingSchools s v.id))).filter
        (fun r => decide (r.userId = u.id))) = assignRows u.id s.schools
    rw [List.filter_append, filter_userSchools_orphan s u.id horph,
      filter_flatMap_assign s.users s u hu hnd, missingSchools_orphan s u.id horph]
    rfl
  · exact markFirstDefault_schoolIds u.id (minSchoolName s.schools) s.schools
  · exact markFirstDefault_userId u.id (minSchoolName s.schools) s.schools
  · exact assignRows_one_default u.id s.schools hsch
  · intro r hr hd
    obtain ⟨sch, hs, hid, hname⟩ :=
      markFirstDefault_default_school u.id (minSchoolName s.schools) s.schools r hr hd
    refine ⟨sch, hs, hid, ?_⟩
    intro sch2 hs2
    rw [hname]
    exact minSchoolName_le s.schools sch2 hs2

/-- Witness for C10 at a concrete input: in `assignSampleSt` the user
`orphanUser` has no assignment, user ids are unique and two schools exist;
applying the theorem there gives the full conclusion. -/
theorem assignOrphansAllSchools_witness :
    (orphanUser ∈ assignSampleSt.users ∧
      hasSchoolAssignment assignSampleSt orphanUser.id = false ∧
      (assignSampleSt.users.map User.id).Nodup ∧
      assignSampleSt.schools ≠ []) ∧
    ((assignUsersToSchools envOk assignSampleSt).err = none ∧
    ((assignUsersToSchools envOk assignSampleSt).st.userSchools.filter
        (fun r => decide (r.userId = orphanUser.id))) =
      assignRows orphanUser.id assignSampleSt.schools ∧
    ((assignRows orphanUser.id assignSampleSt.schools).map (fun r => r.schoolId)) =
      assignSampleSt.schools.map (fun sch => sch.id) ∧
    (∀ r ∈ assignRows orphanUser.id assignSampleSt.schools, r.userId = orphanUser.id) ∧
    ((assignRows orphanUser.id assignSampleSt.schools).countP (fun r => r.isDefault)) = 1 ∧
    (∀ r ∈ assignRows orphanUser.id assignSampleSt.schools, r.isDefault = true →
      ∃ sch ∈ assignSampleSt.schools, r.schoolId = sch.id ∧
        ∀ sch2 ∈ assignSampleSt.schools, sch.name ≤ sch2.name)) :=
  ⟨⟨by decide, by decide, by decide, by decide⟩,
    assignOrphansAllSchools assignSampleSt orphanUser
      (by decide) (by decide) (by decide) (by decide)⟩

end Eduvium
